import Mathlib

/-!
# solidos-3D-UNAL: the four-viewport viewer

A shallow embedding of `src/view.js` (class `ViewManager`), `src/config.js`, `src/model.js`
(class `ModelManager`) and `src/controller.js` (class `AppController`).

* JavaScript numbers are rationals (`ℚ`) and arithmetic is exact; `Math.sqrt` is `Rat.sqrt`,
  which is the square root only of a rational square. Where rounding decides, which is the
  distance of the perspective camera, the computation is embedded a second time in double
  arithmetic (`F64`, `Vec64`, `perspectiveDistance64`).
* Objects that the code shares by reference and mutates (materials) live in a store indexed by
  their uuid; scene-graph nodes carry a reference number `ref` that stands for object identity.
* A method that can hit a `null` dereference returns the state it reached together with a
  `Completion`; an `async` method returns a `Promise`.
* three.js itself is not part of the repository: its classes are modelled by the fields and
  methods that `view.js` uses (translation-only transforms, axis-aligned boxes).
-/

namespace Solidos

/-! ## three.js value types -/

/-- `THREE.Vector3`. -/
structure Vector3 where
  x : ℚ
  y : ℚ
  z : ℚ
deriving DecidableEq

namespace Vector3

/-- The vector `(0, 0, 0)`, the value of `new THREE.Vector3()`. -/
def zero : Vector3 := ⟨0, 0, 0⟩

/-- `a.add(b)`. -/
def add (a b : Vector3) : Vector3 := ⟨a.x + b.x, a.y + b.y, a.z + b.z⟩

/-- `a.sub(b)`. -/
def sub (a b : Vector3) : Vector3 := ⟨a.x - b.x, a.y - b.y, a.z - b.z⟩

/-- `v.multiplyScalar(k)`. -/
def multiplyScalar (v : Vector3) (k : ℚ) : Vector3 := ⟨v.x * k, v.y * k, v.z * k⟩

/-- `v.divideScalar(k)`, which three.js computes as `multiplyScalar(1 / k)`. -/
def divideScalar (v : Vector3) (k : ℚ) : Vector3 := v.multiplyScalar (1 / k)

/-- `v.lengthSq()`. -/
def lengthSq (v : Vector3) : ℚ := v.x * v.x + v.y * v.y + v.z * v.z

/-- `v.length()`, that is `Math.sqrt(lengthSq)`, in exact arithmetic: the value is the square
root when `lengthSq` is a rational square. `Vec64.length` is the same method in doubles. -/
def length (v : Vector3) : ℚ := Rat.sqrt v.lengthSq

/-- `v.normalize()`, that is `divideScalar(length() || 1)`. -/
def normalize (v : Vector3) : Vector3 :=
  v.divideScalar (if v.length = 0 then 1 else v.length)

/-- `v.setLength(l)`, that is `normalize().multiplyScalar(l)`. -/
def setLength (v : Vector3) (l : ℚ) : Vector3 := v.normalize.multiplyScalar l

end Vector3

/-- A non-empty `THREE.Box3`: `min` is below `max` on every axis. The empty box that
`makeEmpty()` produces is `none` in `Option Box3`. -/
@[ext] structure Box3 where
  min : Vector3
  max : Vector3
  valid : min.x ≤ max.x ∧ min.y ≤ max.y ∧ min.z ≤ max.z

namespace Box3

/-- The box moved by `v` (what `applyMatrix4` does for a translation). -/
def translate (v : Vector3) (b : Box3) : Box3 where
  min := b.min.add v
  max := b.max.add v
  valid := by
    obtain ⟨hx, hy, hz⟩ := b.valid
    exact ⟨by simpa [Vector3.add] using hx, by simpa [Vector3.add] using hy,
      by simpa [Vector3.add] using hz⟩

/-- `a.union(b)` for two non-empty boxes: componentwise `min` of the lower and `max` of the
upper corners. -/
def union (a b : Box3) : Box3 where
  min := ⟨Min.min a.min.x b.min.x, Min.min a.min.y b.min.y, Min.min a.min.z b.min.z⟩
  max := ⟨Max.max a.max.x b.max.x, Max.max a.max.y b.max.y, Max.max a.max.z b.max.z⟩
  valid := by
    obtain ⟨hx, hy, hz⟩ := a.valid
    exact ⟨le_trans (min_le_left _ _) (le_trans hx (le_max_left _ _)),
      le_trans (min_le_left _ _) (le_trans hy (le_max_left _ _)),
      le_trans (min_le_left _ _) (le_trans hz (le_max_left _ _))⟩

/-- `box.union(other)` where either side may be the empty box. -/
def expandBy : Option Box3 → Option Box3 → Option Box3
  | none, g => g
  | some a, none => some a
  | some a, some c => some (a.union c)

/-- `box.getCenter(target)`: the origin for the empty box, else the midpoint. -/
def getCenter : Option Box3 → Vector3
  | none => Vector3.zero
  | some b => (b.min.add b.max).multiplyScalar (1 / 2)

/-- `box.getSize(target)`: zero for the empty box, else `max - min`. -/
def getSize : Option Box3 → Vector3
  | none => Vector3.zero
  | some b => b.max.sub b.min

end Box3

/-- `Math.max(a, b, c)`. -/
def max3 (a b c : ℚ) : ℚ := Max.max (Max.max a b) c

/-- `THREE.Color`. -/
structure Color where
  r : ℚ
  g : ℚ
  b : ℚ
deriving DecidableEq

/-- `color.multiplyScalar(k)`. -/
def Color.multiplyScalar (c : Color) (k : ℚ) : Color := ⟨c.r * k, c.g * k, c.b * k⟩

/-- A three.js material, identified in the store by its `uuid`. -/
structure Material where
  type : String
  color : Option Color
  map : Option Nat
  roughness : Option ℚ
  metalness : Option ℚ
  needsUpdate : Bool
deriving DecidableEq

/-- `THREE.BufferGeometry`: its identity and the bounding box of its vertices (`none` when it
has no vertices). -/
structure BufferGeometry where
  id : Nat
  boundingBox : Option Box3

/-- `THREE.Object3D` and its subclasses, as far as `view.js` reads and writes them. `ref` stands
for the identity of the object; three.js draws it from one global counter. `material` is the
uuid of the material in the store. -/
structure Object3D where
  ref : Nat
  type : String
  name : String
  isMesh : Bool
  geometry : Option BufferGeometry
  material : Option Nat
  position : Vector3
  castShadow : Bool
  receiveShadow : Bool
  children : List Object3D

namespace Object3D

mutual
/-- The nodes that `object.traverse(callback)` visits, in visiting order: the object itself,
then the subtree of each child. -/
def nodes : Object3D → List Object3D
  | ⟨ref, type, name, isMesh, geometry, material, position, cast, receive, children⟩ =>
    ⟨ref, type, name, isMesh, geometry, material, position, cast, receive, children⟩ ::
      nodesOfList children
/-- The nodes of a list of subtrees, in visiting order. -/
def nodesOfList : List Object3D → List Object3D
  | [] => []
  | c :: cs => nodes c ++ nodesOfList cs
end

mutual
/-- `box.expandByObject(object)` for translation-only transforms: `offset` is the world position
of the parent, and every geometry contributes its bounding box moved to the world position of
its node. -/
def expandByObject (offset : Vector3) : Object3D → Option Box3 → Option Box3
  | ⟨_, _, _, _, geometry, _, position, _, _, children⟩, box =>
    expandByChildren (offset.add position) children
      (match geometry with
       | some g => Box3.expandBy box (g.boundingBox.map (Box3.translate (offset.add position)))
       | none => box)
/-- The loop over `object.children` of `expandByObject`. -/
def expandByChildren (offset : Vector3) : List Object3D → Option Box3 → Option Box3
  | [], box => box
  | c :: cs, box => expandByChildren offset cs (expandByObject offset c box)
end

mutual
/-- Applies `f` to every node of the subtree (the in-place writes of a `traverse` callback to
the visited node). -/
def mapNodes (f : Object3D → Object3D) : Object3D → Object3D
  | ⟨ref, type, name, isMesh, geometry, material, position, cast, receive, children⟩ =>
    { f ⟨ref, type, name, isMesh, geometry, material, position, cast, receive, []⟩ with
      children := mapNodesOfList f children }
/-- The loop over the children of `mapNodes`. -/
def mapNodesOfList (f : Object3D → Object3D) : List Object3D → List Object3D
  | [] => []
  | c :: cs => mapNodes f c :: mapNodesOfList f cs
end

/-- `object.clone()`: a new object (new identity `ref`) with the same fields; a cloned mesh
shares its geometry and material with the original. The identities of the descendants are not
observed by `view.js` and are kept. -/
def clone (o : Object3D) (ref : Nat) : Object3D := { o with ref := ref }

end Object3D

/-- `new THREE.Box3().setFromObject(object)`. -/
def Box3.setFromObject (o : Object3D) : Option Box3 :=
  Object3D.expandByObject Vector3.zero o none

/-- `scene.remove(object)`: drops the first child that is this object. -/
def removeChild (ref : Nat) : List Object3D → List Object3D
  | [] => []
  | o :: os => if o.ref = ref then os else o :: removeChild ref os

/-- `THREE.Scene`. -/
structure Scene where
  background : Nat
  children : List Object3D

/-- `scene.add(object)` for an object that has no parent yet. -/
def Scene.add (sc : Scene) (o : Object3D) : Scene := { sc with children := sc.children ++ [o] }

/-- `scene.remove(object)`. -/
def Scene.remove (sc : Scene) (ref : Nat) : Scene :=
  { sc with children := removeChild ref sc.children }

/-- `THREE.PerspectiveCamera`. -/
structure PerspectiveCamera where
  fov : ℚ
  aspect : ℚ
  near : ℚ
  far : ℚ
  position : Vector3
  target : Vector3
deriving DecidableEq

/-- `THREE.OrthographicCamera`. -/
structure OrthographicCamera where
  left : ℚ
  right : ℚ
  top : ℚ
  bottom : ℚ
  near : ℚ
  far : ℚ
  position : Vector3
  up : Vector3
deriving DecidableEq

/-- `THREE.WebGLRenderer` bound to one canvas. -/
structure WebGLRenderer where
  width : Nat
  height : Nat
  antialias : Bool
  shadowMapEnabled : Bool
  shadowMapAutoUpdate : Bool
deriving DecidableEq

/-- `THREE.OrbitControls`. -/
structure OrbitControls where
  enabled : Bool
  enableDamping : Bool
  dampingFactor : ℚ
  target : Vector3
deriving DecidableEq

/-! ## `config.js` -/

/-- `AppConfig.CANVAS_IDS`. -/
structure CanvasIds where
  main : String
  top : String
  front : String
  side : String

/-- `AppConfig.CONTROL_IDS`. -/
structure ControlIds where
  modelInput : String
  nextBtn : String
  prevBtn : String
  currentLabel : String

/-- `AppConfig.SCENE_3D`. -/
structure Scene3DConfig where
  GRID_SIZE : ℚ
  MAIN_LIGHT_POS : Vector3
  MAIN_LIGHT_INTENSITY : ℚ
  FILL_LIGHT_POS : Vector3
  FILL_LIGHT_INTENSITY : ℚ

/-- `AppConfig.ORTHOGRAPHIC`. -/
structure OrthographicConfig where
  MARGIN_FACTOR : ℚ
  SIZE : ℚ
  LIGHT_INTENSITY : ℚ
  FILL_INTENSITY : ℚ

/-- `AppConfig.MATERIAL`, which `view.js` reads with `?.` and `||`; `config.js` does not
define it. -/
structure MaterialConfig where
  DARK_THRESHOLD : Option ℚ
  BRIGHTNESS_MULTIPLIER : Option ℚ

/-- The type of `window.AppConfig`. -/
structure AppConfig where
  MODEL_PATH : String
  MAX_MODELS : Nat
  ANIMATION_DURATION : ℚ
  CANVAS_IDS : CanvasIds
  CONTROL_IDS : ControlIds
  SCENE_3D : Scene3DConfig
  ORTHOGRAPHIC : OrthographicConfig
  MATERIAL : Option MaterialConfig

/-- The record that `config.js` assigns to `window.AppConfig`. -/
def appConfig : AppConfig where
  MODEL_PATH := "models/"
  MAX_MODELS := 100
  ANIMATION_DURATION := 3 / 2
  CANVAS_IDS := ⟨"canvas-3d", "canvas-top", "canvas-front", "canvas-side"⟩
  CONTROL_IDS := ⟨"goto-model", "next-model", "prev-model", "current-model"⟩
  SCENE_3D := ⟨10, ⟨10, 10, 5⟩, 9 / 10, ⟨-5, -5, -5⟩, 2 / 5⟩
  ORTHOGRAPHIC := ⟨3 / 5, 5, 11 / 10, 3 / 10⟩
  MATERIAL := none

/-- The JavaScript expression `v || d` for a number that may be undefined. -/
def orDefault (v : Option ℚ) (d : ℚ) : ℚ :=
  match v with
  | some q => if q = 0 then d else q
  | none => d

/-- `window.AppConfig.MATERIAL?.DARK_THRESHOLD || 0.2`. -/
def AppConfig.darkThreshold (cfg : AppConfig) : ℚ :=
  orDefault (cfg.MATERIAL.bind fun m => m.DARK_THRESHOLD) (1 / 5)

/-- `window.AppConfig.MATERIAL?.BRIGHTNESS_MULTIPLIER || 2.5`. -/
def AppConfig.brightnessMultiplier (cfg : AppConfig) : ℚ :=
  orDefault (cfg.MATERIAL.bind fun m => m.BRIGHTNESS_MULTIPLIER) (5 / 2)

/-! ## The page: DOM elements, `window`, effects -/

/-- The parent element of a canvas, read for its layout size. -/
structure Container where
  clientWidth : Nat
  clientHeight : Nat
deriving DecidableEq

/-- The expression `container.clientHeight > 0 ? container.clientWidth / container.clientHeight : 1`. -/
def Container.aspect (c : Container) : ℚ :=
  if 0 < c.clientHeight then (c.clientWidth : ℚ) / (c.clientHeight : ℚ) else 1

/-- A canvas element: its parent and whether its class list holds `fade-in`. -/
structure Canvas where
  parentElement : Option Container
  fadeIn : Bool
deriving DecidableEq

/-- The globals that `view.js` reads: `window.AppConfig`, `window.THREE.GLTFLoader` and
`document.getElementById`. -/
structure Window where
  AppConfig : Option AppConfig
  GLTFLoader : Bool
  getElementById : String → Option Canvas

/-- The keys of `this.scenes`, `this.cameras` and `this.renderers`. -/
inductive ViewKey where
  | top
  | front
  | side
deriving DecidableEq

/-- `Object.keys` of an object literal `{ top, front, side }`. -/
def ViewKey.all : List ViewKey := [ViewKey.top, ViewKey.front, ViewKey.side]

/-- A callback handed to `requestAnimationFrame`. -/
inductive FrameCallback where
  | boundRender
  | fadeIn
deriving DecidableEq

/-- What the viewer does to the outside, in order: console messages, `controls.update()` and
the calls of `renderer.render(scene, camera)`. -/
inductive Event where
  | consoleError (message : String)
  | controlsUpdate
  | drawMain (scene : Scene) (camera : PerspectiveCamera)
  | drawOrtho (key : ViewKey) (scene : Scene) (camera : OrthographicCamera)

/-- How a synchronous method ends. -/
inductive Completion where
  | normal
  | thrown (error : String)
deriving DecidableEq

/-- The state of the promise an `async` method returns. -/
inductive Promise where
  | resolved
  | rejected (reason : String)
  | pending
deriving DecidableEq

/-- The `TypeError` of reading a property of `null` or `undefined`. -/
def typeError : Completion := Completion.thrown "TypeError"

/-- The replacement `.replace(/[\r\n]/g, ' ')` used before logging. -/
def sanitize (message : String) : String :=
  message.map fun c => if c = Char.ofNat 13 ∨ c = Char.ofNat 10 then Char.ofNat 32 else c

/-- The resources on which `dispose()` has been called: geometries by id, materials by uuid,
textures by id. -/
structure Disposed where
  geometries : List Nat
  materials : List Nat
  textures : List Nat
deriving DecidableEq

/-! ## `ViewManager` -/

/-- The fields of `ViewManager`, followed by the state around it that its methods change:
the material store, the resources on which `dispose()` was called, the object counter, the
queue of `requestAnimationFrame` and the event log. -/
structure ViewManager where
  window : Window
  GLTFLoader : Bool
  loader : Bool
  needsRender : Bool
  containerCacheMain : Option Container
  containerCache : ViewKey → Option Container
  cameraKeys : Option (List ViewKey)
  sceneKeys : Option (List ViewKey)
  sceneValues : Option (List ViewKey)
  sharedBox : Option (Option Box3)
  sharedCenter : Option Vector3
  sharedSize : Option Vector3
  boundRender : Bool
  rendererKeys : Option (List ViewKey)
  gridSize : Option ℚ
  canvas3d : Option Canvas
  canvasTop : Option Canvas
  canvasFront : Option Canvas
  canvasSide : Option Canvas
  canvasMap : Option (ViewKey → Option Canvas)
  scene3D : Option Scene
  camera3D : Option PerspectiveCamera
  renderer3D : Option WebGLRenderer
  controls : Option OrbitControls
  scenes : ViewKey → Option Scene
  cameras : ViewKey → Option OrthographicCamera
  renderers : ViewKey → Option WebGLRenderer
  currentModel : Option Object3D
  animationStarted : Bool
  materials : Nat → Material
  disposed : Disposed
  nextId : Nat
  frameRequests : List FrameCallback
  log : List Event

/-- A method result is carried on only when the method before it ended normally. -/
def andThen (r : ViewManager × Completion) (f : ViewManager → ViewManager × Completion) :
    ViewManager × Completion :=
  match r with
  | (s, Completion.normal) => f s
  | (s, Completion.thrown e) => (s, Completion.thrown e)

/-- `keys.forEach(key => f(key))`, which an exception in `f` leaves. -/
def forEachKey (f : ViewKey → ViewManager → ViewManager × Completion) :
    List ViewKey → ViewManager → ViewManager × Completion
  | [], s => (s, Completion.normal)
  | k :: ks, s => andThen (f k s) (forEachKey f ks)

namespace ViewManager

/-- The material that every store entry starts from. -/
def blankMaterial : Material := ⟨"Material", none, none, none, none, false⟩

/-- `new ViewManager()` in a page with the globals `w`. -/
def create (w : Window) : ViewManager where
  window := w
  GLTFLoader := w.GLTFLoader
  loader := false
  needsRender := false
  containerCacheMain := none
  containerCache := fun _ => none
  cameraKeys := none
  sceneKeys := none
  sceneValues := none
  sharedBox := none
  sharedCenter := none
  sharedSize := none
  boundRender := false
  rendererKeys := none
  gridSize := none
  canvas3d := none
  canvasTop := none
  canvasFront := none
  canvasSide := none
  canvasMap := none
  scene3D := none
  camera3D := none
  renderer3D := none
  controls := none
  scenes := fun _ => none
  cameras := fun _ => none
  renderers := fun _ => none
  currentModel := none
  animationStarted := false
  materials := fun _ => blankMaterial
  disposed := ⟨[], [], []⟩
  nextId := 0
  frameRequests := []
  log := []

/-- `console.error(...)`. -/
def consoleError (s : ViewManager) (message : String) : ViewManager :=
  { s with log := s.log ++ [Event.consoleError message] }

/-- `showError(message)`. -/
def showError (s : ViewManager) (message : String) : ViewManager :=
  s.consoleError ("Error: " ++ sanitize message)

/-- `markNeedsRender()`. -/
def markNeedsRender (s : ViewManager) : ViewManager :=
  if !s.needsRender then
    { s with
      needsRender := true
      boundRender := true
      frameRequests := s.frameRequests ++ [FrameCallback.boundRender] }
  else s

/-- The body of the `rendererKeys.forEach` callback in `render()`. -/
def drawView (key : ViewKey) (s : ViewManager) : ViewManager × Completion :=
  match s.renderers key, s.scenes key, s.cameras key with
  | some _, some scene, some camera =>
    ({ s with log := s.log ++ [Event.drawOrtho key scene camera] }, Completion.normal)
  | _, _, _ => (s, Completion.normal)

/-- The statement `if (this.controls && this.controls.enabled) this.controls.update()` of
`render()`. -/
def updateControls (s : ViewManager) : ViewManager :=
  match s.controls with
  | some c => if c.enabled then { s with log := s.log ++ [Event.controlsUpdate] } else s
  | none => s

/-- `render()`, the redraw callback. -/
def render (s : ViewManager) : ViewManager × Completion :=
  match s.needsRender, s.renderer3D, s.scene3D, s.camera3D with
  | true, some _, some scene, some camera =>
    let s1 := s.updateControls
    let s2 := { s1 with log := s1.log ++ [Event.drawMain scene camera] }
    match s2.rendererKeys with
    | none => (s2, typeError)
    | some keys =>
      andThen (forEachKey drawView keys s2) fun s3 =>
        ({ s3 with needsRender := false }, Completion.normal)
  | _, _, _, _ => (s, Completion.normal)

/-- An object of the given class with the defaults of `new THREE.Object3D()`. -/
def newObject (ref : Nat) (type : String) : Object3D :=
  ⟨ref, type, "", false, none, none, Vector3.zero, false, false, []⟩

/-- The bounding box of `new THREE.BoxGeometry(2, 3, 1)`. -/
def fallbackBox : Box3 := ⟨⟨-1, -3 / 2, -1 / 2⟩, ⟨1, 3 / 2, 1 / 2⟩, by norm_num⟩

/-- `createFallbackModel()`: a new geometry, a new `MeshBasicMaterial` of colour `0x4CAF50`
and a new mesh, numbered from the counter. -/
def createFallbackModel (s : ViewManager) : Object3D × ViewManager :=
  let material : Material :=
    ⟨"MeshBasicMaterial", some ⟨76 / 255, 175 / 255, 80 / 255⟩, none, none, none, false⟩
  let mesh : Object3D :=
    ⟨s.nextId + 2, "Mesh", "", true, some ⟨s.nextId, some fallbackBox⟩, some (s.nextId + 1),
      Vector3.zero, false, false, []⟩
  (mesh, { s with
    materials := Function.update s.materials (s.nextId + 1) material
    nextId := s.nextId + 3 })

/-- The body of the `cameraKeys.forEach` callback in `adjustOrthographicCameras`. -/
def adjustCamera (margin : ℚ) (key : ViewKey) (s : ViewManager) : ViewManager × Completion :=
  match s.canvasMap with
  | none => (s, typeError)
  | some canvasMap =>
    match canvasMap key, s.cameras key with
    | some canvas, some camera =>
      match (s.containerCache key).orElse fun _ => canvas.parentElement with
      | none => (s, typeError)
      | some container =>
        let s1 :=
          if (s.containerCache key).isNone then
            { s with containerCache := Function.update s.containerCache key (some container) }
          else s
        let aspect := container.aspect
        ({ s1 with
          cameras := Function.update s1.cameras key
            (some { camera with
              left := (-margin) * aspect
              right := margin * aspect
              top := margin
              bottom := -margin }) }, Completion.normal)
    | _, _ => (s, Completion.normal)

/-- `adjustOrthographicCameras(maxDim)`. -/
def adjustOrthographicCameras (s : ViewManager) (maxDim : ℚ) : ViewManager × Completion :=
  match s.window.AppConfig with
  | none => (s, typeError)
  | some config =>
    let margin := maxDim * config.ORTHOGRAPHIC.MARGIN_FACTOR
    let keys := s.cameraKeys.getD ViewKey.all
    let s1 := { s with cameraKeys := some keys }
    andThen (forEachKey (adjustCamera margin) keys s1) fun s2 =>
      (s2.markNeedsRender, Completion.normal)

/-! ### Initialization -/

/-- `setupScene()`. -/
def setupScene (s : ViewManager) : ViewManager × Completion :=
  let cached : Option ℚ :=
    match s.gridSize with
    | some g => if g = 0 then none else some g
    | none => none
  let fresh : Option ℚ :=
    match cached with
    | some g => some g
    | none => s.window.AppConfig.map fun config => config.SCENE_3D.GRID_SIZE
  match fresh with
  | none => ({ s with scene3D := some ⟨0xf0f0f0, []⟩ }, typeError)
  | some gridSize =>
    ({ s with
      scene3D := some ⟨0xf0f0f0, [newObject s.nextId "GridHelper"]⟩
      gridSize := some gridSize
      nextId := s.nextId + 1 }, Completion.normal)

/-- `setupCamera()`. -/
def setupCamera (s : ViewManager) : ViewManager × Completion :=
  match s.canvas3d with
  | none => (s, typeError)
  | some canvas =>
    match canvas.parentElement with
    | none => ({ s with containerCacheMain := none }, typeError)
    | some container =>
      match s.window.AppConfig with
      | none =>
        ({ s with
          containerCacheMain := some container
          camera3D := some ⟨75, container.aspect, 1 / 10, 1000, Vector3.zero, Vector3.zero⟩ },
          typeError)
      | some config =>
        ({ s with
          containerCacheMain := some container
          camera3D := some ⟨75, container.aspect, 1 / 10, 1000, config.SCENE_3D.MAIN_LIGHT_POS,
            Vector3.zero⟩ }, Completion.normal)

/-- `setupRenderer()`. -/
def setupRenderer (s : ViewManager) : ViewManager × Completion :=
  match s.containerCacheMain with
  | none => ({ s with renderer3D := some ⟨300, 150, true, false, true⟩ }, typeError)
  | some container =>
    ({ s with
      renderer3D := some ⟨container.clientWidth, container.clientHeight, true, true, false⟩ },
      Completion.normal)

/-- `setupControls()`. The listener it adds runs `markNeedsRender()` on every `change` event of
the controls. -/
def setupControls (s : ViewManager) : ViewManager × Completion :=
  ({ s with controls := some ⟨true, true, 1 / 20, Vector3.zero⟩ }, Completion.normal)

/-- `setupLighting()`. -/
def setupLighting (s : ViewManager) : ViewManager × Completion :=
  match s.scene3D with
  | none => (s, typeError)
  | some scene =>
    let ambient := newObject s.nextId "AmbientLight"
    match s.window.AppConfig with
    | none => ({ s with scene3D := some (scene.add ambient), nextId := s.nextId + 1 }, typeError)
    | some config =>
      let dirLight : Object3D :=
        { newObject (s.nextId + 1) "DirectionalLight" with
          position := config.SCENE_3D.MAIN_LIGHT_POS
          castShadow := true }
      let fillLight : Object3D :=
        { newObject (s.nextId + 2) "DirectionalLight" with
          position := config.SCENE_3D.FILL_LIGHT_POS }
      ({ s with
        scene3D := some (((scene.add ambient).add dirLight).add fillLight)
        nextId := s.nextId + 3 }, Completion.normal)

/-- `init3D()`. -/
def init3D (s : ViewManager) : ViewManager × Completion :=
  match s.canvas3d with
  | none => (s, Completion.normal)
  | some _ =>
    andThen (andThen (andThen (andThen (setupScene s) setupCamera) setupRenderer) setupControls)
      setupLighting

/-- The entries `position` and `up` of the three `configs` of `initOrthogonal`. -/
def orthoPosition : ViewKey → Vector3 × Vector3
  | ViewKey.top => (⟨0, 10, 0⟩, ⟨0, 0, -1⟩)
  | ViewKey.front => (⟨0, 0, 10⟩, ⟨0, 1, 0⟩)
  | ViewKey.side => (⟨10, 0, 0⟩, ⟨0, 1, 0⟩)

/-- The entry `canvas` of the three `configs` of `initOrthogonal`. -/
def orthoCanvas (s : ViewManager) : ViewKey → Option Canvas
  | ViewKey.top => s.canvasTop
  | ViewKey.front => s.canvasFront
  | ViewKey.side => s.canvasSide

/-- The body of the `normalizedVectors.forEach` callback in `initOrthogonal`, for the view
`key`; `canvases` are the canvases read when `configs` was built. -/
def initView (canvases : ViewKey → Option Canvas) (key : ViewKey) (s : ViewManager) :
    ViewManager × Completion :=
  match canvases key with
  | none => (s, Completion.normal)
  | some canvas =>
    let position := (orthoPosition key).1
    let dirPos := position.normalize.multiplyScalar 10
    let fillPos := (position.multiplyScalar (-(1 / 2))).normalize.multiplyScalar 8
    let ambient := newObject s.nextId "AmbientLight"
    let s1 :=
      { s with
        containerCache := Function.update s.containerCache key canvas.parentElement
        scenes := Function.update s.scenes key (some ⟨0xffffff, [ambient]⟩)
        nextId := s.nextId + 1 }
    match s1.window.AppConfig with
    | none => (s1, typeError)
    | some config =>
      let dirLight : Object3D :=
        { newObject (s.nextId + 1) "DirectionalLight" with position := dirPos }
      let fillLight : Object3D :=
        { newObject (s.nextId + 2) "DirectionalLight" with position := fillPos }
      let s2 :=
        { s1 with
          scenes := Function.update s1.scenes key (some ⟨0xffffff, [ambient, dirLight, fillLight]⟩)
          nextId := s.nextId + 3 }
      match canvas.parentElement with
      | none => (s2, typeError)
      | some container =>
        let aspect := container.aspect
        let size := config.ORTHOGRAPHIC.SIZE
        ({ s2 with
          cameras := Function.update s2.cameras key
            (some ⟨(-size) * aspect, size * aspect, size, -size, 1 / 10, 100, position,
              (orthoPosition key).2⟩)
          renderers := Function.update s2.renderers key
            (some ⟨container.clientWidth, container.clientHeight, true, false, true⟩) },
          Completion.normal)

/-- `initOrthogonal()`. -/
def initOrthogonal (s : ViewManager) : ViewManager × Completion :=
  andThen (forEachKey (initView (orthoCanvas s)) ViewKey.all s) fun s1 =>
    ({ s1 with rendererKeys := some ViewKey.all }, Completion.normal)

/-- The first blocks of `initialize()`: the canvases are looked up in the document, the
reusable loader is made when `GLTFLoader` exists, and `canvasMap` is filled. -/
def readElements (s : ViewManager) (config : AppConfig) : ViewManager :=
  let s1 :=
    { s with
      canvas3d := s.window.getElementById config.CANVAS_IDS.main
      canvasTop := s.window.getElementById config.CANVAS_IDS.top
      canvasFront := s.window.getElementById config.CANVAS_IDS.front
      canvasSide := s.window.getElementById config.CANVAS_IDS.side }
  let s2 := { s1 with loader := s1.GLTFLoader || s1.loader }
  { s2 with canvasMap := some (orthoCanvas s2) }

/-- The method `initialize()` of `ViewManager`. -/
def initializeView (s : ViewManager) : ViewManager × Completion :=
  match s.window.AppConfig with
  | none => (s.consoleError "AppConfig no está disponible", Completion.normal)
  | some config =>
    let s3 := s.readElements config
    if s3.canvas3d.isSome && s3.canvasTop.isSome && s3.canvasFront.isSome
        && s3.canvasSide.isSome then
      andThen (andThen (init3D s3) initOrthogonal) fun s4 =>
        (s4.markNeedsRender, Completion.normal)
    else
      (s3.consoleError "No se encontraron los canvas necesarios en el DOM", Completion.normal)

/-! ### Display -/

/-- The JavaScript test `!modelUrl`: true for `null` and for the empty string. -/
def isFalsy (modelUrl : Option String) : Bool :=
  match modelUrl with
  | none => true
  | some url => url = ""

/-- Records a call of `dispose()` on the resource `id`. -/
def markDisposed (id : Nat) (disposed : List Nat) : List Nat :=
  if id ∈ disposed then disposed else id :: disposed

/-- The callback of the disposal traversals: for a mesh, `geometry.dispose()`, then
`material.map.dispose()` and `material.dispose()`. -/
def disposeNode (materials : Nat → Material) (d : Disposed) (child : Object3D) : Disposed :=
  if child.isMesh then
    let d1 : Disposed :=
      match child.geometry with
      | some g => { d with geometries := markDisposed g.id d.geometries }
      | none => d
    match child.material with
    | some uuid =>
      let d2 : Disposed :=
        match (materials uuid).map with
        | some texture => { d1 with textures := markDisposed texture d1.textures }
        | none => d1
      { d2 with materials := markDisposed uuid d2.materials }
    | none => d1
  else d

/-- `object.traverse(child => ...)` with the disposal callback. -/
def disposeTree (s : ViewManager) (o : Object3D) : ViewManager :=
  { s with disposed := o.nodes.foldl (disposeNode s.materials) s.disposed }

/-- `centerModel()`. The write to `this.currentModel.position` is also seen through
`this.scene3D.children`, where the same object sits once it has been added. -/
def centerModel (s : ViewManager) : ViewManager × Completion :=
  match s.currentModel with
  | none => (s, Completion.normal)
  | some model =>
    let box := Box3.setFromObject model
    let center := Box3.getCenter box
    let size := Box3.getSize box
    let moved : Object3D := { model with position := model.position.sub center }
    let s1 :=
      { s with
        sharedBox := some box
        sharedCenter := some center
        sharedSize := some size
        currentModel := some moved
        scene3D := s.scene3D.map fun (scene : Scene) =>
          { scene with children := scene.children.map fun (o : Object3D) =>
              if o.ref = model.ref then moved else o }
        sceneValues := some (s.sceneValues.getD ViewKey.all) }
    let maxDim := max3 size.x size.y size.z
    match s1.camera3D with
    | none => (s1, typeError)
    | some camera =>
      let s2 :=
        { s1 with camera3D := some { camera with position := camera.position.setLength (maxDim * 3) } }
      andThen (s2.adjustOrthographicCameras maxDim) fun s3 =>
        (s3.markNeedsRender, Completion.normal)

/-- The disposal traversal run over each object of a list, in order. -/
def disposeAll (materials : Nat → Material) (d : Disposed) (objects : List Object3D) : Disposed :=
  objects.foldl (fun acc o => o.nodes.foldl (disposeNode materials) acc) d

/-- The children named `model` of a scene in the order in which the loop
`for (let i = scene.children.length - 1; i >= 0; i--)` meets them. -/
def oldClones (scene : Scene) : List Object3D :=
  scene.children.reverse.filter fun o => o.name = "model"

/-- The body of the `Object.values(this.scenes).forEach` callback in `renderOrthogonalViews`:
from the last child to the first, every child named `model` is disposed and removed. -/
def clearScene (key : ViewKey) (s : ViewManager) : ViewManager × Completion :=
  match s.scenes key with
  | none => (s, typeError)
  | some scene =>
    ({ s with
      disposed := disposeAll s.materials s.disposed (oldClones scene)
      scenes := Function.update s.scenes key
        (some { scene with children := scene.children.filter fun o => o.name ≠ "model" }) },
      Completion.normal)

/-- The clone that the `sceneKeys.forEach` callback of `renderOrthogonalViews` makes and
places: `modelToClone.clone()` named `model`, at the position of `this.currentModel` when the
test `this.currentModel && modelToClone === this.currentModel` (`isCurrent`) holds and moved
by minus `center` otherwise. -/
def makeClone (modelToClone : Object3D) (isCurrent : Bool) (center : Vector3)
    (current : Option Object3D) (ref : Nat) : Object3D :=
  let clone : Object3D := { modelToClone.clone ref with name := "model" }
  if isCurrent then
    match current with
    | some model => { clone with position := model.position }
    | none => clone
  else { clone with position := clone.position.sub center }

/-- The body of the `sceneKeys.forEach` callback in `renderOrthogonalViews`. -/
def addClone (modelToClone : Object3D) (isCurrent : Bool) (center : Vector3) (key : ViewKey)
    (s : ViewManager) : ViewManager × Completion :=
  let placed := makeClone modelToClone isCurrent center s.currentModel s.nextId
  let s1 := { s with nextId := s.nextId + 1 }
  match s1.scenes key with
  | none => (s1, typeError)
  | some scene =>
    ({ s1 with scenes := Function.update s1.scenes key (some (scene.add placed)) },
      Completion.normal)

/-- The promise of an `async` method whose body ended with the given completion. -/
def promiseOf (r : ViewManager × Completion) : ViewManager × Promise :=
  match r with
  | (s, Completion.normal) => (s, Promise.resolved)
  | (s, Completion.thrown e) => (s, Promise.rejected e)

/-- `renderOrthogonalViews(modelUrl)`, an `async` method: an exception in its body rejects the
promise it returns. -/
def renderOrthogonalViews (s : ViewManager) (modelUrl : Option String) : ViewManager × Promise :=
  promiseOf <|
    andThen (forEachKey clearScene ViewKey.all s) fun s1 =>
      let current : Option Object3D := if isFalsy modelUrl then none else s1.currentModel
      let useFallback := current.isNone
      let chosen : Object3D × ViewManager :=
        match current with
        | some model => (model, s1)
        | none => s1.createFallbackModel
      let modelToClone := chosen.1
      let box := Box3.setFromObject modelToClone
      let center := Box3.getCenter box
      let size := Box3.getSize box
      let maxDim := max3 size.x size.y size.z
      let keys := chosen.2.sceneKeys.getD ViewKey.all
      let s2 :=
        { chosen.2 with
          sharedBox := some box
          sharedCenter := some center
          sharedSize := some size
          sceneKeys := some keys }
      andThen (forEachKey (addClone modelToClone (!useFallback) center) keys s2) fun s3 =>
        andThen (s3.adjustOrthographicCameras maxDim) fun s4 =>
          (s4.markNeedsRender, Completion.normal)

/-- What `GLTFLoader` hands to the success callback: the root node and the materials it made,
by uuid. -/
structure GLTF where
  scene : Object3D
  materials : Nat → Material

/-- What the loader hands to the error callback: `error.message` and `String(error)`. -/
structure LoadError where
  message : String
  text : String

/-- How a call of `loader.load` ends. -/
inductive LoadResult where
  | success (gltf : GLTF)
  | failure (error : LoadError)

/-- The uuids of the materials of the meshes of a tree. -/
def materialIds (o : Object3D) : List Nat :=
  o.nodes.filterMap fun n => if n.isMesh then n.material else none

/-- The writes of the load traversal to one material on its first visit: a colour whose
channels are all below the darkness threshold is multiplied by the brightness multiplier, and
a `MeshStandardMaterial` gets roughness 0.8 and metalness 0. -/
def normalizeMaterial (config : AppConfig) (m : Material) : Material :=
  let brightened : Material :=
    match m.color with
    | some color =>
      if color.r < config.darkThreshold ∧ color.g < config.darkThreshold
          ∧ color.b < config.darkThreshold then
        { m with color := some (color.multiplyScalar config.brightnessMultiplier) }
      else m
    | none => m
  if brightened.type = "MeshStandardMaterial" then
    { brightened with roughness := some (4 / 5), metalness := some 0, needsUpdate := true }
  else brightened

/-- The part of the load traversal callback that works on the material store; the second
component is the set of keys of `materialCache`. -/
def normalizeNode (config : AppConfig) (acc : (Nat → Material) × List Nat) (child : Object3D) :
    (Nat → Material) × List Nat :=
  if child.isMesh then
    match child.material with
    | some uuid =>
      if uuid ∈ acc.2 then acc
      else (Function.update acc.1 uuid (normalizeMaterial config (acc.1 uuid)), uuid :: acc.2)
    | none => acc
  else acc

/-- The part of the load traversal callback that writes to the visited node. -/
def setShadows (child : Object3D) : Object3D :=
  if child.isMesh then { child with castShadow := true, receiveShadow := true } else child

/-- The traversal `this.currentModel.traverse(child => ...)` of the success callback over the
material store. -/
def normalizeMaterials (config : AppConfig) (materials : Nat → Material) (o : Object3D) :
    Nat → Material :=
  (o.nodes.foldl (normalizeNode config) (materials, [])).1

/-- The first block of `render3D`: the previous model is disposed and removed from the
perspective scene. -/
def disposeCurrent (s : ViewManager) : ViewManager × Completion :=
  match s.currentModel with
  | none => (s, Completion.normal)
  | some model =>
    let s1 := s.disposeTree model
    match s1.scene3D with
    | none => (s1, typeError)
    | some scene => ({ s1 with scene3D := some (scene.remove model.ref) }, Completion.normal)

/-- The second block of `render3D`: camera and controls go back to their start. What
`controls.update()` does inside `OrbitControls` is not followed here: a `change` event it
dispatches is a call of `markNeedsRender`, and the camera position it writes back, which
differs from `MAIN_LIGHT_POS` in the last digits, is a parameter of
`perspectiveDistance64`. -/
def resetCamera (s : ViewManager) : ViewManager × Completion :=
  match s.camera3D, s.controls with
  | some camera, some controls =>
    match s.window.AppConfig with
    | none => (s, typeError)
    | some config =>
      ({ s with
        camera3D := some { camera with
          position := config.SCENE_3D.MAIN_LIGHT_POS
          target := Vector3.zero }
        controls := some { controls with target := Vector3.zero }
        log := s.log ++ [Event.controlsUpdate] }, Completion.normal)
  | _, _ => (s, Completion.normal)

/-- The branch `if (!modelUrl)` of `render3D`. The promise of `renderOrthogonalViews` is
dropped, as in the source. -/
def showFallback (s : ViewManager) : ViewManager × Completion :=
  let created := s.createFallbackModel
  let s1 := { created.2 with currentModel := some created.1 }
  match s1.scene3D with
  | none => (s1, typeError)
  | some scene =>
    andThen (centerModel { s1 with scene3D := some (scene.add created.1) }) fun s2 =>
      ((s2.renderOrthogonalViews none).1.markNeedsRender, Completion.normal)

/-- The synchronous part of `render3D(modelUrl)`, up to the call of `this.loader.load`; the
promise is pending when the load has been started. -/
def render3DStart (s : ViewManager) (modelUrl : Option String) : ViewManager × Promise :=
  match andThen s.disposeCurrent resetCamera with
  | (s1, Completion.thrown e) => (s1, Promise.rejected e)
  | (s1, Completion.normal) =>
    if isFalsy modelUrl then promiseOf s1.showFallback
    else if !s1.loader then
      (s1.showError "GLTFLoader no disponible", Promise.rejected "GLTFLoader no disponible")
    else (s1, Promise.pending)

/-- The text that the error callback logs: `'Error cargando modelo GLB:'` followed by
`String(error.message || error).replace(/[\r\n]/g, ' ')`. -/
def loadErrorMessage (error : LoadError) : String :=
  "Error cargando modelo GLB: "
    ++ sanitize (if error.message = "" then error.text else error.message)

/-- The error callback handed to `this.loader.load`. An exception in a loader callback leaves
the promise pending. -/
def onError (s : ViewManager) (error : LoadError) : ViewManager × Promise :=
  let s0 := s.consoleError (loadErrorMessage error)
  let created := s0.createFallbackModel
  let s1 := { created.2 with currentModel := some created.1 }
  match s1.scene3D with
  | none => (s1, Promise.pending)
  | some scene =>
    match centerModel { s1 with scene3D := some (scene.add created.1) } with
    | (s2, Completion.thrown _) => (s2, Promise.pending)
    | (s2, Completion.normal) =>
      ((s2.renderOrthogonalViews none).1.markNeedsRender, Promise.resolved)

/-- The success callback handed to `this.loader.load`. The loader has constructed the objects:
the root takes the next number of the object counter and the materials of its meshes enter the
store. Without `window.AppConfig` the callback throws before it reaches `resolve()` (in the
traversal or, at the latest, in `adjustOrthographicCameras`); the state it leaves then is not
followed beyond the assignment of `this.currentModel`. -/
def onLoad (s : ViewManager) (modelUrl : Option String) (gltf : GLTF) : ViewManager × Promise :=
  let root : Object3D := { gltf.scene with ref := s.nextId, name := "model" }
  let loaded : Nat → Material := fun uuid =>
    if uuid ∈ materialIds gltf.scene then gltf.materials uuid else s.materials uuid
  let s0 := { s with currentModel := some root, materials := loaded, nextId := s.nextId + 1 }
  match s.window.AppConfig with
  | none => (s0, Promise.pending)
  | some config =>
    let model := root.mapNodes setShadows
    let s1 :=
      { s0 with
        currentModel := some model
        materials := normalizeMaterials config loaded root }
    match s1.scene3D with
    | none => (s1, Promise.pending)
    | some scene =>
      match centerModel { s1 with scene3D := some (scene.add model) } with
      | (s2, Completion.thrown _) => (s2, Promise.pending)
      | (s2, Completion.normal) =>
        let s3 := (s2.renderOrthogonalViews modelUrl).1.markNeedsRender
        match s3.canvas3d with
        | some canvas =>
          ({ s3 with
            canvas3d := some { canvas with fadeIn := false }
            frameRequests := s3.frameRequests ++ [FrameCallback.fadeIn] }, Promise.resolved)
        | none => (s3, Promise.resolved)

/-- `render3D(modelUrl)` together with the outcome of the load it starts, when it starts one. -/
def render3D (s : ViewManager) (modelUrl : Option String) (outcome : LoadResult) :
    ViewManager × Promise :=
  match s.render3DStart modelUrl with
  | (s1, Promise.pending) =>
    match outcome with
    | LoadResult.success gltf => s1.onLoad modelUrl gltf
    | LoadResult.failure error => s1.onError error
  | r => r

/-- The viewer after a successful `initialize()`: the four viewports, their containers and the
configuration are in place. -/
structure Initialized (s : ViewManager) : Prop where
  config : s.window.AppConfig = some appConfig
  scene3D : s.scene3D.isSome
  camera3D : s.camera3D.isSome
  renderer3D : s.renderer3D.isSome
  controls : s.controls.isSome
  scenes : ∀ key, (s.scenes key).isSome
  cameras : ∀ key, (s.cameras key).isSome
  renderers : ∀ key, (s.renderers key).isSome
  canvasMap : ∃ m, s.canvasMap = some m ∧ ∀ key, (m key).isSome
  containerCache : ∀ key, (s.containerCache key).isSome
  cameraKeys : s.cameraKeys = none ∨ s.cameraKeys = some ViewKey.all
  sceneKeys : s.sceneKeys = none ∨ s.sceneKeys = some ViewKey.all
  rendererKeys : s.rendererKeys = some ViewKey.all

/-! ### The browser around the viewer -/

/-- One callback of the animation-frame queue is run. -/
def runCallback (s : ViewManager) : FrameCallback → ViewManager
  | FrameCallback.boundRender => s.render.1
  | FrameCallback.fadeIn =>
    { s with canvas3d := s.canvas3d.map fun (canvas : Canvas) => { canvas with fadeIn := true } }

/-- An animation frame: the browser empties the queue of `requestAnimationFrame` and runs the
callbacks it held, in the order of their registration. -/
def animationFrame (s : ViewManager) : ViewManager :=
  s.frameRequests.foldl runCallback { s with frameRequests := [] }

/-- The children of the perspective scene. -/
def children3D (s : ViewManager) : List Object3D :=
  match s.scene3D with
  | some scene => scene.children
  | none => []

/-- The children of the orthogonal scene `key`. -/
def childrenOf (s : ViewManager) (key : ViewKey) : List Object3D :=
  match s.scenes key with
  | some scene => scene.children
  | none => []

/-- The children of a scene that carry the tag `model`. -/
def tagged (children : List Object3D) : List Object3D :=
  children.filter fun o => o.name = "model"

/-- A page that has the configuration of `config.js` and the four canvases, each inside a
container. -/
structure PageReady (w : Window) : Prop where
  config : w.AppConfig = some appConfig
  main : ∃ canvas container, w.getElementById "canvas-3d" = some canvas
    ∧ canvas.parentElement = some container
  top : ∃ canvas container, w.getElementById "canvas-top" = some canvas
    ∧ canvas.parentElement = some container
  front : ∃ canvas container, w.getElementById "canvas-front" = some canvas
    ∧ canvas.parentElement = some container
  side : ∃ canvas container, w.getElementById "canvas-side" = some canvas
    ∧ canvas.parentElement = some container

/-- A page with the configuration of `config.js`, the loader, a perspective canvas in a
container of 800 by 600 and three orthogonal canvases in containers of 400 by 300. -/
def samplePage : Window where
  AppConfig := some appConfig
  GLTFLoader := true
  getElementById := fun id =>
    if id = "canvas-3d" then some ⟨some ⟨800, 600⟩, false⟩
    else if id = "canvas-top" ∨ id = "canvas-front" ∨ id = "canvas-side" then
      some ⟨some ⟨400, 300⟩, false⟩
    else none

/-- The viewer of `samplePage` after `initialize()`. -/
def sampleViewer : ViewManager := (initializeView (create samplePage)).1

/-- `f` leaves the dirty flag and the animation-frame queue as they are. -/
def KeepsSchedule (f : ViewManager → ViewManager × Completion) : Prop :=
  ∀ s, (f s).1.needsRender = s.needsRender ∧ (f s).1.frameRequests = s.frameRequests

/-- The viewer of `samplePage` on which `markNeedsRender()` is called before `initialize()`
and whose redraw callback has then run. -/
def stalledViewer : ViewManager := animationFrame (create samplePage).markNeedsRender

/-- The cameras after the loop of `adjustOrthographicCameras`, when every view has its canvas,
camera and cached container. -/
def fittedCameras (s : ViewManager) (margin : ℚ) (key : ViewKey) : Option OrthographicCamera :=
  match s.cameras key, s.containerCache key with
  | some camera, some container =>
    some { camera with
      left := (-margin) * container.aspect
      right := margin * container.aspect
      top := margin
      bottom := -margin }
  | _, _ => s.cameras key

/-- The state after `adjustOrthographicCameras(maxDim)` in an initialized viewer. -/
def fit (s : ViewManager) (maxDim : ℚ) : ViewManager :=
  markNeedsRender { s with
    cameraKeys := some ViewKey.all
    cameras := fittedCameras s (maxDim * appConfig.ORTHOGRAPHIC.MARGIN_FACTOR) }

/-- The state after `centerModel()` in an initialized viewer whose current model is `model`. -/
def centered (s : ViewManager) (model : Object3D) : ViewManager :=
  let box := Box3.setFromObject model
  let center := Box3.getCenter box
  let size := Box3.getSize box
  let moved : Object3D := { model with position := model.position.sub center }
  fit { s with
    sharedBox := some box
    sharedCenter := some center
    sharedSize := some size
    currentModel := some moved
    scene3D := s.scene3D.map fun (scene : Scene) =>
      { scene with children := scene.children.map fun (o : Object3D) =>
          if o.ref = model.ref then moved else o }
    sceneValues := some (s.sceneValues.getD ViewKey.all)
    camera3D := s.camera3D.map fun (camera : PerspectiveCamera) =>
      { camera with position := camera.position.setLength (max3 size.x size.y size.z * 3) } }
    (max3 size.x size.y size.z)

/-- The children named `model` of the orthogonal scene `key`, in the order of their removal. -/
def oldClonesOf (s : ViewManager) (key : ViewKey) : List Object3D :=
  match s.scenes key with
  | some scene => oldClones scene
  | none => []

/-- The state after the first loop of `renderOrthogonalViews` in an initialized viewer. -/
def cleared (s : ViewManager) : ViewManager :=
  { s with
    disposed := disposeAll s.materials (disposeAll s.materials
      (disposeAll s.materials s.disposed (oldClonesOf s ViewKey.top))
      (oldClonesOf s ViewKey.front)) (oldClonesOf s ViewKey.side)
    scenes := fun key => (s.scenes key).map fun (scene : Scene) =>
      { scene with children := scene.children.filter fun o => o.name ≠ "model" } }

/-- The position of a key in `Object.keys(this.scenes)`. -/
def keyIndex : ViewKey → Nat
  | ViewKey.top => 0
  | ViewKey.front => 1
  | ViewKey.side => 2

/-- The state after the second loop of `renderOrthogonalViews` in an initialized viewer. -/
def cloned (s : ViewManager) (modelToClone : Object3D) (isCurrent : Bool) (center : Vector3) :
    ViewManager :=
  { s with
    nextId := s.nextId + 3
    scenes := fun key => (s.scenes key).map fun (scene : Scene) =>
      scene.add (makeClone modelToClone isCurrent center s.currentModel (s.nextId + keyIndex key)) }

/-- The state after `renderOrthogonalViews(modelUrl)` in an initialized viewer. -/
def orthoViews (s : ViewManager) (modelUrl : Option String) : ViewManager :=
  let current : Option Object3D := if isFalsy modelUrl then none else (cleared s).currentModel
  let chosen : Object3D × ViewManager :=
    match current with
    | some model => (model, cleared s)
    | none => (cleared s).createFallbackModel
  let box := Box3.setFromObject chosen.1
  let size := Box3.getSize box
  fit (cloned { chosen.2 with
      sharedBox := some box
      sharedCenter := some (Box3.getCenter box)
      sharedSize := some size
      sceneKeys := some ViewKey.all } chosen.1 (!current.isNone) (Box3.getCenter box))
    (max3 size.x size.y size.z)

/-- The state after the first block of `render3D` in an initialized viewer. -/
def detached (s : ViewManager) : ViewManager :=
  match s.currentModel with
  | none => s
  | some model =>
    { s.disposeTree model with
      scene3D := s.scene3D.map fun (scene : Scene) => scene.remove model.ref }

/-- The state after the second block of `render3D` in an initialized viewer. -/
def reset (s : ViewManager) : ViewManager :=
  { s with
    camera3D := s.camera3D.map fun (camera : PerspectiveCamera) =>
      { camera with position := appConfig.SCENE_3D.MAIN_LIGHT_POS, target := Vector3.zero }
    controls := s.controls.map fun (controls : OrbitControls) =>
      { controls with target := Vector3.zero }
    log := s.log ++ [Event.controlsUpdate] }

/-- The state in which `render3D` reaches its test `if (!modelUrl)` in an initialized viewer. -/
def prepared (s : ViewManager) : ViewManager := reset (detached s)

/-- The state after `scene3D.add(currentModel)` and `centerModel()` for a new model. -/
def attached (s : ViewManager) (model : Object3D) : ViewManager :=
  centered { s with
    currentModel := some model
    scene3D := s.scene3D.map fun (scene : Scene) => scene.add model } model

/-- The state after the fallback model has been shown in an initialized viewer. -/
def shown (s : ViewManager) : ViewManager :=
  orthoViews (attached s.createFallbackModel.2 s.createFallbackModel.1) none

/-- The state in which the success callback reaches `scene3D.add` in an initialized viewer. -/
def received (s : ViewManager) (gltf : GLTF) : ViewManager :=
  { s with
    materials := normalizeMaterials appConfig
      (fun uuid =>
        if uuid ∈ materialIds gltf.scene then gltf.materials uuid else s.materials uuid)
      { gltf.scene with ref := s.nextId, name := "model" }
    nextId := s.nextId + 1 }

/-- The root node as the success callback adds it to the perspective scene. -/
def receivedRoot (s : ViewManager) (gltf : GLTF) : Object3D :=
  Object3D.mapNodes setShadows { gltf.scene with ref := s.nextId, name := "model" }

/-- The state after the success callback in an initialized viewer. -/
def loaded (s : ViewManager) (modelUrl : Option String) (gltf : GLTF) : ViewManager :=
  let s3 := orthoViews (attached (received s gltf) (receivedRoot s gltf)) modelUrl
  { s3 with
    canvas3d := s3.canvas3d.map fun (canvas : Canvas) => { canvas with fadeIn := false }
    frameRequests :=
      s3.frameRequests ++ (if s3.canvas3d.isSome then [FrameCallback.fadeIn] else []) }

/-- The state after `render3D(modelUrl)` and the outcome of its load, in an initialized
viewer. -/
def displayed (s : ViewManager) (modelUrl : Option String) (outcome : LoadResult) : ViewManager :=
  if isFalsy modelUrl then shown (prepared s)
  else if !s.loader then (prepared s).showError "GLTFLoader no disponible"
  else
    match outcome with
    | LoadResult.success gltf => loaded (prepared s) modelUrl gltf
    | LoadResult.failure error => shown ((prepared s).consoleError (loadErrorMessage error))

/-- The sample page without `THREE.GLTFLoader`. -/
def pageWithoutLoader : Window := { samplePage with GLTFLoader := false }

/-- The viewer of `pageWithoutLoader` after `initialize()`. -/
def viewerWithoutLoader : ViewManager := (initializeView (create pageWithoutLoader)).1

/-- A page with the configuration and the loader but none of the canvases. -/
def pageWithoutCanvases : Window where
  AppConfig := some appConfig
  GLTFLoader := true
  getElementById := fun _ => none

/-- The viewer of `pageWithoutCanvases` after `initialize()`. -/
def inertViewer : ViewManager := (initializeView (create pageWithoutCanvases)).1

/-- The node after `centerModel()` has moved it by minus the centre of its box. -/
def recentered (model : Object3D) : Object3D :=
  { model with position := model.position.sub (Box3.getCenter (Box3.setFromObject model)) }

/-- The model that `renderOrthogonalViews(modelUrl)` clones. -/
def modelToClone (s : ViewManager) (modelUrl : Option String) : Object3D :=
  match (if isFalsy modelUrl then none else s.currentModel) with
  | some model => model
  | none => s.createFallbackModel.1

/-- A viewer right after `initialize()`: initialized, nothing displayed yet, no scene child
tagged `model`, and every child of the perspective scene numbered below the counter. -/
structure Booted (s0 : ViewManager) : Prop where
  init : Initialized s0
  noModel : s0.currentModel = none
  refs : ∀ o ∈ children3D s0, o.ref < s0.nextId
  untagged3D : ∀ o ∈ children3D s0, o.name ≠ "model"
  untagged : ∀ key, ∀ o ∈ childrenOf s0 key, o.name ≠ "model"

/-- The states that the viewer `s0` reaches by completed calls of `render3D`, calls of
`markNeedsRender` and animation frames. -/
inductive Reachable (s0 : ViewManager) : ViewManager → Prop where
  | start : Reachable s0 s0
  | display (s : ViewManager) (modelUrl : Option String) (outcome : LoadResult) :
      Reachable s0 s → Reachable s0 (s.render3D modelUrl outcome).1
  | dirty (s : ViewManager) : Reachable s0 s → Reachable s0 s.markNeedsRender
  | frame (s : ViewManager) : Reachable s0 s → Reachable s0 (animationFrame s)

/-- What holds in every state reached from a booted viewer `s0`: the perspective scene holds
the children it had at boot followed by at most the current model; each orthogonal scene holds
the children it had at boot followed by clones, all tagged. -/
structure Inv (s0 s : ViewManager) : Prop where
  init : Initialized s
  next : s0.nextId ≤ s.nextId
  current : ∀ m, s.currentModel = some m → s0.nextId ≤ m.ref
  perspective : children3D s = children3D s0
    ∨ ∃ m, s.currentModel = some m ∧ children3D s = children3D s0 ++ [m]
  orthogonal : ∀ key, ∃ clones, childrenOf s key = childrenOf s0 key ++ clones
    ∧ ∀ c ∈ clones, c.name = "model"

/-- The characteristic scale of a node: the largest extent of its bounding box. -/
def characteristicScale (o : Object3D) : ℚ :=
  max3 (Box3.getSize (Box3.setFromObject o)).x (Box3.getSize (Box3.setFromObject o)).y
    (Box3.getSize (Box3.setFromObject o)).z

/-- The viewer `s` shows `model`: it is the current model and the one child that the
perspective scene holds beyond those of the booted viewer `s0`, it is centred, every
orthogonal scene holds beyond its boot children one centred clone tagged `model` of the same
extents, the perspective camera stands at three times the characteristic scale from the
origin, and every orthographic frustum is the characteristic scale times the margin factor,
widened by the aspect of the container. -/
structure Displays (s0 s : ViewManager) (model : Object3D) : Prop where
  current : s.currentModel = some model
  perspective : children3D s = children3D s0 ++ [model]
  centre : Box3.getCenter (Box3.setFromObject model) = Vector3.zero
  clones : ∀ key, ∃ clone, childrenOf s key = childrenOf s0 key ++ [clone]
    ∧ clone.name = "model"
    ∧ Box3.getCenter (Box3.setFromObject clone) = Vector3.zero
    ∧ Box3.getSize (Box3.setFromObject clone) = Box3.getSize (Box3.setFromObject model)
  distance : ∃ camera, s.camera3D = some camera
    ∧ camera.position.length = 3 * characteristicScale model
  frusta : ∀ key, ∃ camera container, s.cameras key = some camera
    ∧ s.containerCache key = some container
    ∧ camera.top = characteristicScale model * appConfig.ORTHOGRAPHIC.MARGIN_FACTOR
    ∧ camera.bottom = -(characteristicScale model * appConfig.ORTHOGRAPHIC.MARGIN_FACTOR)
    ∧ camera.right =
      characteristicScale model * appConfig.ORTHOGRAPHIC.MARGIN_FACTOR * container.aspect
    ∧ camera.left =
      -(characteristicScale model * appConfig.ORTHOGRAPHIC.MARGIN_FACTOR * container.aspect)

/-- The node that `render3D(modelUrl)` displays when its promise resolves. -/
def displayedModel (s : ViewManager) (modelUrl : Option String) (outcome : LoadResult) : Object3D :=
  if isFalsy modelUrl then recentered (prepared s).createFallbackModel.1
  else
    match outcome with
    | LoadResult.success gltf => recentered (receivedRoot (prepared s) gltf)
    | LoadResult.failure error =>
      recentered ((prepared s).consoleError (loadErrorMessage error)).createFallbackModel.1

/-- The states `s` and `t` differ at most in the scheduler, the log and the class list of the
perspective canvas. -/
def Cosmetic (s t : ViewManager) : Prop :=
  t = { s with
    needsRender := t.needsRender
    boundRender := t.boundRender
    frameRequests := t.frameRequests
    log := t.log
    canvas3d := t.canvas3d }

/-- A box with corners `(0, 0, 0)` and `(4, 2, 6)`. -/
def sampleBox : Box3 := ⟨⟨0, 0, 0⟩, ⟨4, 2, 6⟩, by norm_num⟩

/-- A loaded asset: a group with one mesh of extents `(4, 2, 6)` and a dark
`MeshStandardMaterial`. -/
def sampleGltf : GLTF where
  scene := ⟨1000, "Group", "Scene", false, none, none, Vector3.zero, false, false,
    [⟨1001, "Mesh", "part", true, some ⟨500, some sampleBox⟩, some 600, Vector3.zero, false,
      false, []⟩]⟩
  materials := fun _ =>
    ⟨"MeshStandardMaterial", some ⟨1 / 10, 1 / 10, 1 / 10⟩, none, some (1 / 2), some 1, false⟩

/-- The sample viewer after `render3D("models/a.glb")` whose load succeeded with
`sampleGltf`. -/
def sampleDisplay : ViewManager × Promise :=
  sampleViewer.render3D (some "models/a.glb") (LoadResult.success sampleGltf)

/-- The uuid of the material of a mesh. -/
def meshMaterial (n : Object3D) : Option Nat := if n.isMesh then n.material else none

/-- The sample viewer after `sampleDisplay` and one animation frame, which draws the asset. -/
def drawnDisplay : ViewManager := animationFrame sampleDisplay.1

/-- The start of `render3D("models/b.glb")` in `drawnDisplay`, up to the call of
`this.loader.load`: the load has no outcome yet. -/
def secondLoad : ViewManager × Promise := drawnDisplay.render3DStart (some "models/b.glb")

/-- The calls of `controls.update()` that one run of `render()` makes. -/
def controlsEvents (s : ViewManager) : List Event :=
  match s.controls with
  | some c => if c.enabled then [Event.controlsUpdate] else []
  | none => []

/-- Every resource that the disposal callback releases for the node `n` has been released. -/
def Released (materials : Nat → Material) (d : Disposed) (n : Object3D) : Prop :=
  n.isMesh = true →
    (∀ g, n.geometry = some g → g.id ∈ d.geometries)
      ∧ (∀ u, n.material = some u →
        u ∈ d.materials ∧ ∀ t, (materials u).map = some t → t ∈ d.textures)

/-- The sample viewer after `render3D("models/a.glb")` whose load succeeded with a group that
has no mesh. -/
def emptyDisplay : ViewManager × Promise :=
  sampleViewer.render3D (some "models/a.glb")
    (LoadResult.success
      ⟨⟨1000, "Group", "Scene", false, none, none, Vector3.zero, false, false, []⟩,
        fun _ => blankMaterial⟩)

end ViewManager

/-! ## `model.js` -/

/-- A JavaScript value as the array `models` of `manifest.json` can hold it, and `undefined`.
An array or an object stands for itself under a number; its contents are not read. -/
inductive Value where
  | undefined
  | null
  | bool (b : Bool)
  | number (n : ℚ)
  | string (s : String)
  | object (id : Nat)
deriving DecidableEq

/-- The conversion of a value to a boolean as the operators `!` and `||` make it. -/
def Value.truthy : Value → Bool
  | Value.undefined => false
  | Value.null => false
  | Value.bool b => b
  | Value.number n => decide (n ≠ 0)
  | Value.string s => decide (s ≠ "")
  | Value.object _ => true

/-- The expression `a || b`. -/
def Value.or (a b : Value) : Value := if a.truthy then a else b

/-- The expression `array[index]` for an integer index: `undefined` outside of the array. -/
def Value.index (array : List Value) (index : Int) : Value :=
  if 0 ≤ index then array[index.toNat]?.getD Value.undefined else Value.undefined

/-- The fields of `ModelManager`. -/
structure ModelManager where
  modelPath : String
  maxModels : Nat
  availableModels : List Value
  currentIndex : Int

namespace ModelManager

/-- `new ModelManager()` with the default arguments, read from `window.AppConfig`. -/
def create (config : AppConfig) : ModelManager :=
  ⟨config.MODEL_PATH, config.MAX_MODELS, [], 0⟩

/-- `detectAvailableModels()` once its promise has resolved. `models` is the value of
`manifest.models` when the manifest was fetched and parsed and that value is an array, and
`none` in every other case; the warning that the `catch` block logs is not recorded. -/
def detectAvailableModels (m : ModelManager) (models : Option (List Value)) : ModelManager :=
  match models with
  | some (v :: vs) => { m with availableModels := v :: vs }
  | _ => { m with availableModels := [Value.null] }

/-- `getCurrentModelUrl()`. -/
def getCurrentModelUrl (m : ModelManager) : Value :=
  (Value.index m.availableModels m.currentIndex).or Value.null

/-- `setCurrentIndex(index)`. -/
def setCurrentIndex (m : ModelManager) (index : Int) : ModelManager × Bool :=
  if 0 ≤ index ∧ index < m.availableModels.length then ({ m with currentIndex := index }, true)
  else (m, false)

/-- `nextModel()`. -/
def nextModel (m : ModelManager) : ModelManager × Bool :=
  if m.currentIndex < (m.availableModels.length : Int) - 1 then
    ({ m with currentIndex := m.currentIndex + 1 }, true)
  else (m, false)

/-- `prevModel()`. -/
def prevModel (m : ModelManager) : ModelManager × Bool :=
  if m.currentIndex > 0 then ({ m with currentIndex := m.currentIndex - 1 }, true)
  else (m, false)

/-- A manager whose manifest listed one number. -/
def numberedManager : ModelManager := ⟨"models/", 100, [Value.number 7], 0⟩

/-- A manager with three models, at the second. -/
def sampleManager : ModelManager :=
  ⟨"models/", 100, [Value.string "a.glb", Value.string "b.glb", Value.string "c.glb"], 1⟩

end ModelManager

/-! ## `controller.js` -/

/-- A button of the page: the property `disabled`. -/
structure Button where
  disabled : Bool
deriving DecidableEq

/-- The number input of the page: the properties that the controller writes. -/
structure NumberInput where
  disabled : Bool
  min : Int
  max : Int
  value : Int
deriving DecidableEq

/-- The label of the page: its `textContent`. -/
structure Label where
  textContent : String
deriving DecidableEq

/-- The fields of `AppController`. Of `this.viewManager` the controller holds the elements it
touches (`modelNumberInput`, `nextBtn`, `prevBtn`, `currentModelLabel`, `canvas3d`); the
calls of `viewManager.render3D` are recorded by their argument in `render3DCalls`, and
`inFlight` counts the promises returned by these calls whose `finally` callback has not run.
`frameRequests` is the queue of `requestAnimationFrame` and `errors` the messages of
`console.error`. -/
structure AppController where
  modelManager : ModelManager
  isRendering : Bool
  keydownHandler : Bool
  modelNumberInput : Option NumberInput
  nextBtn : Option Button
  prevBtn : Option Button
  currentModelLabel : Option Label
  canvas3d : Option Canvas
  frameRequests : List FrameCallback
  render3DCalls : List Value
  inFlight : Nat
  errors : List String

namespace AppController

/-- The constructor up to the call of `this.init()`, on a page with the configuration
`config` and the given elements. -/
def create (config : AppConfig) (modelNumberInput : Option NumberInput)
    (nextBtn prevBtn : Option Button) (currentModelLabel : Option Label)
    (canvas3d : Option Canvas) : AppController where
  modelManager := ModelManager.create config
  isRendering := false
  keydownHandler := false
  modelNumberInput := modelNumberInput
  nextBtn := nextBtn
  prevBtn := prevBtn
  currentModelLabel := currentModelLabel
  canvas3d := canvas3d
  frameRequests := []
  render3DCalls := []
  inFlight := 0
  errors := []

/-- The method `updateModelNumber(current, total)` of `ViewManager`. -/
def updateModelNumber (c : AppController) (current : Int) (total : Nat) : AppController :=
  { c with
    modelNumberInput := c.modelNumberInput.map fun (input : NumberInput) =>
      { input with value := current + 1, max := total }
    currentModelLabel := c.currentModelLabel.map fun (_ : Label) =>
      ⟨toString (current + 1) ++ "/" ++ toString total⟩ }

/-- `updateView()`. The callbacks given to `catch` and `finally` run when the promise of
`render3D` settles, which is the step `settle`. -/
def updateView (c : AppController) : AppController :=
  let currentUrl := c.modelManager.getCurrentModelUrl
  let index := c.modelManager.currentIndex
  let total := c.modelManager.availableModels.length
  let c1 := c.updateModelNumber index total
  let c2 :=
    { c1 with
      nextBtn := c1.nextBtn.map fun (_ : Button) => ⟨decide (index ≥ (total : Int) - 1)⟩
      prevBtn := c1.prevBtn.map fun (_ : Button) => ⟨decide (index ≤ 0)⟩
      modelNumberInput := c1.modelNumberInput.map fun (input : NumberInput) =>
        { input with disabled := decide (total ≤ 1), min := 1, max := total, value := index + 1 } }
  let c3 :=
    match c2.canvas3d with
    | some canvas =>
      { c2 with
        canvas3d := some { canvas with fadeIn := false }
        frameRequests := c2.frameRequests ++ [FrameCallback.fadeIn] }
    | none => c2
  if !c3.isRendering then
    { c3 with
      isRendering := true
      render3DCalls := c3.render3DCalls ++ [currentUrl]
      inFlight := c3.inFlight + 1 }
  else c3

/-- `handleNext()`. -/
def handleNext (c : AppController) : AppController :=
  let r := c.modelManager.nextModel
  if r.2 then updateView { c with modelManager := r.1 } else { c with modelManager := r.1 }

/-- `handlePrev()`. -/
def handlePrev (c : AppController) : AppController :=
  let r := c.modelManager.prevModel
  if r.2 then updateView { c with modelManager := r.1 } else { c with modelManager := r.1 }

/-- `canNavigateNext()`. -/
def canNavigateNext (c : AppController) : Bool :=
  match c.nextBtn with
  | some button =>
    !button.disabled
      && decide (c.modelManager.currentIndex < (c.modelManager.availableModels.length : Int) - 1)
  | none => false

/-- `canNavigatePrev()`. -/
def canNavigatePrev (c : AppController) : Bool :=
  match c.prevBtn with
  | some button => !button.disabled && decide (c.modelManager.currentIndex > 0)
  | none => false

/-- `isValidModelIndex(idx)`. -/
def isValidModelIndex (c : AppController) (idx : Int) : Bool :=
  decide (idx ≥ 0) && decide (idx < c.modelManager.availableModels.length)

/-- The listener of `change` on the number input; `parsed` is the result of
`parseInt(e.target.value, 10)`, `none` for `NaN`. -/
def onInputChange (c : AppController) (parsed : Option Int) : AppController :=
  match c.modelNumberInput with
  | none => c
  | some input =>
    match parsed with
    | none =>
      { c with modelNumberInput := some { input with value := c.modelManager.currentIndex + 1 } }
    | some parsedValue =>
      let idx := parsedValue - 1
      if c.isValidModelIndex idx then
        updateView { c with modelManager := (c.modelManager.setCurrentIndex idx).1 }
      else
        { c with
          modelNumberInput := some { input with value := c.modelManager.currentIndex + 1 } }

/-- The listener `keydownHandler`; `inputFocused` is the result of
`document.activeElement === this.viewManager.modelNumberInput`. -/
def onKeydown (c : AppController) (key : String) (inputFocused : Bool) : AppController :=
  if inputFocused then c
  else if key = "ArrowRight" ∧ c.canNavigateNext = true then c.handleNext
  else if key = "ArrowLeft" ∧ c.canNavigatePrev = true then c.handlePrev
  else c

/-- `setupEvents()`: from here on the listeners run. -/
def setupEvents (c : AppController) : AppController := { c with keydownHandler := true }

/-- `init()` once the promise of `detectAvailableModels()` has resolved; `models` is as in
`ModelManager.detectAvailableModels`. -/
def init (c : AppController) (models : Option (List Value)) : AppController :=
  setupEvents (updateView { c with modelManager := c.modelManager.detectAvailableModels models })

/-- The promise of the oldest unsettled call of `render3D` settles, resolved (`none`) or
rejected with an error of the given message: the callback of `catch` logs the rejection and the
callback of `finally` clears `isRendering`. -/
def settle (c : AppController) (rejection : Option String) : AppController :=
  if c.inFlight = 0 then c
  else
    let logged :=
      match rejection with
      | some message =>
        c.errors ++
          ["Error en renderizado: " ++
            sanitize (if message = "" then "Error desconocido" else message)]
      | none => c.errors
    { c with errors := logged, isRendering := false, inFlight := c.inFlight - 1 }

/-- An animation frame: the callbacks that `updateView` queued add `fade-in` to the class list
of the perspective canvas. -/
def animationFrame (c : AppController) : AppController :=
  { c with
    canvas3d :=
      if c.frameRequests = [] then c.canvas3d
      else c.canvas3d.map fun (canvas : Canvas) => { canvas with fadeIn := true }
    frameRequests := [] }

/-- What happens to the controller after `setupEvents()`: a call of `handleNext()` or of
`handlePrev()` (a click on an enabled button), a `change` event of the number input, a
`keydown` event, the settling of the promise of a `render3D` call, an animation frame. -/
inductive Step where
  | next
  | prev
  | change (parsed : Option Int)
  | keydown (key : String) (inputFocused : Bool)
  | settle (rejection : Option String)
  | frame

/-- One step of the controller. -/
def step (c : AppController) : Step → AppController
  | Step.next => c.handleNext
  | Step.prev => c.handlePrev
  | Step.change parsed => c.onInputChange parsed
  | Step.keydown key inputFocused => c.onKeydown key inputFocused
  | Step.settle rejection => c.settle rejection
  | Step.frame => c.animationFrame

/-- The steps of a list, in order. -/
def run (c : AppController) (steps : List Step) : AppController := steps.foldl step c

/-- The controller of a page with the configuration of `config.js`, both buttons, the input,
the label and the canvas, after `init()` found the given models in the manifest. -/
def started (models : List Value) : AppController :=
  (create appConfig (some ⟨false, 0, 0, 0⟩) (some ⟨false⟩) (some ⟨false⟩) (some ⟨""⟩)
    (some ⟨none, false⟩)).init (some models)

/-- A manifest with three models. -/
def sampleModels : List Value :=
  [Value.string "a.glb", Value.string "b.glb", Value.string "c.glb"]

/-- At most one promise of `render3D` is unsettled, and `isRendering` tells whether one is. -/
def OneLoad (c : AppController) : Prop := c.inFlight = if c.isRendering then 1 else 0

end AppController

/-! ## Double arithmetic -/

/-- A finite number of JavaScript (IEEE 754 binary64) by sign, significand and exponent: its
value is `(-1)^negative * mantissa * 2^exponent`, with an odd significand, or zero. The
operations below round to 53 significant bits, to nearest, ties to even. Overflow, subnormal
numbers, infinities, `NaN` and the sign of zero are not modelled. -/
structure F64 where
  negative : Bool
  mantissa : Nat
  exponent : Int
deriving DecidableEq

namespace F64

/-- The number of binary digits of `n`, counted with `fuel` steps. -/
def bitsAux : Nat → Nat → Nat
  | 0, _ => 0
  | fuel + 1, n => if n = 0 then 0 else bitsAux fuel (n / 2) + 1

/-- The number of binary digits of `n`. -/
def bits (n : Nat) : Nat := bitsAux n n

/-- Moves the trailing zero digits of the significand into the exponent. -/
def stripZeros : Nat → Nat → Int → Nat × Int
  | 0, m, e => (m, e)
  | fuel + 1, m, e => if m % 2 = 0 then stripZeros fuel (m / 2) (e + 1) else (m, e)

/-- The number `(-1)^negative * m * 2^e` with an odd significand. -/
def canonical (negative : Bool) (m : Nat) (e : Int) : F64 :=
  if m = 0 then ⟨false, 0, 0⟩
  else ⟨negative, (stripZeros (bits m) m e).1, (stripZeros (bits m) m e).2⟩

/-- The value of a double as a rational. -/
def toRat (a : F64) : ℚ :=
  (if a.negative then -1 else 1) * (a.mantissa : ℚ) * (2 : ℚ) ^ a.exponent

/-- Rounds `(q + r) * 2^e` to 53 significant bits, where `q` is a natural number of at least
55 binary digits (or the value is `q * 2^e` exactly) and `0 <= r < 1` with `r > 0` exactly
when `sticky`. -/
def roundBits (negative : Bool) (q : Nat) (sticky : Bool) (e : Int) : F64 :=
  let shift := bits q - 53
  let kept := q >>> shift
  let rest := q % 2 ^ shift
  let half := 2 ^ (shift - 1)
  let up := decide (shift ≠ 0) && (decide (rest > half)
    || (decide (rest = half) && (sticky || decide (kept % 2 = 1))))
  canonical negative (if up then kept + 1 else kept) (e + shift)

/-- Rounds `(-1)^negative * (n / d) * 2^e` to a double, for `d > 0`. -/
def round (negative : Bool) (n d : Nat) (e : Int) : F64 :=
  let k := bits d + 56 - bits n
  roundBits negative ((n <<< k) / d) (decide ((n <<< k) % d ≠ 0)) (e - k)

/-- The double nearest to a rational. -/
def ofRat (q : ℚ) : F64 := round (decide (q < 0)) q.num.natAbs q.den 0

/-- The product `a * b` of JavaScript. -/
def mul (a b : F64) : F64 :=
  round (a.negative != b.negative) (a.mantissa * b.mantissa) 1 (a.exponent + b.exponent)

/-- The significand of `a`, with its sign, at the exponent `e <= a.exponent`. -/
def signed (a : F64) (e : Int) : Int :=
  (if a.negative then -1 else 1) * ((a.mantissa <<< (a.exponent - e).toNat : Nat) : Int)

/-- The sum `a + b` of JavaScript. -/
def add (a b : F64) : F64 :=
  round (decide (signed a (min a.exponent b.exponent) + signed b (min a.exponent b.exponent) < 0))
    (signed a (min a.exponent b.exponent) + signed b (min a.exponent b.exponent)).natAbs 1
    (min a.exponent b.exponent)

/-- The quotient `a / b` of JavaScript for a divisor that is not zero. -/
def div (a b : F64) : F64 :=
  round (a.negative != b.negative) a.mantissa b.mantissa (a.exponent - b.exponent)

/-- The digits of the integer square root of `n` from the digit `b - 1` down, added to `r`. -/
def isqrtAux : Nat → Nat → Nat → Nat
  | 0, _, r => r
  | b + 1, n, r => isqrtAux b n (if (r + 2 ^ b) * (r + 2 ^ b) ≤ n then r + 2 ^ b else r)

/-- The integer square root: the largest `r` with `r * r <= n`. -/
def isqrt (n : Nat) : Nat := isqrtAux (bits n / 2 + 1) n 0

/-- `Math.sqrt(a)` for `a >= 0`: the double nearest to the square root. -/
def sqrt (a : F64) : F64 :=
  let s0 := 112 - bits a.mantissa
  let s := if (a.exponent - s0) % 2 = 0 then s0 else s0 + 1
  let scaled := a.mantissa <<< s
  let root := isqrt scaled
  roundBits false root (decide (root * root ≠ scaled)) ((a.exponent - s) / 2)

/-- The double 1. -/
def one : F64 := ⟨false, 1, 0⟩

end F64

/-- `THREE.Vector3` with its components in double arithmetic. -/
structure Vec64 where
  x : F64
  y : F64
  z : F64
deriving DecidableEq

namespace Vec64

/-- The doubles nearest to the components of a vector. -/
def ofVector3 (v : Vector3) : Vec64 := ⟨F64.ofRat v.x, F64.ofRat v.y, F64.ofRat v.z⟩

/-- `v.length()`: `Math.sqrt(this.x * this.x + this.y * this.y + this.z * this.z)`. -/
def length (v : Vec64) : F64 :=
  F64.sqrt (F64.add (F64.add (F64.mul v.x v.x) (F64.mul v.y v.y)) (F64.mul v.z v.z))

/-- `v.multiplyScalar(s)`. -/
def multiplyScalar (v : Vec64) (s : F64) : Vec64 := ⟨F64.mul v.x s, F64.mul v.y s, F64.mul v.z s⟩

/-- `v.divideScalar(s)`: `this.multiplyScalar(1 / s)`. -/
def divideScalar (v : Vec64) (s : F64) : Vec64 := v.multiplyScalar (F64.div F64.one s)

/-- `v.normalize()`: `this.divideScalar(this.length() || 1)`. -/
def normalize (v : Vec64) : Vec64 :=
  v.divideScalar (if v.length.mantissa = 0 then F64.one else v.length)

/-- `v.setLength(l)`: `this.normalize().multiplyScalar(l)`. -/
def setLength (v : Vec64) (l : F64) : Vec64 := v.normalize.multiplyScalar l

end Vec64

namespace ViewManager

/-- The distance of the perspective camera from the origin, `camera3D.position.length()`, after
`render3D` has displayed `model`, in double arithmetic. The statements of `render3D` and of
`centerModel()` that write the position are `camera3D.position.set(x, y, z)` with
`MAIN_LIGHT_POS`, then `controls.update()`, which leaves the camera at `orbit (x, y, z)`, and
`camera3D.position.setLength(maxDim * 3)`; `maxDim` is the characteristic scale of the model
as the rational model computes it, rounded to a double. -/
def perspectiveDistance64 (orbit : Vec64 → Vec64) (config : AppConfig) (model : Object3D) :
    F64 :=
  ((orbit (Vec64.ofVector3 config.SCENE_3D.MAIN_LIGHT_POS)).setLength
    (F64.mul (F64.ofRat (characteristicScale model)) (F64.ofRat 3))).length

/-- The double `5 + 2^-49`, which prints as `5.000000000000002`. -/
def orbitedDepth : F64 := ⟨false, 2814749767106561, -49⟩

/-- The position `(10, 10, 5.000000000000002)`. -/
def orbitedPosition : Vec64 := ⟨⟨false, 5, 1⟩, ⟨false, 5, 1⟩, orbitedDepth⟩

/-- What `controls.update()` of `THREE.OrbitControls` makes of a camera position, for the
target `(0, 0, 0)` and no input of the user: the position goes to spherical coordinates and
back, which takes `(10, 10, 5)` to `(10, 10, 5.000000000000002)`. Other positions are not
followed and stay as they are. -/
def orbitControlsUpdate (position : Vec64) : Vec64 :=
  if position = ⟨⟨false, 5, 1⟩, ⟨false, 5, 1⟩, ⟨false, 5, 0⟩⟩ then orbitedPosition else position

end ViewManager

namespace ViewManager

/-! ## The scheduler -/

theorem markNeedsRender_of_dirty (s : ViewManager) (h : s.needsRender = true) :
    s.markNeedsRender = s := by
  simp [markNeedsRender, h]

theorem markNeedsRender_needsRender (s : ViewManager) : s.markNeedsRender.needsRender = true := by
  unfold markNeedsRender
  split <;> simp_all

theorem markNeedsRender_idem (s : ViewManager) :
    s.markNeedsRender.markNeedsRender = s.markNeedsRender :=
  markNeedsRender_of_dirty _ (markNeedsRender_needsRender s)

theorem markNeedsRender_iterate (s : ViewManager) (n : Nat) :
    markNeedsRender^[n + 1] s = s.markNeedsRender := by
  induction n with
  | zero => rfl
  | succ k ih =>
    rw [Function.iterate_succ_apply', ih, markNeedsRender_idem]

theorem markNeedsRender_frameRequests (s : ViewManager) :
    s.markNeedsRender.frameRequests =
      s.frameRequests ++ (if s.needsRender then [] else [FrameCallback.boundRender]) := by
  unfold markNeedsRender
  cases h : s.needsRender <;> simp

/-- C1: `n ≥ 1` consecutive calls of `markNeedsRender` (no redraw callback in between) add
exactly one `requestAnimationFrame` callback to the queue when `needsRender` was false before
the first call and none when it was true; and a call made while `needsRender` is true returns
the state unchanged. -/
theorem markNeedsRender_coalescing (s : ViewManager) (n : Nat) (hn : 1 ≤ n) :
    (markNeedsRender^[n] s).frameRequests =
        s.frameRequests ++ (if s.needsRender then [] else [FrameCallback.boundRender])
      ∧ (s.needsRender = true → s.markNeedsRender = s) := by
  obtain ⟨k, rfl⟩ : ∃ k, n = k + 1 := ⟨n - 1, by omega⟩
  exact ⟨by rw [markNeedsRender_iterate, markNeedsRender_frameRequests],
    markNeedsRender_of_dirty s⟩

theorem markNeedsRender_coalescing_witness :
    1 ≤ 3 ∧ ((markNeedsRender^[3] (create samplePage)).frameRequests =
        (create samplePage).frameRequests
          ++ (if (create samplePage).needsRender then [] else [FrameCallback.boundRender])
      ∧ ((create samplePage).needsRender = true →
          (create samplePage).markNeedsRender = create samplePage)) :=
  ⟨by decide, markNeedsRender_coalescing (create samplePage) 3 (by decide)⟩

theorem KeepsSchedule.andThen {f g : ViewManager → ViewManager × Completion}
    (hf : KeepsSchedule f) (hg : KeepsSchedule g) : KeepsSchedule fun s => andThen (f s) g := by
  intro s
  have h1 := hf s
  show (Solidos.andThen (f s) g).1.needsRender = _ ∧ (Solidos.andThen (f s) g).1.frameRequests = _
  rcases hfs : f s with ⟨s1, c⟩
  rw [hfs] at h1
  cases c with
  | normal =>
    have h2 := hg s1
    exact ⟨h2.1.trans h1.1, h2.2.trans h1.2⟩
  | thrown e => exact h1

theorem KeepsSchedule.forEachKey {f : ViewKey → ViewManager → ViewManager × Completion}
    (hf : ∀ k, KeepsSchedule (f k)) (keys : List ViewKey) : KeepsSchedule (forEachKey f keys) := by
  induction keys with
  | nil => intro s; exact ⟨rfl, rfl⟩
  | cons k ks ih => exact KeepsSchedule.andThen (hf k) ih

theorem setupScene_keeps : KeepsSchedule setupScene := by
  intro s
  rcases h1 : s.gridSize with _ | g <;> rcases h2 : s.window.AppConfig with _ | c
  · simp [setupScene, h1, h2]
  · simp [setupScene, h1, h2]
  · by_cases hg : g = 0 <;> simp [setupScene, h1, h2, hg]
  · by_cases hg : g = 0 <;> simp [setupScene, h1, h2, hg]

theorem setupCamera_keeps : KeepsSchedule setupCamera := by
  intro s
  rcases h1 : s.canvas3d with _ | canvas
  · simp [setupCamera, h1]
  · rcases h2 : canvas.parentElement with _ | c <;> rcases h3 : s.window.AppConfig with _ | cfg <;>
      simp [setupCamera, h1, h2, h3]

theorem setupRenderer_keeps : KeepsSchedule setupRenderer := by
  intro s
  rcases h1 : s.containerCacheMain with _ | c <;> simp [setupRenderer, h1]

theorem setupControls_keeps : KeepsSchedule setupControls := by
  intro s; simp [setupControls]

theorem setupLighting_keeps : KeepsSchedule setupLighting := by
  intro s
  rcases h1 : s.scene3D with _ | sc
  · simp [setupLighting, h1]
  · rcases h3 : s.window.AppConfig with _ | cfg <;> simp [setupLighting, h1, h3]

theorem init3D_keeps : KeepsSchedule init3D := by
  intro s
  rcases h1 : s.canvas3d with _ | canvas
  · simp [init3D, h1]
  · have h := (((setupScene_keeps.andThen setupCamera_keeps).andThen setupRenderer_keeps).andThen
      setupControls_keeps).andThen setupLighting_keeps s
    simpa [init3D, h1] using h

theorem initView_keeps (canvases : ViewKey → Option Canvas) (k : ViewKey) :
    KeepsSchedule (initView canvases k) := by
  intro s
  rcases h1 : canvases k with _ | canvas
  · simp [initView, h1]
  · rcases h2 : canvas.parentElement with _ | c <;> rcases h3 : s.window.AppConfig with _ | cfg <;>
      simp [initView, h1, h2, h3]

theorem initOrthogonal_keeps : KeepsSchedule initOrthogonal := by
  intro s
  exact KeepsSchedule.andThen (f := forEachKey (initView (orthoCanvas s)) ViewKey.all)
    (KeepsSchedule.forEachKey (initView_keeps _) _) (fun s1 => ⟨rfl, rfl⟩) s

theorem initializeView_of_dirty (s : ViewManager) (h : s.needsRender = true) :
    (initializeView s).1.needsRender = true
      ∧ (initializeView s).1.frameRequests = s.frameRequests := by
  rcases hc : s.window.AppConfig with _ | config
  · simp [initializeView, hc, consoleError, h]
  · have h3 : (s.readElements config).needsRender = true
        ∧ (s.readElements config).frameRequests = s.frameRequests := by
      simp [readElements, h]
    simp only [initializeView, hc]
    generalize s.readElements config = s3 at h3 ⊢
    split
    · have ha := init3D_keeps s3
      rcases hi : init3D s3 with ⟨s4, c⟩
      rw [hi] at ha
      cases c with
      | thrown e => simpa [andThen] using ⟨ha.1.trans h3.1, ha.2.trans h3.2⟩
      | normal =>
        have hb := initOrthogonal_keeps s4
        rcases ho : initOrthogonal s4 with ⟨s5, c⟩
        rw [ho] at hb
        cases c with
        | thrown e =>
          simpa [andThen, ho] using ⟨hb.1.trans (ha.1.trans h3.1), hb.2.trans (ha.2.trans h3.2)⟩
        | normal =>
          have h5 : s5.needsRender = true := hb.1.trans (ha.1.trans h3.1)
          simp only [andThen, ho, markNeedsRender_of_dirty s5 h5]
          exact ⟨h5, hb.2.trans (ha.2.trans h3.2)⟩
    · simpa [consoleError] using h3

theorem render_of_uninitialized (s : ViewManager)
    (h : s.renderer3D = none ∨ s.scene3D = none ∨ s.camera3D = none) :
    s.render = (s, Completion.normal) := by
  unfold render
  rcases h with h | h | h
  · cases s.needsRender <;> simp [h]
  · cases s.needsRender <;> cases s.renderer3D <;> simp [h]
  · cases s.needsRender <;> cases s.renderer3D <;> cases s.scene3D <;> simp [h]

theorem initialized_sampleViewer : Initialized sampleViewer := by
  constructor
  · rfl
  · decide
  · decide
  · decide
  · decide
  · intro k; cases k <;> decide
  · intro k; cases k <;> decide
  · intro k; cases k <;> decide
  · exact ⟨_, rfl, by intro k; cases k <;> decide⟩
  · intro k; cases k <;> decide
  · left; rfl
  · left; rfl
  · rfl

/-- C5 (as stated, refuted): on the sample page `markNeedsRender()` runs before
`initialize()`, so the redraw callback fires while the perspective renderer is still missing.
It draws nothing and leaves the flag set; `initialize()` then completes with every viewport in
place, and the next call of `markNeedsRender` adds no callback to the empty queue. -/
theorem uninitialized_callback_stalls :
    (create samplePage).markNeedsRender.renderer3D = none
      ∧ (create samplePage).markNeedsRender.frameRequests = [FrameCallback.boundRender]
      ∧ stalledViewer.log = []
      ∧ stalledViewer.needsRender = true
      ∧ stalledViewer.frameRequests = []
      ∧ (initializeView stalledViewer).2 = Completion.normal
      ∧ (initializeView stalledViewer).1.renderer3D.isSome = true
      ∧ (initializeView stalledViewer).1.scene3D.isSome = true
      ∧ (initializeView stalledViewer).1.camera3D.isSome = true
      ∧ (initializeView stalledViewer).1.markNeedsRender.frameRequests = [] := by
  refine ⟨rfl, rfl, rfl, rfl, rfl, rfl, rfl, rfl, rfl, rfl⟩

/-- C5 (amended): when `render()` fires while the perspective renderer, scene or camera is
missing, it returns the state unchanged (nothing drawn, dirty flag still set); `initialize()`
leaves the flag set, and with the flag set the next call of `markNeedsRender` changes nothing
and schedules no callback. -/
theorem render_uninitialized_keeps_flag (s : ViewManager)
    (h : s.renderer3D = none ∨ s.scene3D = none ∨ s.camera3D = none)
    (hd : s.needsRender = true) :
    s.render = (s, Completion.normal)
      ∧ (initializeView s).1.needsRender = true
      ∧ (initializeView s).1.frameRequests = s.frameRequests
      ∧ (initializeView s).1.markNeedsRender = (initializeView s).1 :=
  ⟨render_of_uninitialized s h, (initializeView_of_dirty s hd).1, (initializeView_of_dirty s hd).2,
    markNeedsRender_of_dirty _ (initializeView_of_dirty s hd).1⟩

theorem render_uninitialized_keeps_flag_witness :
    ((create samplePage).markNeedsRender.renderer3D = none
        ∨ (create samplePage).markNeedsRender.scene3D = none
        ∨ (create samplePage).markNeedsRender.camera3D = none)
      ∧ (create samplePage).markNeedsRender.needsRender = true
      ∧ ((create samplePage).markNeedsRender.render
          = ((create samplePage).markNeedsRender, Completion.normal)
        ∧ (initializeView (create samplePage).markNeedsRender).1.needsRender = true
        ∧ (initializeView (create samplePage).markNeedsRender).1.frameRequests
          = (create samplePage).markNeedsRender.frameRequests
        ∧ (initializeView (create samplePage).markNeedsRender).1.markNeedsRender
          = (initializeView (create samplePage).markNeedsRender).1) :=
  ⟨Or.inl rfl, rfl,
    render_uninitialized_keeps_flag (create samplePage).markNeedsRender (Or.inl rfl) rfl⟩

/-! ## Fitting the orthographic cameras -/

theorem adjustOrthographicCameras_eq (s : ViewManager) (maxDim : ℚ) (config : AppConfig)
    (canvasMap : ViewKey → Option Canvas)
    (hconfig : s.window.AppConfig = some config) (hmap : s.canvasMap = some canvasMap)
    (hcanvas : ∀ key, (canvasMap key).isSome) (hcam : ∀ key, (s.cameras key).isSome)
    (hcont : ∀ key, (s.containerCache key).isSome)
    (hkeys : s.cameraKeys = none ∨ s.cameraKeys = some ViewKey.all) :
    s.adjustOrthographicCameras maxDim =
      (markNeedsRender { s with
        cameraKeys := some ViewKey.all
        cameras := fittedCameras s (maxDim * config.ORTHOGRAPHIC.MARGIN_FACTOR) },
        Completion.normal) := by
  have hk : s.cameraKeys.getD ViewKey.all = ViewKey.all := by
    rcases hkeys with h | h <;> simp [h]
  obtain ⟨c1, hc1⟩ := Option.isSome_iff_exists.mp (hcanvas ViewKey.top)
  obtain ⟨c2, hc2⟩ := Option.isSome_iff_exists.mp (hcanvas ViewKey.front)
  obtain ⟨c3, hc3⟩ := Option.isSome_iff_exists.mp (hcanvas ViewKey.side)
  obtain ⟨a1, ha1⟩ := Option.isSome_iff_exists.mp (hcam ViewKey.top)
  obtain ⟨a2, ha2⟩ := Option.isSome_iff_exists.mp (hcam ViewKey.front)
  obtain ⟨a3, ha3⟩ := Option.isSome_iff_exists.mp (hcam ViewKey.side)
  obtain ⟨b1, hb1⟩ := Option.isSome_iff_exists.mp (hcont ViewKey.top)
  obtain ⟨b2, hb2⟩ := Option.isSome_iff_exists.mp (hcont ViewKey.front)
  obtain ⟨b3, hb3⟩ := Option.isSome_iff_exists.mp (hcont ViewKey.side)
  have hfit : Function.update (Function.update (Function.update s.cameras ViewKey.top
        (some { a1 with
          left := (-(maxDim * config.ORTHOGRAPHIC.MARGIN_FACTOR)) * b1.aspect
          right := maxDim * config.ORTHOGRAPHIC.MARGIN_FACTOR * b1.aspect
          top := maxDim * config.ORTHOGRAPHIC.MARGIN_FACTOR
          bottom := -(maxDim * config.ORTHOGRAPHIC.MARGIN_FACTOR) })) ViewKey.front
        (some { a2 with
          left := (-(maxDim * config.ORTHOGRAPHIC.MARGIN_FACTOR)) * b2.aspect
          right := maxDim * config.ORTHOGRAPHIC.MARGIN_FACTOR * b2.aspect
          top := maxDim * config.ORTHOGRAPHIC.MARGIN_FACTOR
          bottom := -(maxDim * config.ORTHOGRAPHIC.MARGIN_FACTOR) })) ViewKey.side
        (some { a3 with
          left := (-(maxDim * config.ORTHOGRAPHIC.MARGIN_FACTOR)) * b3.aspect
          right := maxDim * config.ORTHOGRAPHIC.MARGIN_FACTOR * b3.aspect
          top := maxDim * config.ORTHOGRAPHIC.MARGIN_FACTOR
          bottom := -(maxDim * config.ORTHOGRAPHIC.MARGIN_FACTOR) })
      = fittedCameras s (maxDim * config.ORTHOGRAPHIC.MARGIN_FACTOR) := by
    funext key
    cases key <;> simp [fittedCameras, Function.update, ha1, ha2, ha3, hb1, hb2, hb3]
  rw [← hfit]
  simp only [adjustOrthographicCameras, hconfig, hk]
  simp [forEachKey, ViewKey.all, andThen, adjustCamera,
    hmap, hc1, hc2, hc3, ha1, ha2, ha3, hb1, hb2, hb3, Function.update]

/-- C2: in a viewer whose three orthogonal views have their canvas, camera and cached
container (of width `w key` and height `h key`), `adjustOrthographicCameras(scale)` with a
positive `scale` ends normally and leaves each of the cameras top, front and side with
`left = -scale * MARGIN_FACTOR * aspect`, `right = scale * MARGIN_FACTOR * aspect`,
`top = scale * MARGIN_FACTOR` and `bottom = -scale * MARGIN_FACTOR`, where `aspect` is
`w / h` when `h > 0` and `1` when `h = 0`. -/
theorem adjustOrthographicCameras_frustum (s : ViewManager) (scale : ℚ) (hscale : 0 < scale)
    (config : AppConfig) (w h : ViewKey → Nat)
    (hconfig : s.window.AppConfig = some config)
    (hmap : ∃ m, s.canvasMap = some m ∧ ∀ key, (m key).isSome)
    (hcam : ∀ key, (s.cameras key).isSome)
    (hcont : ∀ key, s.containerCache key = some ⟨w key, h key⟩)
    (hkeys : s.cameraKeys = none ∨ s.cameraKeys = some ViewKey.all) :
    (s.adjustOrthographicCameras scale).2 = Completion.normal
      ∧ ∀ key, ∃ camera, (s.adjustOrthographicCameras scale).1.cameras key = some camera
        ∧ camera.left = -(scale * config.ORTHOGRAPHIC.MARGIN_FACTOR
            * (if 0 < h key then (w key : ℚ) / (h key : ℚ) else 1))
        ∧ camera.right = scale * config.ORTHOGRAPHIC.MARGIN_FACTOR
            * (if 0 < h key then (w key : ℚ) / (h key : ℚ) else 1)
        ∧ camera.top = scale * config.ORTHOGRAPHIC.MARGIN_FACTOR
        ∧ camera.bottom = -(scale * config.ORTHOGRAPHIC.MARGIN_FACTOR) := by
  have _ := hscale
  obtain ⟨m, hm, hcanvas⟩ := hmap
  rw [adjustOrthographicCameras_eq s scale config m hconfig hm hcanvas hcam
    (fun key => by simp [hcont key]) hkeys]
  refine ⟨rfl, fun key => ?_⟩
  obtain ⟨camera, hcamera⟩ := Option.isSome_iff_exists.mp (hcam key)
  refine ⟨{ camera with
      left := (-(scale * config.ORTHOGRAPHIC.MARGIN_FACTOR)) * (Container.mk (w key) (h key)).aspect
      right := scale * config.ORTHOGRAPHIC.MARGIN_FACTOR * (Container.mk (w key) (h key)).aspect
      top := scale * config.ORTHOGRAPHIC.MARGIN_FACTOR
      bottom := -(scale * config.ORTHOGRAPHIC.MARGIN_FACTOR) }, ?_, ?_, ?_, ?_, ?_⟩
  · unfold markNeedsRender
    split <;> simp [fittedCameras, hcamera, hcont key]
  · simp only [Container.aspect]
    split <;> ring
  · simp only [Container.aspect]
  · rfl
  · rfl

theorem adjustOrthographicCameras_frustum_witness :
    (0 : ℚ) < 6
      ∧ sampleViewer.window.AppConfig = some appConfig
      ∧ (∃ m, sampleViewer.canvasMap = some m ∧ ∀ key, (m key).isSome)
      ∧ (∀ key, (sampleViewer.cameras key).isSome)
      ∧ (∀ key, sampleViewer.containerCache key = some ⟨400, 300⟩)
      ∧ (sampleViewer.cameraKeys = none ∨ sampleViewer.cameraKeys = some ViewKey.all)
      ∧ ((sampleViewer.adjustOrthographicCameras 6).2 = Completion.normal
        ∧ ∀ key, ∃ camera, (sampleViewer.adjustOrthographicCameras 6).1.cameras key = some camera
          ∧ camera.left = -(6 * appConfig.ORTHOGRAPHIC.MARGIN_FACTOR
              * (if 0 < 300 then ((400 : Nat) : ℚ) / ((300 : Nat) : ℚ) else 1))
          ∧ camera.right = 6 * appConfig.ORTHOGRAPHIC.MARGIN_FACTOR
              * (if 0 < 300 then ((400 : Nat) : ℚ) / ((300 : Nat) : ℚ) else 1)
          ∧ camera.top = 6 * appConfig.ORTHOGRAPHIC.MARGIN_FACTOR
          ∧ camera.bottom = -(6 * appConfig.ORTHOGRAPHIC.MARGIN_FACTOR)) :=
  ⟨by norm_num, rfl, initialized_sampleViewer.canvasMap, initialized_sampleViewer.cameras,
    fun key => by cases key <;> rfl, Or.inl rfl,
    adjustOrthographicCameras_frustum sampleViewer 6 (by norm_num) appConfig (fun _ => 400)
      (fun _ => 300) rfl initialized_sampleViewer.canvasMap initialized_sampleViewer.cameras
      (fun key => by cases key <;> rfl) (Or.inl rfl)⟩

end ViewManager

/-! ## Bounding boxes -/

theorem Vector3.ext_iff3 (a b : Vector3) : a = b ↔ a.x = b.x ∧ a.y = b.y ∧ a.z = b.z := by
  cases a; cases b; simp

theorem Box3.translate_translate (v w : Vector3) (b : Box3) :
    Box3.translate v (Box3.translate w b) = Box3.translate (w.add v) b := by
  apply Box3.ext <;> simp [Box3.translate, Vector3.add, add_assoc]

theorem Box3.translate_union (v : Vector3) (a b : Box3) :
    Box3.translate v (a.union b) = (Box3.translate v a).union (Box3.translate v b) := by
  apply Box3.ext <;>
    simp [Box3.translate, Box3.union, Vector3.add, min_add_add_right, max_add_add_right]

theorem Box3.map_translate_expandBy (v : Vector3) (a b : Option Box3) :
    (Box3.expandBy a b).map (Box3.translate v) =
      Box3.expandBy (a.map (Box3.translate v)) (b.map (Box3.translate v)) := by
  cases a <;> cases b <;> simp [Box3.expandBy, Box3.translate_union]

namespace Object3D

mutual
theorem expandByObject_translate (v : Vector3) :
    ∀ (o : Object3D) (offset : Vector3) (box : Option Box3),
      expandByObject (offset.add v) o (box.map (Box3.translate v)) =
        (expandByObject offset o box).map (Box3.translate v)
  | ⟨_, _, _, _, geometry, _, position, _, _, children⟩, offset, box => by
    have hoff : (offset.add v).add position = (offset.add position).add v := by
      simp [Vector3.add, add_assoc, add_comm, add_left_comm]
    simp only [expandByObject, hoff]
    rw [← expandByChildren_translate v children (offset.add position)]
    cases geometry with
    | none => rfl
    | some g =>
      simp only [Box3.map_translate_expandBy, Option.map_map]
      congr 3
      funext b
      simp [Box3.translate_translate]
theorem expandByChildren_translate (v : Vector3) :
    ∀ (l : List Object3D) (offset : Vector3) (box : Option Box3),
      expandByChildren (offset.add v) l (box.map (Box3.translate v)) =
        (expandByChildren offset l box).map (Box3.translate v)
  | [], _, _ => by simp [expandByChildren]
  | c :: cs, offset, box => by
    simp only [expandByChildren]
    rw [expandByObject_translate v c offset box, expandByChildren_translate v cs offset]
end

end Object3D

theorem Box3.setFromObject_position (o : Object3D) (p : Vector3) :
    Box3.setFromObject { o with position := p } =
      (Box3.setFromObject o).map (Box3.translate (p.sub o.position)) := by
  obtain ⟨ref, type, name, isMesh, geometry, material, position, cast, receive, children⟩ := o
  have hp : (Vector3.zero.add position).add (p.sub position) = Vector3.zero.add p := by
    simp [Vector3.add, Vector3.sub, Vector3.zero]
  simp only [Box3.setFromObject, Object3D.expandByObject]
  rw [← Object3D.expandByChildren_translate (p.sub position) children (Vector3.zero.add position),
    hp]
  cases geometry with
  | none => rfl
  | some g =>
    congr 1
    cases hb : g.boundingBox with
    | none => simp [Box3.expandBy, hb]
    | some b => simp [Box3.expandBy, Box3.translate_translate, hp, hb]

theorem Box3.getCenter_translate (v : Vector3) (b : Box3) :
    Box3.getCenter (some (Box3.translate v b)) = (Box3.getCenter (some b)).add v := by
  simp only [Box3.getCenter, Box3.translate, Vector3.add, Vector3.multiplyScalar,
    Vector3.mk.injEq]
  refine ⟨by ring, by ring, by ring⟩

theorem Box3.getSize_translate (v : Vector3) (b : Option Box3) :
    Box3.getSize (b.map (Box3.translate v)) = Box3.getSize b := by
  cases b with
  | none => rfl
  | some b =>
    simp only [Option.map_some', Box3.getSize, Box3.translate, Vector3.add, Vector3.sub,
      Vector3.mk.injEq]
    refine ⟨by ring, by ring, by ring⟩

/-- Moving a node by minus the centre of its box puts the centre of its box at the origin. -/
theorem Box3.getCenter_centered (o : Object3D) :
    Box3.getCenter (Box3.setFromObject
      { o with position := o.position.sub (Box3.getCenter (Box3.setFromObject o)) }) =
      Vector3.zero := by
  rw [Box3.setFromObject_position]
  cases hb : Box3.setFromObject o with
  | none => rfl
  | some b =>
    rw [Option.map_some', Box3.getCenter_translate]
    simp only [Vector3.add, Vector3.sub, Vector3.zero, Vector3.mk.injEq]
    refine ⟨by ring, by ring, by ring⟩

theorem Box3.getSize_centered (o : Object3D) (p : Vector3) :
    Box3.getSize (Box3.setFromObject { o with position := p }) =
      Box3.getSize (Box3.setFromObject o) := by
  rw [Box3.setFromObject_position, Box3.getSize_translate]

theorem Box3.getSize_nonneg (b : Option Box3) :
    0 ≤ (Box3.getSize b).x ∧ 0 ≤ (Box3.getSize b).y ∧ 0 ≤ (Box3.getSize b).z := by
  cases b with
  | none => simp [Box3.getSize, Vector3.zero]
  | some b =>
    obtain ⟨hx, hy, hz⟩ := b.valid
    simp only [Box3.getSize, Vector3.sub]
    exact ⟨sub_nonneg.mpr hx, sub_nonneg.mpr hy, sub_nonneg.mpr hz⟩

theorem max3_nonneg {a b c : ℚ} (ha : 0 ≤ a) : 0 ≤ max3 a b c :=
  le_trans ha (le_trans (le_max_left a b) (le_max_left _ c))

namespace ViewManager

/-! ## Display -/

theorem markNeedsRender_eq (s : ViewManager) :
    s.markNeedsRender =
      { s with
        needsRender := true
        boundRender := s.boundRender || !s.needsRender
        frameRequests :=
          s.frameRequests ++ (if s.needsRender then [] else [FrameCallback.boundRender]) } := by
  unfold markNeedsRender
  cases h : s.needsRender <;> simp
  cases s; simp_all

theorem Initialized.of_fields {s t : ViewManager} (h : Initialized s)
    (hw : t.window = s.window) (h1 : t.scene3D.isSome) (h2 : t.camera3D.isSome)
    (h3 : t.renderer3D = s.renderer3D) (h4 : t.controls.isSome)
    (h5 : ∀ key, (t.scenes key).isSome) (h6 : ∀ key, (t.cameras key).isSome)
    (h7 : t.renderers = s.renderers) (h8 : t.canvasMap = s.canvasMap)
    (h9 : t.containerCache = s.containerCache)
    (h10 : t.cameraKeys = none ∨ t.cameraKeys = some ViewKey.all)
    (h11 : t.sceneKeys = none ∨ t.sceneKeys = some ViewKey.all)
    (h12 : t.rendererKeys = s.rendererKeys) : Initialized t where
  config := by rw [hw]; exact h.config
  scene3D := h1
  camera3D := h2
  renderer3D := by rw [h3]; exact h.renderer3D
  controls := h4
  scenes := h5
  cameras := h6
  renderers := by rw [h7]; exact h.renderers
  canvasMap := by rw [h8]; exact h.canvasMap
  containerCache := by rw [h9]; exact h.containerCache
  cameraKeys := h10
  sceneKeys := h11
  rendererKeys := by rw [h12]; exact h.rendererKeys

theorem fittedCameras_isSome (s : ViewManager) (margin : ℚ) (key : ViewKey)
    (h : (s.cameras key).isSome) : (fittedCameras s margin key).isSome := by
  unfold fittedCameras
  cases hc : s.cameras key with
  | none => simp [hc] at h
  | some camera => cases s.containerCache key <;> simp

theorem adjustOrthographicCameras_init (s : ViewManager) (h : Initialized s) (maxDim : ℚ) :
    s.adjustOrthographicCameras maxDim = (fit s maxDim, Completion.normal) := by
  obtain ⟨m, hm, hcanvas⟩ := h.canvasMap
  exact adjustOrthographicCameras_eq s maxDim appConfig m h.config hm hcanvas h.cameras
    h.containerCache h.cameraKeys

theorem fit_initialized (s : ViewManager) (h : Initialized s) (maxDim : ℚ) :
    Initialized (fit s maxDim) :=
  h.of_fields (by simp [fit, markNeedsRender_eq])
    (by simpa [fit, markNeedsRender_eq] using h.scene3D)
    (by simpa [fit, markNeedsRender_eq] using h.camera3D)
    (by simp [fit, markNeedsRender_eq])
    (by simpa [fit, markNeedsRender_eq] using h.controls)
    (by simpa [fit, markNeedsRender_eq] using h.scenes)
    (by
      simp only [fit, markNeedsRender_eq]
      exact fun key => fittedCameras_isSome s _ key (h.cameras key))
    (by simp [fit, markNeedsRender_eq])
    (by simp [fit, markNeedsRender_eq])
    (by simp [fit, markNeedsRender_eq])
    (by simp [fit, markNeedsRender_eq])
    (by simpa [fit, markNeedsRender_eq] using h.sceneKeys)
    (by simp [fit, markNeedsRender_eq])

theorem centerModel_init (s : ViewManager) (h : Initialized s) (model : Object3D)
    (hm : s.currentModel = some model) :
    s.centerModel = (centered s model, Completion.normal) := by
  obtain ⟨camera, hc⟩ := Option.isSome_iff_exists.mp h.camera3D
  simp only [centerModel, hm, hc, centered, Option.map_some']
  rw [adjustOrthographicCameras_init]
  · simp [andThen, fit, markNeedsRender_idem]
  · exact h.of_fields rfl (by simpa using h.scene3D) rfl rfl h.controls h.scenes h.cameras
      rfl rfl rfl h.cameraKeys h.sceneKeys rfl

theorem centered_initialized (s : ViewManager) (h : Initialized s) (model : Object3D) :
    Initialized (centered s model) := by
  unfold centered
  refine fit_initialized _ ?_ _
  exact h.of_fields rfl (by simpa using h.scene3D) (by simpa using h.camera3D) rfl h.controls
    h.scenes h.cameras rfl rfl rfl h.cameraKeys h.sceneKeys rfl

theorem clearScenes_init (s : ViewManager) (h : ∀ key, (s.scenes key).isSome) :
    forEachKey clearScene ViewKey.all s = (cleared s, Completion.normal) := by
  obtain ⟨a1, ha1⟩ := Option.isSome_iff_exists.mp (h ViewKey.top)
  obtain ⟨a2, ha2⟩ := Option.isSome_iff_exists.mp (h ViewKey.front)
  obtain ⟨a3, ha3⟩ := Option.isSome_iff_exists.mp (h ViewKey.side)
  have hsc : (fun key => (s.scenes key).map fun (scene : Scene) =>
        ({ scene with children := scene.children.filter fun o => o.name ≠ "model" } : Scene)) =
      Function.update (Function.update (Function.update s.scenes ViewKey.top
        (some { a1 with children := a1.children.filter fun o => o.name ≠ "model" }))
        ViewKey.front (some { a2 with children := a2.children.filter fun o => o.name ≠ "model" }))
        ViewKey.side (some { a3 with children := a3.children.filter fun o => o.name ≠ "model" }) := by
    funext key
    cases key <;> simp [Function.update, ha1, ha2, ha3]
  simp only [cleared, hsc, oldClonesOf, ha1, ha2, ha3]
  simp [forEachKey, ViewKey.all, andThen, clearScene, ha1, ha2, ha3, Function.update]

theorem addClones_init (s : ViewManager) (h : ∀ key, (s.scenes key).isSome)
    (modelToClone : Object3D) (isCurrent : Bool) (center : Vector3) :
    forEachKey (addClone modelToClone isCurrent center) ViewKey.all s =
      (cloned s modelToClone isCurrent center, Completion.normal) := by
  obtain ⟨a1, ha1⟩ := Option.isSome_iff_exists.mp (h ViewKey.top)
  obtain ⟨a2, ha2⟩ := Option.isSome_iff_exists.mp (h ViewKey.front)
  obtain ⟨a3, ha3⟩ := Option.isSome_iff_exists.mp (h ViewKey.side)
  have hsc : (fun key => (s.scenes key).map fun (scene : Scene) =>
        scene.add (makeClone modelToClone isCurrent center s.currentModel
          (s.nextId + keyIndex key))) =
      Function.update (Function.update (Function.update s.scenes ViewKey.top
        (some (a1.add (makeClone modelToClone isCurrent center s.currentModel s.nextId))))
        ViewKey.front
        (some (a2.add (makeClone modelToClone isCurrent center s.currentModel (s.nextId + 1)))))
        ViewKey.side
        (some (a3.add (makeClone modelToClone isCurrent center s.currentModel (s.nextId + 2)))) := by
    funext key
    cases key <;> simp [Function.update, ha1, ha2, ha3, keyIndex]
  simp only [cloned, hsc]
  simp [forEachKey, ViewKey.all, andThen, addClone, ha1, ha2, ha3, Function.update, add_assoc]

theorem cleared_initialized (s : ViewManager) (h : Initialized s) : Initialized (cleared s) :=
  h.of_fields rfl h.scene3D h.camera3D rfl h.controls
    (fun key => by simpa [cleared] using h.scenes key) h.cameras rfl rfl rfl h.cameraKeys
    h.sceneKeys rfl

theorem createFallbackModel_initialized (s : ViewManager) (h : Initialized s) :
    Initialized s.createFallbackModel.2 :=
  h.of_fields rfl h.scene3D h.camera3D rfl h.controls h.scenes h.cameras rfl rfl rfl h.cameraKeys
    h.sceneKeys rfl

theorem cloned_initialized (s : ViewManager) (h : Initialized s) (modelToClone : Object3D)
    (isCurrent : Bool) (center : Vector3) :
    Initialized (cloned s modelToClone isCurrent center) :=
  h.of_fields rfl h.scene3D h.camera3D rfl h.controls
    (fun key => by simpa [cloned] using h.scenes key) h.cameras rfl rfl rfl h.cameraKeys
    h.sceneKeys rfl

theorem renderOrthogonalViews_init (s : ViewManager) (h : Initialized s)
    (modelUrl : Option String) :
    s.renderOrthogonalViews modelUrl = (orthoViews s modelUrl, Promise.resolved) := by
  simp only [renderOrthogonalViews, clearScenes_init s h.scenes, andThen, orthoViews]
  have hchosen : Initialized (match (if isFalsy modelUrl then none else (cleared s).currentModel) with
      | some model => (model, cleared s)
      | none => (cleared s).createFallbackModel).2 := by
    split
    · exact cleared_initialized s h
    · exact createFallbackModel_initialized _ (cleared_initialized s h)
  generalize (match (if isFalsy modelUrl then none else (cleared s).currentModel) with
      | some model => (model, cleared s)
      | none => (cleared s).createFallbackModel) = chosen at hchosen ⊢
  generalize (if isFalsy modelUrl then none else (cleared s).currentModel) = current
  have hk : chosen.2.sceneKeys.getD ViewKey.all = ViewKey.all := by
    rcases hchosen.sceneKeys with h1 | h1 <;> simp [h1]
  have h2 : Initialized { chosen.2 with
      sharedBox := some (Box3.setFromObject chosen.1)
      sharedCenter := some (Box3.getCenter (Box3.setFromObject chosen.1))
      sharedSize := some (Box3.getSize (Box3.setFromObject chosen.1))
      sceneKeys := some ViewKey.all } :=
    hchosen.of_fields rfl hchosen.scene3D hchosen.camera3D rfl hchosen.controls hchosen.scenes
      hchosen.cameras rfl rfl rfl hchosen.cameraKeys (Or.inr rfl) rfl
  rw [hk, addClones_init _ h2.scenes]
  simp only [adjustOrthographicCameras_init _ (cloned_initialized _ h2 _ _ _)]
  simp [promiseOf, fit, markNeedsRender_idem]

theorem orthoViews_initialized (s : ViewManager) (h : Initialized s) (modelUrl : Option String) :
    Initialized (orthoViews s modelUrl) := by
  simp only [orthoViews]
  have hchosen : Initialized (match (if isFalsy modelUrl then none else (cleared s).currentModel) with
      | some model => (model, cleared s)
      | none => (cleared s).createFallbackModel).2 := by
    split
    · exact cleared_initialized s h
    · exact createFallbackModel_initialized _ (cleared_initialized s h)
  generalize (match (if isFalsy modelUrl then none else (cleared s).currentModel) with
      | some model => (model, cleared s)
      | none => (cleared s).createFallbackModel) = chosen at hchosen ⊢
  refine fit_initialized _ (cloned_initialized _ ?_ _ _ _) _
  exact hchosen.of_fields rfl hchosen.scene3D hchosen.camera3D rfl hchosen.controls hchosen.scenes
      hchosen.cameras rfl rfl rfl hchosen.cameraKeys (Or.inr rfl) rfl

theorem disposeCurrent_init (s : ViewManager) (h : Initialized s) :
    s.disposeCurrent = (detached s, Completion.normal) := by
  obtain ⟨scene, hscene⟩ := Option.isSome_iff_exists.mp h.scene3D
  unfold disposeCurrent detached
  cases s.currentModel with
  | none => rfl
  | some model => simp [disposeTree, hscene]

theorem detached_initialized (s : ViewManager) (h : Initialized s) : Initialized (detached s) := by
  unfold detached
  cases s.currentModel with
  | none => exact h
  | some model =>
    exact h.of_fields rfl (by simpa using h.scene3D) h.camera3D rfl h.controls h.scenes h.cameras
      rfl rfl rfl h.cameraKeys h.sceneKeys rfl

theorem resetCamera_init (s : ViewManager) (h : Initialized s) :
    s.resetCamera = (reset s, Completion.normal) := by
  obtain ⟨camera, hcamera⟩ := Option.isSome_iff_exists.mp h.camera3D
  obtain ⟨controls, hcontrols⟩ := Option.isSome_iff_exists.mp h.controls
  simp [resetCamera, reset, hcamera, hcontrols, h.config]

theorem reset_initialized (s : ViewManager) (h : Initialized s) : Initialized (reset s) :=
  h.of_fields rfl h.scene3D (by simpa [reset] using h.camera3D) rfl
    (by simpa [reset] using h.controls) h.scenes h.cameras rfl rfl rfl h.cameraKeys h.sceneKeys rfl

theorem prepared_initialized (s : ViewManager) (h : Initialized s) : Initialized (prepared s) :=
  reset_initialized _ (detached_initialized s h)

theorem prelude_init (s : ViewManager) (h : Initialized s) :
    andThen s.disposeCurrent resetCamera = (prepared s, Completion.normal) := by
  rw [disposeCurrent_init s h]
  exact resetCamera_init _ (detached_initialized s h)

theorem attached_initialized (s : ViewManager) (h : Initialized s) (model : Object3D) :
    Initialized (attached s model) := by
  refine centered_initialized _ ?_ _
  exact h.of_fields rfl (by simpa using h.scene3D) h.camera3D rfl h.controls h.scenes
    h.cameras rfl rfl rfl h.cameraKeys h.sceneKeys rfl

/-- The call of `centerModel()` for a model just added to the perspective scene. -/
theorem centerModel_attach (s : ViewManager) (h : Initialized s) (model : Object3D)
    (scene : Scene) (hscene : s.scene3D = some scene) :
    centerModel { s with
        currentModel := some model
        scene3D := some (scene.add model) } = (attached s model, Completion.normal) := by
  have h1 : Initialized { s with
      currentModel := some model
      scene3D := some (scene.add model) } :=
    h.of_fields rfl rfl h.camera3D rfl h.controls h.scenes h.cameras rfl rfl rfl
      h.cameraKeys h.sceneKeys rfl
  rw [centerModel_init _ h1 model rfl]
  simp [attached, hscene]

/-- The calls `renderOrthogonalViews(modelUrl); markNeedsRender()` after `centerModel()`. -/
theorem orthoViews_attach (s : ViewManager) (h : Initialized s) (model : Object3D)
    (modelUrl : Option String) :
    ((attached s model).renderOrthogonalViews modelUrl).1.markNeedsRender =
      orthoViews (attached s model) modelUrl := by
  rw [renderOrthogonalViews_init _ (attached_initialized s h model)]
  simp [orthoViews, fit, markNeedsRender_idem]

theorem showFallback_init (s : ViewManager) (h : Initialized s) :
    s.showFallback = (shown s, Completion.normal) := by
  obtain ⟨scene, hscene⟩ := Option.isSome_iff_exists.mp h.scene3D
  have hscene2 : s.createFallbackModel.2.scene3D = some scene := hscene
  simp only [showFallback, hscene2]
  rw [centerModel_attach _ (createFallbackModel_initialized s h) _ scene hscene2]
  simp only [andThen]
  rw [orthoViews_attach _ (createFallbackModel_initialized s h)]
  rfl

theorem consoleError_initialized (s : ViewManager) (h : Initialized s) (message : String) :
    Initialized (s.consoleError message) :=
  h.of_fields rfl h.scene3D h.camera3D rfl h.controls h.scenes h.cameras rfl rfl rfl
    h.cameraKeys h.sceneKeys rfl

theorem onError_init (s : ViewManager) (h : Initialized s) (error : LoadError) :
    s.onError error = (shown (s.consoleError (loadErrorMessage error)), Promise.resolved) := by
  have h0 := consoleError_initialized s h (loadErrorMessage error)
  obtain ⟨scene, hscene⟩ := Option.isSome_iff_exists.mp h.scene3D
  have hscene2 : (s.consoleError (loadErrorMessage error)).createFallbackModel.2.scene3D
      = some scene := hscene
  simp only [onError, hscene2]
  rw [centerModel_attach _ (createFallbackModel_initialized _ h0) _ scene hscene2]
  simp only []
  rw [orthoViews_attach _ (createFallbackModel_initialized _ h0)]
  rfl

theorem shown_initialized (s : ViewManager) (h : Initialized s) : Initialized (shown s) :=
  orthoViews_initialized _ (attached_initialized _ (createFallbackModel_initialized s h) _) _


theorem received_initialized (s : ViewManager) (h : Initialized s) (gltf : GLTF) :
    Initialized (received s gltf) :=
  h.of_fields rfl h.scene3D h.camera3D rfl h.controls h.scenes h.cameras rfl rfl rfl
    h.cameraKeys h.sceneKeys rfl

theorem onLoad_init (s : ViewManager) (h : Initialized s) (modelUrl : Option String)
    (gltf : GLTF) :
    s.onLoad modelUrl gltf = (loaded s modelUrl gltf, Promise.resolved) := by
  obtain ⟨scene, hscene⟩ := Option.isSome_iff_exists.mp h.scene3D
  have hr := received_initialized s h gltf
  have hscene2 : (received s gltf).scene3D = some scene := hscene
  have key := centerModel_attach _ hr (receivedRoot s gltf) scene hscene2
  simp only [onLoad, h.config, hscene]
  change (match centerModel { received s gltf with
      currentModel := some (receivedRoot s gltf)
      scene3D := some (scene.add (receivedRoot s gltf)) } with
    | (s2, Completion.thrown _) => (s2, Promise.pending)
    | (s2, Completion.normal) => _) = _
  rw [key]
  simp only []
  rw [orthoViews_attach _ hr]
  simp only [loaded]
  generalize orthoViews (attached (received s gltf) (receivedRoot s gltf)) modelUrl = t
  obtain hc | ⟨canvas, hc⟩ : t.canvas3d = none ∨ ∃ c, t.canvas3d = some c := by
    cases t.canvas3d <;> simp
  · cases t
    simp_all
  · simp [hc]

theorem loaded_initialized (s : ViewManager) (h : Initialized s) (modelUrl : Option String)
    (gltf : GLTF) : Initialized (loaded s modelUrl gltf) :=
  have h3 := orthoViews_initialized _
    (attached_initialized _ (received_initialized s h gltf) (receivedRoot s gltf)) modelUrl
  h3.of_fields rfl h3.scene3D h3.camera3D rfl h3.controls h3.scenes h3.cameras rfl rfl rfl
    h3.cameraKeys h3.sceneKeys rfl

theorem prepared_loader (s : ViewManager) : (prepared s).loader = s.loader := by
  unfold prepared reset detached
  cases s.currentModel <;> rfl

theorem render3DStart_init (s : ViewManager) (h : Initialized s) (modelUrl : Option String) :
    s.render3DStart modelUrl =
      if isFalsy modelUrl then (shown (prepared s), Promise.resolved)
      else if !s.loader then
        ((prepared s).showError "GLTFLoader no disponible",
          Promise.rejected "GLTFLoader no disponible")
      else (prepared s, Promise.pending) := by
  simp only [render3DStart, prelude_init s h, showFallback_init _ (prepared_initialized s h),
    promiseOf, prepared_loader]

theorem render3D_init (s : ViewManager) (h : Initialized s) (modelUrl : Option String)
    (outcome : LoadResult) :
    s.render3D modelUrl outcome =
      (displayed s modelUrl outcome,
        if !isFalsy modelUrl && !s.loader then Promise.rejected "GLTFLoader no disponible"
        else Promise.resolved) := by
  have hp := prepared_initialized s h
  simp only [render3D, render3DStart_init s h, displayed]
  cases hf : isFalsy modelUrl
  · cases hl : s.loader
    · simp
    · cases outcome with
      | success gltf => simp [onLoad_init _ hp]
      | failure error => simp [onError_init _ hp]
  · simp

theorem displayed_initialized (s : ViewManager) (h : Initialized s) (modelUrl : Option String)
    (outcome : LoadResult) : Initialized (displayed s modelUrl outcome) := by
  have hp := prepared_initialized s h
  unfold displayed
  split
  · exact shown_initialized _ hp
  · split
    · exact consoleError_initialized _ hp _
    · cases outcome with
      | success gltf => exact loaded_initialized _ hp _ _
      | failure error => exact shown_initialized _ (consoleError_initialized _ hp _)

/-- C3 (as stated, refuted): in the initialized viewer of a page without `GLTFLoader`
(`this.loader` is null) the promise of `render3D("models/a.glb")` is rejected with
`GLTFLoader no disponible`; and in the viewer of a page without canvases, which
`initialize()` leaves without scenes, the promise of `render3D(null)` is rejected by the
`TypeError` of `this.scene3D.add`. -/
theorem render3D_rejects :
    viewerWithoutLoader.loader = false
      ∧ viewerWithoutLoader.scene3D.isSome = true
      ∧ (viewerWithoutLoader.render3DStart (some "models/a.glb")).2
        = Promise.rejected "GLTFLoader no disponible"
      ∧ (viewerWithoutLoader.render3D (some "models/a.glb")
          (LoadResult.failure ⟨"Not Found", "Error"⟩)).2
        = Promise.rejected "GLTFLoader no disponible"
      ∧ inertViewer.scene3D = none
      ∧ (inertViewer.render3D none (LoadResult.failure ⟨"Not Found", "Error"⟩)).2
        = Promise.rejected "TypeError" := by
  refine ⟨rfl, rfl, rfl, rfl, rfl, rfl⟩

theorem initialized_viewerWithoutLoader : Initialized viewerWithoutLoader := by
  constructor
  · rfl
  · decide
  · decide
  · decide
  · decide
  · intro k; cases k <;> decide
  · intro k; cases k <;> decide
  · intro k; cases k <;> decide
  · exact ⟨_, rfl, by intro k; cases k <;> decide⟩
  · intro k; cases k <;> decide
  · left; rfl
  · left; rfl
  · rfl

/-- C3 (amended): in an initialized viewer the promise of `render3D(identifier)` always
settles, whatever the identifier and the outcome of the load: it is rejected with
`GLTFLoader no disponible` when the identifier is non-empty and `this.loader` is null, and it
resolves in every other case (identifier null or empty, load succeeded, load failed). -/
theorem render3D_settles (s : ViewManager) (h : Initialized s) (modelUrl : Option String)
    (outcome : LoadResult) :
    (s.render3D modelUrl outcome).2 =
      if !isFalsy modelUrl && !s.loader then Promise.rejected "GLTFLoader no disponible"
      else Promise.resolved := by
  rw [render3D_init s h]

theorem render3D_settles_witness :
    Initialized viewerWithoutLoader
      ∧ (viewerWithoutLoader.render3D none (LoadResult.failure ⟨"Not Found", "Error"⟩)).2 =
        if !isFalsy none && !viewerWithoutLoader.loader then
          Promise.rejected "GLTFLoader no disponible"
        else Promise.resolved :=
  ⟨initialized_viewerWithoutLoader,
    render3D_settles viewerWithoutLoader initialized_viewerWithoutLoader none
      (LoadResult.failure ⟨"Not Found", "Error"⟩)⟩

theorem markNeedsRender_consoleError (s : ViewManager) (message : String) :
    (s.consoleError message).markNeedsRender = s.markNeedsRender.consoleError message := by
  unfold markNeedsRender
  cases h : s.needsRender <;> simp [consoleError, h]

theorem fit_consoleError (s : ViewManager) (maxDim : ℚ) (message : String) :
    fit (s.consoleError message) maxDim = (fit s maxDim).consoleError message := by
  unfold fit
  rw [← markNeedsRender_consoleError]
  rfl

theorem attached_consoleError (s : ViewManager) (model : Object3D) (message : String) :
    attached (s.consoleError message) model = (attached s model).consoleError message := by
  unfold attached centered
  simp only []
  rw [← fit_consoleError]
  rfl

theorem orthoViews_consoleError (s : ViewManager) (modelUrl : Option String) (message : String) :
    orthoViews (s.consoleError message) modelUrl = (orthoViews s modelUrl).consoleError message := by
  unfold orthoViews
  simp only []
  rw [← fit_consoleError]
  have hc : (cleared (s.consoleError message)).currentModel = (cleared s).currentModel := rfl
  rw [hc]
  cases (if isFalsy modelUrl then none else (cleared s).currentModel) <;> rfl

theorem shown_consoleError (s : ViewManager) (message : String) :
    shown (s.consoleError message) = (shown s).consoleError message := by
  unfold shown
  rw [← orthoViews_consoleError, ← attached_consoleError]
  rfl

/-- C9: in an initialized viewer with a loader, for a non-empty identifier whose load the
loader reports as failed, `render3D(identifier)` resolves, `render3D(null)` from the same state
resolves as well, and the state after the failed load is the state after `render3D(null)` with
one more entry at the end of the log, the message of the failure: scenes, displayed node,
cameras and every other field agree. -/
theorem render3D_failure_as_null (s : ViewManager) (h : Initialized s) (hloader : s.loader = true)
    (modelUrl : Option String) (hurl : isFalsy modelUrl = false) (error : LoadError)
    (outcome : LoadResult) :
    (s.render3D modelUrl (LoadResult.failure error)).2 = Promise.resolved
      ∧ (s.render3D none outcome).2 = Promise.resolved
      ∧ (s.render3D modelUrl (LoadResult.failure error)).1 =
        { (s.render3D none outcome).1 with
          log := (s.render3D none outcome).1.log
            ++ [Event.consoleError (loadErrorMessage error)] } := by
  have h1 : displayed s modelUrl (LoadResult.failure error) =
      shown ((prepared s).consoleError (loadErrorMessage error)) := by
    simp [displayed, hurl, hloader]
  have h2 : displayed s none outcome = shown (prepared s) := by
    simp [displayed, isFalsy]
  rw [render3D_init s h, render3D_init s h, h1, h2, shown_consoleError]
  exact ⟨by simp [hurl, hloader], by simp [isFalsy], rfl⟩

theorem render3D_failure_as_null_witness :
    Initialized sampleViewer ∧ sampleViewer.loader = true
      ∧ isFalsy (some "models/broken.glb") = false
      ∧ ((sampleViewer.render3D (some "models/broken.glb")
            (LoadResult.failure ⟨"Not Found", "Error"⟩)).2 = Promise.resolved
        ∧ (sampleViewer.render3D none (LoadResult.failure ⟨"Not Found", "Error"⟩)).2
          = Promise.resolved
        ∧ (sampleViewer.render3D (some "models/broken.glb")
            (LoadResult.failure ⟨"Not Found", "Error"⟩)).1 =
          { (sampleViewer.render3D none (LoadResult.failure ⟨"Not Found", "Error"⟩)).1 with
            log := (sampleViewer.render3D none (LoadResult.failure ⟨"Not Found", "Error"⟩)).1.log
              ++ [Event.consoleError (loadErrorMessage ⟨"Not Found", "Error"⟩)] }) :=
  ⟨initialized_sampleViewer, rfl, rfl,
    render3D_failure_as_null sampleViewer initialized_sampleViewer rfl (some "models/broken.glb")
      rfl ⟨"Not Found", "Error"⟩ (LoadResult.failure ⟨"Not Found", "Error"⟩)⟩

theorem removeChild_of_not_mem (ref : Nat) (l : List Object3D) (h : ∀ o ∈ l, o.ref ≠ ref) :
    removeChild ref l = l := by
  induction l with
  | nil => rfl
  | cons o os ih =>
    have h1 : o.ref ≠ ref := h o (List.mem_cons_self _ _)
    simp only [removeChild, h1, if_false]
    rw [ih fun x hx => h x (List.mem_cons_of_mem _ hx)]

theorem removeChild_append_self (m : Object3D) (l : List Object3D) (h : ∀ o ∈ l, o.ref ≠ m.ref) :
    removeChild m.ref (l ++ [m]) = l := by
  induction l with
  | nil => simp [removeChild]
  | cons o os ih =>
    have h1 : o.ref ≠ m.ref := h o (List.mem_cons_self _ _)
    simp only [List.cons_append, removeChild, h1, if_false]
    exact congrArg (o :: ·) (ih fun x hx => h x (List.mem_cons_of_mem _ hx))

theorem prepared_frame (s : ViewManager) :
    (prepared s).scenes = s.scenes ∧ (prepared s).currentModel = s.currentModel
      ∧ (prepared s).nextId = s.nextId ∧ (prepared s).window = s.window
      ∧ (prepared s).cameras = s.cameras ∧ (prepared s).containerCache = s.containerCache := by
  unfold prepared reset detached
  cases h : s.currentModel <;> simp [disposeTree, h]

theorem prepared_camera3D (s : ViewManager) :
    (prepared s).camera3D = s.camera3D.map fun (camera : PerspectiveCamera) =>
      { camera with position := appConfig.SCENE_3D.MAIN_LIGHT_POS, target := Vector3.zero } := by
  unfold prepared reset detached
  cases s.currentModel <;> simp [disposeTree]

theorem prepared_children3D (s0 s : ViewManager) (hb : Booted s0) (hi : Inv s0 s) :
    children3D (prepared s) = children3D s0 := by
  have hne : ∀ m, s.currentModel = some m → ∀ o ∈ children3D s0, o.ref ≠ m.ref := by
    intro m hm o ho
    have h1 := hb.refs o ho
    have h2 := hi.current m hm
    omega
  obtain ⟨scene, hscene⟩ := Option.isSome_iff_exists.mp hi.init.scene3D
  have hch : children3D s = scene.children := by simp [children3D, hscene]
  unfold prepared reset detached
  cases hm : s.currentModel with
  | none =>
    rcases hi.perspective with h | ⟨m, h, _⟩
    · simpa [children3D] using h
    · rw [hm] at h; cases h
  | some model =>
    simp only [children3D, disposeTree, hscene, Option.map_some', Scene.remove]
    rcases hi.perspective with h | ⟨m, h1, h2⟩
    · rw [← hch, h]
      exact removeChild_of_not_mem _ _ (hne model hm)
    · rw [hm] at h1
      cases h1
      rw [← hch, h2]
      exact removeChild_append_self _ _ (hne model hm)

theorem attached_frame (s : ViewManager) (model : Object3D) :
    (attached s model).currentModel = some (recentered model)
      ∧ (attached s model).scenes = s.scenes
      ∧ (attached s model).nextId = s.nextId
      ∧ (attached s model).window = s.window
      ∧ (attached s model).containerCache = s.containerCache
      ∧ (attached s model).camera3D = s.camera3D.map fun (camera : PerspectiveCamera) =>
        { camera with position := (camera.position.setLength
            (max3 (Box3.getSize (Box3.setFromObject model)).x
              (Box3.getSize (Box3.setFromObject model)).y
              (Box3.getSize (Box3.setFromObject model)).z * 3)) } := by
  simp [attached, centered, fit, markNeedsRender_eq, recentered]

theorem map_replace_append (base : List Object3D) (model moved : Object3D)
    (hne : ∀ o ∈ base, o.ref ≠ model.ref) :
    (base ++ [model]).map (fun o => if o.ref = model.ref then moved else o) = base ++ [moved] := by
  rw [List.map_append]
  congr 1
  · conv_rhs => rw [← List.map_id base]
    apply List.map_congr_left
    intro o ho
    simp [hne o ho]
  · simp

theorem attached_children3D (s : ViewManager) (h : Initialized s) (model : Object3D)
    (hne : ∀ o ∈ children3D s, o.ref ≠ model.ref) :
    children3D (attached s model) = children3D s ++ [recentered model] := by
  obtain ⟨scene, hscene⟩ := Option.isSome_iff_exists.mp h.scene3D
  have hch : children3D s = scene.children := by simp [children3D, hscene]
  rw [hch] at hne ⊢
  simp only [attached, centered, fit, markNeedsRender_eq, children3D, hscene, Option.map_some',
    Scene.add]
  exact map_replace_append _ _ _ hne

theorem orthoViews_frame (s : ViewManager) (modelUrl : Option String) :
    (orthoViews s modelUrl).scene3D = s.scene3D
      ∧ (orthoViews s modelUrl).currentModel = s.currentModel
      ∧ (orthoViews s modelUrl).camera3D = s.camera3D
      ∧ (orthoViews s modelUrl).window = s.window
      ∧ (orthoViews s modelUrl).containerCache = s.containerCache
      ∧ s.nextId ≤ (orthoViews s modelUrl).nextId := by
  simp only [orthoViews]
  cases (if isFalsy modelUrl then none else (cleared s).currentModel) <;>
    simp [fit, markNeedsRender_eq, cloned, cleared, createFallbackModel]
  omega

theorem orthoViews_children (s : ViewManager) (modelUrl : Option String) (key : ViewKey) :
    childrenOf (orthoViews s modelUrl) key =
      match s.scenes key with
      | some scene =>
        (scene.children.filter fun o => o.name ≠ "model") ++
          [makeClone (modelToClone s modelUrl)
            (!(if isFalsy modelUrl then none else s.currentModel).isNone)
            (Box3.getCenter (Box3.setFromObject (modelToClone s modelUrl)))
            s.currentModel
            ((if (if isFalsy modelUrl then none else s.currentModel).isNone
              then s.nextId + 3 else s.nextId) + keyIndex key)]
      | none => [] := by
  simp only [orthoViews, childrenOf, modelToClone]
  have hc : (cleared s).currentModel = s.currentModel := rfl
  rw [hc]
  cases (if isFalsy modelUrl then none else s.currentModel) <;>
    cases hs : s.scenes key <;>
    simp [fit, markNeedsRender_eq, cloned, cleared, createFallbackModel, hs, Scene.add]

theorem orthoViews_cameras (s : ViewManager) (modelUrl : Option String) (key : ViewKey) :
    (orthoViews s modelUrl).cameras key =
      fittedCameras s
        (max3 (Box3.getSize (Box3.setFromObject (modelToClone s modelUrl))).x
          (Box3.getSize (Box3.setFromObject (modelToClone s modelUrl))).y
          (Box3.getSize (Box3.setFromObject (modelToClone s modelUrl))).z
          * appConfig.ORTHOGRAPHIC.MARGIN_FACTOR) key := by
  simp only [orthoViews, modelToClone]
  have hc : (cleared s).currentModel = s.currentModel := rfl
  rw [hc]
  cases (if isFalsy modelUrl then none else s.currentModel) <;>
    simp [fit, markNeedsRender_eq, cloned, cleared, createFallbackModel, fittedCameras]

theorem filter_untagged_append (base clones : List Object3D)
    (hbase : ∀ o ∈ base, o.name ≠ "model") (hclones : ∀ c ∈ clones, c.name = "model") :
    (base ++ clones).filter (fun o => o.name ≠ "model") = base := by
  rw [List.filter_append]
  have h1 : base.filter (fun o => o.name ≠ "model") = base :=
    List.filter_eq_self.mpr fun o ho => by simpa using hbase o ho
  have h2 : clones.filter (fun o => o.name ≠ "model") = [] :=
    List.filter_eq_nil_iff.mpr fun o ho => by simpa using hclones o ho
  rw [h1, h2, List.append_nil]

theorem setFromObject_congr (o p : Object3D) (hg : o.geometry = p.geometry)
    (hp : o.position = p.position) (hc : o.children = p.children) :
    Box3.setFromObject o = Box3.setFromObject p := by
  cases o; cases p
  simp only at hg hp hc
  subst hg hp hc
  rfl

theorem sqrt_225 : Rat.sqrt 225 = 15 := by
  have h : (225 : ℚ) = 15 * 15 := by norm_num
  rw [h, Rat.sqrt_eq]
  norm_num

theorem length_setLength_mainLight (l : ℚ) (hl : 0 ≤ l) :
    (appConfig.SCENE_3D.MAIN_LIGHT_POS.setLength l).length = l := by
  have hlen : appConfig.SCENE_3D.MAIN_LIGHT_POS.length = 15 := by
    simp only [Vector3.length, Vector3.lengthSq, appConfig]
    norm_num [sqrt_225]
  simp only [Vector3.setLength, Vector3.normalize, hlen]
  simp only [Vector3.length, Vector3.lengthSq, Vector3.multiplyScalar, Vector3.divideScalar,
    appConfig]
  have h : (10 * (1 / (if (15 : ℚ) = 0 then 1 else 15)) * l * (10 * (1 / (if (15 : ℚ) = 0 then 1 else 15)) * l)
      + 10 * (1 / (if (15 : ℚ) = 0 then 1 else 15)) * l * (10 * (1 / (if (15 : ℚ) = 0 then 1 else 15)) * l)
      + 5 * (1 / (if (15 : ℚ) = 0 then 1 else 15)) * l * (5 * (1 / (if (15 : ℚ) = 0 then 1 else 15)) * l)) = l * l := by
    norm_num
    ring
  rw [h, Rat.sqrt_eq, abs_of_nonneg hl]

theorem characteristicScale_recentered (model : Object3D) :
    characteristicScale (recentered model) = characteristicScale model := by
  simp only [characteristicScale, recentered, Box3.getSize_centered]

theorem characteristicScale_nonneg (o : Object3D) : 0 ≤ characteristicScale o :=
  max3_nonneg (Box3.getSize_nonneg _).1

theorem setFromObject_fallback (s : ViewManager) :
    Box3.getSize (Box3.setFromObject s.createFallbackModel.1) = Box3.getSize (some fallbackBox) := by
  have h : Box3.setFromObject s.createFallbackModel.1 =
      (some fallbackBox).map (Box3.translate (Vector3.zero.add Vector3.zero)) := rfl
  rw [h, Box3.getSize_translate]

theorem makeClone_current (m : Object3D) (center : Vector3) (ref : Nat) :
    (makeClone m true center (some m) ref).name = "model"
      ∧ Box3.setFromObject (makeClone m true center (some m) ref) = Box3.setFromObject m :=
  ⟨rfl, setFromObject_congr _ _ rfl rfl rfl⟩

theorem makeClone_fallback (m : Object3D) (current : Option Object3D) (ref : Nat) :
    (makeClone m false (Box3.getCenter (Box3.setFromObject m)) current ref).name = "model"
      ∧ Box3.setFromObject (makeClone m false (Box3.getCenter (Box3.setFromObject m)) current ref)
        = Box3.setFromObject (recentered m) :=
  ⟨rfl, setFromObject_congr _ _ rfl rfl rfl⟩

/-- The clone that `renderOrthogonalViews` places in the scene `key`: it is tagged, and its box
is that of the current model when that was cloned, and that of a centred fallback box
otherwise. -/
theorem orthoViews_clone (s : ViewManager) (modelUrl : Option String) (key : ViewKey)
    (scene : Scene) (hscene : s.scenes key = some scene) :
    ∃ clone, childrenOf (orthoViews s modelUrl) key =
        (scene.children.filter fun o => o.name ≠ "model") ++ [clone]
      ∧ clone.name = "model"
      ∧ Box3.setFromObject clone =
        match (if isFalsy modelUrl then none else s.currentModel) with
        | some m => Box3.setFromObject m
        | none => Box3.setFromObject (recentered s.createFallbackModel.1) := by
  rw [orthoViews_children, hscene]
  cases hcur : (if isFalsy modelUrl then none else s.currentModel) with
  | none =>
    have e1 : modelToClone s modelUrl = s.createFallbackModel.1 := by
      simp only [modelToClone, hcur]
    rw [e1]
    exact ⟨_, rfl, makeClone_fallback _ _ _⟩
  | some m =>
    have hm : s.currentModel = some m := by
      cases hf : isFalsy modelUrl
      · simpa [hf] using hcur
      · simp [hf] at hcur
    have e1 : modelToClone s modelUrl = m := by simp only [modelToClone, hcur]
    rw [e1, hm]
    exact ⟨_, rfl, makeClone_current _ _ _⟩

theorem modelToClone_size (t : ViewManager) (model : Object3D) (modelUrl : Option String)
    (hsize : isFalsy modelUrl = true →
      Box3.getSize (Box3.setFromObject model) = Box3.getSize (some fallbackBox)) :
    characteristicScale (modelToClone (attached t model) modelUrl) = characteristicScale model := by
  unfold modelToClone
  rw [(attached_frame t model).1]
  cases hf : isFalsy modelUrl
  · exact characteristicScale_recentered model
  · simp only [if_true, characteristicScale, setFromObject_fallback, hsize hf]

/-- After a model numbered at or above the boot counter has been added to the perspective
scene of an initialized viewer that holds the boot children only, centred, cloned and fitted,
the viewer shows it. -/
theorem attach_displays (s0 t : ViewManager) (hb : Booted s0) (ht : Initialized t)
    (model : Object3D) (modelUrl : Option String)
    (h3 : children3D t = children3D s0) (href : s0.nextId ≤ model.ref)
    (horth : ∀ key, ∃ clones, childrenOf t key = childrenOf s0 key ++ clones
      ∧ ∀ c ∈ clones, c.name = "model")
    (hcam : ∃ camera, t.camera3D = some camera
      ∧ camera.position = appConfig.SCENE_3D.MAIN_LIGHT_POS)
    (hsize : isFalsy modelUrl = true →
      Box3.getSize (Box3.setFromObject model) = Box3.getSize (some fallbackBox)) :
    Displays s0 (orthoViews (attached t model) modelUrl) (recentered model) := by
  have hfr := orthoViews_frame (attached t model) modelUrl
  have haf := attached_frame t model
  have hai := attached_initialized t ht model
  have hne : ∀ o ∈ children3D t, o.ref ≠ model.ref := by
    intro o ho
    rw [h3] at ho
    have := hb.refs o ho
    omega
  refine ⟨hfr.2.1.trans haf.1, ?_, Box3.getCenter_centered model, ?_, ?_, ?_⟩
  · have h1 : children3D (orthoViews (attached t model) modelUrl)
        = children3D (attached t model) := by
      simp only [children3D, hfr.1]
    rw [h1, attached_children3D t ht model hne, h3]
  · intro key
    obtain ⟨scene, hscene⟩ := Option.isSome_iff_exists.mp (hai.scenes key)
    obtain ⟨clones, hclones, htag⟩ := horth key
    have hkids : scene.children = childrenOf s0 key ++ clones := by
      have h2 : (attached t model).scenes key = t.scenes key := by rw [haf.2.1]
      rw [← hclones]
      simp [childrenOf, ← h2, hscene]
    obtain ⟨clone, hc1, hc2, hc3⟩ := orthoViews_clone (attached t model) modelUrl key scene hscene
    refine ⟨clone, ?_, hc2, ?_, ?_⟩
    · rw [hc1, hkids, filter_untagged_append _ _ (hb.untagged key) htag]
    · rw [hc3, haf.1]
      cases isFalsy modelUrl
      · exact Box3.getCenter_centered model
      · exact Box3.getCenter_centered _
    · rw [hc3, haf.1]
      cases hf : isFalsy modelUrl
      · rfl
      · simp only [if_true, recentered, Box3.getSize_centered, setFromObject_fallback, hsize hf]
  · obtain ⟨camera, hcamera, hpos⟩ := hcam
    refine ⟨_, by rw [hfr.2.2.1, haf.2.2.2.2.2, hcamera]; rfl, ?_⟩
    simp only [hpos, characteristicScale_recentered]
    show (appConfig.SCENE_3D.MAIN_LIGHT_POS.setLength (characteristicScale model * 3)).length = _
    rw [length_setLength_mainLight _ (mul_nonneg (characteristicScale_nonneg model) (by norm_num))]
    ring
  · intro key
    obtain ⟨camera, hcamera⟩ := Option.isSome_iff_exists.mp (hai.cameras key)
    obtain ⟨container, hcontainer⟩ := Option.isSome_iff_exists.mp (hai.containerCache key)
    have hscale := modelToClone_size t model modelUrl hsize
    simp only [characteristicScale] at hscale
    refine ⟨{ camera with
        left := (-(characteristicScale model * appConfig.ORTHOGRAPHIC.MARGIN_FACTOR))
          * container.aspect
        right := characteristicScale model * appConfig.ORTHOGRAPHIC.MARGIN_FACTOR * container.aspect
        top := characteristicScale model * appConfig.ORTHOGRAPHIC.MARGIN_FACTOR
        bottom := -(characteristicScale model * appConfig.ORTHOGRAPHIC.MARGIN_FACTOR) },
      container, ?_, by rw [hfr.2.2.2.2.1, hcontainer], ?_, ?_, ?_, ?_⟩
    · rw [orthoViews_cameras, hscale]
      simp only [fittedCameras, hcamera, hcontainer, characteristicScale]
    · simp only [characteristicScale_recentered]
    · simp only [characteristicScale_recentered]
    · simp only [characteristicScale_recentered]
    · simp only [characteristicScale_recentered]
      ring

theorem Cosmetic.refl (s : ViewManager) : Cosmetic s s := by
  unfold Cosmetic; rfl

theorem Cosmetic.trans {s t u : ViewManager} (h1 : Cosmetic s t) (h2 : Cosmetic t u) :
    Cosmetic s u := by
  unfold Cosmetic at *
  rw [h2, h1]

theorem Cosmetic.initialized {s t : ViewManager} (h : Cosmetic s t) (hi : Initialized s) :
    Initialized t := by
  unfold Cosmetic at h
  rw [h]
  exact hi.of_fields rfl hi.scene3D hi.camera3D rfl hi.controls hi.scenes hi.cameras rfl rfl rfl
    hi.cameraKeys hi.sceneKeys rfl

theorem Cosmetic.inv {s0 s t : ViewManager} (h : Cosmetic s t) (hi : Inv s0 s) : Inv s0 t := by
  have hinit := h.initialized hi.init
  unfold Cosmetic at h
  rw [h]
  exact ⟨by rw [← h]; exact hinit, hi.next, hi.current, hi.perspective, hi.orthogonal⟩

theorem Cosmetic.displays {s0 s t : ViewManager} {model : Object3D} (h : Cosmetic s t)
    (hd : Displays s0 s model) : Displays s0 t model := by
  unfold Cosmetic at h
  rw [h]
  exact ⟨hd.current, hd.perspective, hd.centre, hd.clones, hd.distance, hd.frusta⟩

theorem cosmetic_markNeedsRender (s : ViewManager) : Cosmetic s s.markNeedsRender := by
  unfold Cosmetic
  rw [markNeedsRender_eq]

theorem cosmetic_consoleError (s : ViewManager) (message : String) :
    Cosmetic s (s.consoleError message) := by
  unfold Cosmetic consoleError; rfl

theorem cosmetic_drawView (key : ViewKey) (s : ViewManager) : Cosmetic s (drawView key s).1 := by
  unfold drawView
  split
  · unfold Cosmetic; rfl
  · exact Cosmetic.refl s

theorem cosmetic_forEach_drawView (keys : List ViewKey) (s : ViewManager) :
    Cosmetic s (forEachKey drawView keys s).1 := by
  induction keys generalizing s with
  | nil => exact Cosmetic.refl s
  | cons k ks ih =>
    simp only [forEachKey]
    have h1 := cosmetic_drawView k s
    rcases hd : drawView k s with ⟨s1, c⟩
    rw [hd] at h1
    cases c with
    | normal => exact h1.trans (ih s1)
    | thrown e => exact h1

theorem cosmetic_updateControls (s : ViewManager) : Cosmetic s s.updateControls := by
  unfold updateControls
  split
  · split
    · unfold Cosmetic; rfl
    · exact Cosmetic.refl s
  · exact Cosmetic.refl s

theorem cosmetic_render (s : ViewManager) : Cosmetic s s.render.1 := by
  unfold render
  split
  · rename_i r scene camera hn hr hs hc
    have h1 : Cosmetic s { s.updateControls with
        log := s.updateControls.log ++ [Event.drawMain scene camera] } :=
      (cosmetic_updateControls s).trans (by unfold Cosmetic; rfl)
    simp only []
    generalize ({ s.updateControls with
        log := s.updateControls.log ++ [Event.drawMain scene camera] } : ViewManager) = s2 at h1 ⊢
    split
    · exact h1
    · rename_i keys hk
      have h2 := cosmetic_forEach_drawView keys s2
      rcases hd : forEachKey drawView keys s2 with ⟨s3, c⟩
      rw [hd] at h2
      cases c with
      | normal =>
        simp only [andThen]
        refine (h1.trans h2).trans ?_
        unfold Cosmetic; rfl
      | thrown e => exact h1.trans h2
  · exact Cosmetic.refl s

theorem cosmetic_runCallback (s : ViewManager) (callback : FrameCallback) :
    Cosmetic s (runCallback s callback) := by
  cases callback with
  | boundRender => exact cosmetic_render s
  | fadeIn => unfold Cosmetic runCallback; rfl

theorem cosmetic_animationFrame (s : ViewManager) : Cosmetic s (animationFrame s) := by
  unfold animationFrame
  have h0 : Cosmetic s { s with frameRequests := [] } := by unfold Cosmetic; rfl
  generalize ({ s with frameRequests := [] } : ViewManager) = t at h0
  generalize s.frameRequests = queue
  induction queue generalizing t with
  | nil => exact h0
  | cons c cs ih => exact ih _ (h0.trans (cosmetic_runCallback t c))

theorem setShadows_fields (o : Object3D) :
    (setShadows o).ref = o.ref ∧ (setShadows o).name = o.name
      ∧ (setShadows o).geometry = o.geometry ∧ (setShadows o).material = o.material
      ∧ (setShadows o).position = o.position ∧ (setShadows o).isMesh = o.isMesh
      ∧ (setShadows o).children = o.children := by
  unfold setShadows
  split <;> simp

theorem receivedRoot_fields (s : ViewManager) (gltf : GLTF) :
    (receivedRoot s gltf).ref = s.nextId ∧ (receivedRoot s gltf).name = "model"
      ∧ (receivedRoot s gltf).geometry = gltf.scene.geometry
      ∧ (receivedRoot s gltf).material = gltf.scene.material
      ∧ (receivedRoot s gltf).isMesh = gltf.scene.isMesh := by
  obtain ⟨scene, materials⟩ := gltf
  obtain ⟨ref, type, name, isMesh, geometry, material, position, cast, receive, children⟩ := scene
  simp only [receivedRoot, Object3D.mapNodes]
  have h := setShadows_fields
    ⟨s.nextId, type, "model", isMesh, geometry, material, position, cast, receive, []⟩
  exact ⟨h.1, h.2.1, h.2.2.1, h.2.2.2.1, h.2.2.2.2.2.1⟩

theorem inv_of_displays {s0 s : ViewManager} {model : Object3D} (hd : Displays s0 s model)
    (hinit : Initialized s) (hnext : s0.nextId ≤ s.nextId) (href : s0.nextId ≤ model.ref) :
    Inv s0 s where
  init := hinit
  next := hnext
  current := fun m hm => by
    rw [hd.current] at hm
    cases hm
    exact href
  perspective := Or.inr ⟨model, hd.current, hd.perspective⟩
  orthogonal := fun key => by
    obtain ⟨clone, h1, h2, _⟩ := hd.clones key
    exact ⟨[clone], h1, fun c hc => by
      rw [List.mem_singleton] at hc
      rw [hc]; exact h2⟩

theorem prepared_cameraAtStart (s : ViewManager) (h : Initialized s) :
    ∃ camera, (prepared s).camera3D = some camera
      ∧ camera.position = appConfig.SCENE_3D.MAIN_LIGHT_POS := by
  obtain ⟨camera, hcamera⟩ := Option.isSome_iff_exists.mp h.camera3D
  rw [prepared_camera3D, hcamera]
  exact ⟨_, rfl, rfl⟩

theorem prepared_orthogonal (s0 s : ViewManager) (hi : Inv s0 s) (key : ViewKey) :
    ∃ clones, childrenOf (prepared s) key = childrenOf s0 key ++ clones
      ∧ ∀ c ∈ clones, c.name = "model" := by
  have h : childrenOf (prepared s) key = childrenOf s key := by
    simp only [childrenOf, (prepared_frame s).1]
  rw [h]
  exact hi.orthogonal key

/-- The fallback model shown from a prepared state. -/
theorem shown_displays (s0 s : ViewManager) (hb : Booted s0) (hi : Inv s0 s)
    (t : ViewManager) (ht : Cosmetic (prepared s) t) :
    Displays s0 (shown t) (recentered t.createFallbackModel.1)
      ∧ Inv s0 (shown t) := by
  have hpi : Initialized t := ht.initialized (prepared_initialized s hi.init)
  have hti := createFallbackModel_initialized t hpi
  unfold Cosmetic at ht
  have hscene : t.scene3D = (prepared s).scene3D := by rw [ht]
  have hscenes : t.scenes = (prepared s).scenes := by rw [ht]
  have hcamera : t.camera3D = (prepared s).camera3D := by rw [ht]
  have hnext : t.nextId = s.nextId := by rw [ht]; exact (prepared_frame s).2.2.1
  have h3 : children3D t.createFallbackModel.2 = children3D s0 := by
    rw [← prepared_children3D s0 s hb hi]
    simp only [children3D, createFallbackModel, hscene]
  have href : s0.nextId ≤ t.createFallbackModel.1.ref := by
    have := hi.next
    simp only [createFallbackModel, hnext]
    omega
  have hd : Displays s0 (shown t) (recentered t.createFallbackModel.1) := by
    refine attach_displays s0 _ hb hti _ none h3 href ?_ ?_ ?_
    · intro key
      have h : childrenOf t.createFallbackModel.2 key = childrenOf (prepared s) key := by
        simp only [childrenOf, createFallbackModel, hscenes]
      rw [h]
      exact prepared_orthogonal s0 s hi key
    · obtain ⟨camera, h1, h2⟩ := prepared_cameraAtStart s hi.init
      exact ⟨camera, by simp only [createFallbackModel, hcamera, h1], h2⟩
    · intro _
      exact setFromObject_fallback t
  refine ⟨hd, inv_of_displays hd (shown_initialized t hpi) ?_ href⟩
  have h1 := (orthoViews_frame (attached t.createFallbackModel.2 t.createFallbackModel.1) none).2.2.2.2.2
  have h2 := (attached_frame t.createFallbackModel.2 t.createFallbackModel.1).2.2.1
  have h4 : t.createFallbackModel.2.nextId = s.nextId + 3 := by
    simp only [createFallbackModel, hnext]
  have := hi.next
  unfold shown
  omega

/-- The loaded model shown from a prepared state. -/
theorem loaded_displays (s0 s : ViewManager) (hb : Booted s0) (hi : Inv s0 s)
    (modelUrl : Option String) (hurl : isFalsy modelUrl = false) (gltf : GLTF) :
    Displays s0 (loaded (prepared s) modelUrl gltf) (recentered (receivedRoot (prepared s) gltf))
      ∧ Inv s0 (loaded (prepared s) modelUrl gltf) := by
  have hpi := prepared_initialized s hi.init
  have hti := received_initialized _ hpi gltf
  have hnext : (prepared s).nextId = s.nextId := (prepared_frame s).2.2.1
  have href : s0.nextId ≤ (receivedRoot (prepared s) gltf).ref := by
    rw [(receivedRoot_fields _ gltf).1, hnext]
    exact hi.next
  have hd : Displays s0
      (orthoViews (attached (received (prepared s) gltf) (receivedRoot (prepared s) gltf)) modelUrl)
      (recentered (receivedRoot (prepared s) gltf)) := by
    refine attach_displays s0 _ hb hti _ modelUrl ?_ href ?_ ?_ ?_
    · exact prepared_children3D s0 s hb hi
    · exact prepared_orthogonal s0 s hi
    · exact prepared_cameraAtStart s hi.init
    · intro h
      rw [hurl] at h
      cases h
  have hc : Cosmetic
      (orthoViews (attached (received (prepared s) gltf) (receivedRoot (prepared s) gltf)) modelUrl)
      (loaded (prepared s) modelUrl gltf) := by
    unfold Cosmetic loaded
    rfl
  refine ⟨hc.displays hd, hc.inv (inv_of_displays hd
    (orthoViews_initialized _ (attached_initialized _ hti _) _) ?_ href)⟩
  have h1 := (orthoViews_frame
    (attached (received (prepared s) gltf) (receivedRoot (prepared s) gltf)) modelUrl).2.2.2.2.2
  have h2 := (attached_frame (received (prepared s) gltf) (receivedRoot (prepared s) gltf)).2.2.1
  have h4 : (received (prepared s) gltf).nextId = s.nextId + 1 := by
    simp only [received, hnext]
  have := hi.next
  omega

theorem prepared_inv (s0 s : ViewManager) (hb : Booted s0) (hi : Inv s0 s) : Inv s0 (prepared s) where
  init := prepared_initialized s hi.init
  next := by rw [(prepared_frame s).2.2.1]; exact hi.next
  current := by rw [(prepared_frame s).2.1]; exact hi.current
  perspective := Or.inl (prepared_children3D s0 s hb hi)
  orthogonal := prepared_orthogonal s0 s hi

/-- A completed call of `render3D` keeps the invariant. -/
theorem display_inv (s0 s : ViewManager) (hb : Booted s0) (hi : Inv s0 s)
    (modelUrl : Option String) (outcome : LoadResult) :
    Inv s0 (s.render3D modelUrl outcome).1 := by
  rw [render3D_init s hi.init]
  simp only [displayed]
  split
  · exact (shown_displays s0 s hb hi _ (Cosmetic.refl _)).2
  · split
    · exact (cosmetic_consoleError _ _).inv (prepared_inv s0 s hb hi)
    · rename_i hf hl
      cases outcome with
      | success gltf => exact (loaded_displays s0 s hb hi modelUrl (by simpa using hf) gltf).2
      | failure error => exact (shown_displays s0 s hb hi _ (cosmetic_consoleError _ _)).2

/-- A call of `render3D` that resolves shows its model. -/
theorem display_displays (s0 s : ViewManager) (hb : Booted s0) (hi : Inv s0 s)
    (modelUrl : Option String) (outcome : LoadResult)
    (hres : (s.render3D modelUrl outcome).2 = Promise.resolved) :
    Displays s0 (s.render3D modelUrl outcome).1 (displayedModel s modelUrl outcome) := by
  rw [render3D_init s hi.init] at hres ⊢
  simp only [displayed, displayedModel]
  cases hf : isFalsy modelUrl
  · cases hl : s.loader
    · simp [hf, hl] at hres
    · cases outcome with
      | success gltf =>
        simpa using (loaded_displays s0 s hb hi modelUrl hf gltf).1
      | failure error =>
        simpa using (shown_displays s0 s hb hi _ (cosmetic_consoleError _ _)).1
  · simpa using (shown_displays s0 s hb hi _ (Cosmetic.refl _)).1

theorem inv_start (s0 : ViewManager) (hb : Booted s0) : Inv s0 s0 where
  init := hb.init
  next := le_refl _
  current := fun m hm => by rw [hb.noModel] at hm; cases hm
  perspective := Or.inl rfl
  orthogonal := fun _ => ⟨[], by simp, by simp⟩

theorem reachable_inv (s0 s : ViewManager) (hb : Booted s0) (hr : Reachable s0 s) : Inv s0 s := by
  induction hr with
  | start => exact inv_start s0 hb
  | display s modelUrl outcome _ ih => exact display_inv s0 s hb ih modelUrl outcome
  | dirty s _ ih => exact (cosmetic_markNeedsRender s).inv ih
  | frame s _ ih => exact (cosmetic_animationFrame s).inv ih

theorem booted_sampleViewer : Booted sampleViewer where
  init := initialized_sampleViewer
  noModel := rfl
  refs := by decide
  untagged3D := by decide
  untagged := fun key => by cases key <;> decide

theorem tagged_append_singleton (base : List Object3D) (o : Object3D)
    (hbase : ∀ b ∈ base, b.name ≠ "model") (ho : o.name = "model") :
    tagged (base ++ [o]) = [o] := by
  unfold tagged
  rw [List.filter_append]
  have h1 : base.filter (fun o => o.name = "model") = [] :=
    List.filter_eq_nil_iff.mpr fun b hb => by simpa using hbase b hb
  rw [h1]
  simp [ho]

mutual
theorem expandByObject_setShadows :
    ∀ (o : Object3D) (offset : Vector3) (box : Option Box3),
      Object3D.expandByObject offset (Object3D.mapNodes setShadows o) box
        = Object3D.expandByObject offset o box
  | ⟨ref, type, name, isMesh, geometry, material, position, cast, receive, children⟩, offset,
      box => by
    have h := setShadows_fields
      ⟨ref, type, name, isMesh, geometry, material, position, cast, receive, []⟩
    simp only [Object3D.mapNodes, Object3D.expandByObject, h.2.2.1, h.2.2.2.2.1]
    rw [expandByChildren_setShadows children]
theorem expandByChildren_setShadows :
    ∀ (l : List Object3D) (offset : Vector3) (box : Option Box3),
      Object3D.expandByChildren offset (Object3D.mapNodesOfList setShadows l) box
        = Object3D.expandByChildren offset l box
  | [], _, _ => rfl
  | c :: cs, offset, box => by
    simp only [Object3D.mapNodesOfList, Object3D.expandByChildren]
    rw [expandByObject_setShadows c, expandByChildren_setShadows cs]
end

theorem receivedRoot_box (s : ViewManager) (gltf : GLTF) :
    Box3.setFromObject (receivedRoot s gltf) = Box3.setFromObject gltf.scene := by
  unfold receivedRoot Box3.setFromObject
  rw [expandByObject_setShadows]
  exact setFromObject_congr _ _ rfl rfl rfl

theorem getSize_fallbackBox : Box3.getSize (some fallbackBox) = ⟨2, 3, 1⟩ := by
  simp only [Box3.getSize, fallbackBox, Vector3.sub, Vector3.mk.injEq]
  norm_num

/-- C6: from any state that a booted viewer reaches by completed display calls (with calls of
`markNeedsRender` and animation frames in between), `render3D(id)` for a non-empty `id` whose
load succeeds resolves, and afterwards the perspective scene holds its boot children followed
by exactly one node, the loaded root, which is the only child named `model`; each orthogonal
scene holds its boot children followed by exactly one node, a clone named `model`, its only
child of that name. No node attached by an earlier call remains. -/
theorem render3D_one_tagged_node (s0 s : ViewManager) (hb : Booted s0) (hr : Reachable s0 s)
    (modelUrl : Option String) (hurl : isFalsy modelUrl = false) (hloader : s.loader = true)
    (gltf : GLTF) :
    (s.render3D modelUrl (LoadResult.success gltf)).2 = Promise.resolved
      ∧ ∃ root, (s.render3D modelUrl (LoadResult.success gltf)).1.currentModel = some root
        ∧ root.name = "model" ∧ root.ref = s.nextId
        ∧ root.geometry = gltf.scene.geometry ∧ root.material = gltf.scene.material
        ∧ children3D (s.render3D modelUrl (LoadResult.success gltf)).1 = children3D s0 ++ [root]
        ∧ tagged (children3D (s.render3D modelUrl (LoadResult.success gltf)).1) = [root]
        ∧ ∀ key, ∃ clone,
          childrenOf (s.render3D modelUrl (LoadResult.success gltf)).1 key
            = childrenOf s0 key ++ [clone]
          ∧ clone.name = "model"
          ∧ tagged (childrenOf (s.render3D modelUrl (LoadResult.success gltf)).1 key)
            = [clone] := by
  have hi := reachable_inv s0 s hb hr
  have hres : (s.render3D modelUrl (LoadResult.success gltf)).2 = Promise.resolved := by
    rw [render3D_init s hi.init]
    simp [hurl, hloader]
  have hd := display_displays s0 s hb hi modelUrl (LoadResult.success gltf) hres
  have hmodel : displayedModel s modelUrl (LoadResult.success gltf)
      = recentered (receivedRoot (prepared s) gltf) := by
    simp only [displayedModel, hurl, Bool.false_eq_true, if_false]
  rw [hmodel] at hd
  have hf := receivedRoot_fields (prepared s) gltf
  have hname : (recentered (receivedRoot (prepared s) gltf)).name = "model" := hf.2.1
  refine ⟨hres, _, hd.current, hname, ?_, hf.2.2.1, hf.2.2.2.1, hd.perspective, ?_, ?_⟩
  · exact hf.1.trans (prepared_frame s).2.2.1
  · rw [hd.perspective]
    exact tagged_append_singleton _ _ hb.untagged3D hname
  · intro key
    obtain ⟨clone, h1, h2, _⟩ := hd.clones key
    exact ⟨clone, h1, h2, by rw [h1]; exact tagged_append_singleton _ _ (hb.untagged key) h2⟩

theorem render3D_one_tagged_node_witness :
    Booted sampleViewer ∧ Reachable sampleViewer sampleViewer
      ∧ isFalsy (some "models/a.glb") = false ∧ sampleViewer.loader = true
      ∧ ((sampleViewer.render3D (some "models/a.glb") (LoadResult.success sampleGltf)).2
          = Promise.resolved
        ∧ ∃ root,
          (sampleViewer.render3D (some "models/a.glb")
            (LoadResult.success sampleGltf)).1.currentModel = some root
          ∧ root.name = "model" ∧ root.ref = sampleViewer.nextId
          ∧ root.geometry = sampleGltf.scene.geometry
          ∧ root.material = sampleGltf.scene.material
          ∧ children3D (sampleViewer.render3D (some "models/a.glb")
              (LoadResult.success sampleGltf)).1 = children3D sampleViewer ++ [root]
          ∧ tagged (children3D (sampleViewer.render3D (some "models/a.glb")
              (LoadResult.success sampleGltf)).1) = [root]
          ∧ ∀ key, ∃ clone,
            childrenOf (sampleViewer.render3D (some "models/a.glb")
                (LoadResult.success sampleGltf)).1 key
              = childrenOf sampleViewer key ++ [clone]
            ∧ clone.name = "model"
            ∧ tagged (childrenOf (sampleViewer.render3D (some "models/a.glb")
                (LoadResult.success sampleGltf)).1 key) = [clone]) :=
  ⟨booted_sampleViewer, Reachable.start, rfl, rfl,
    render3D_one_tagged_node sampleViewer sampleViewer booted_sampleViewer Reachable.start
      (some "models/a.glb") rfl rfl sampleGltf⟩

/-- C7: from any state that a booted viewer reaches, whenever the promise of
`render3D(identifier)` resolves (identifier null, load succeeded or load failed), the node it
displays, the last child of the perspective scene, has the centre of its bounding box at the
origin, and so has the clone that each orthogonal scene then holds. -/
theorem render3D_centres (s0 s : ViewManager) (hb : Booted s0) (hr : Reachable s0 s)
    (modelUrl : Option String) (outcome : LoadResult)
    (hres : (s.render3D modelUrl outcome).2 = Promise.resolved) :
    ∃ model, (s.render3D modelUrl outcome).1.currentModel = some model
      ∧ children3D (s.render3D modelUrl outcome).1 = children3D s0 ++ [model]
      ∧ Box3.getCenter (Box3.setFromObject model) = Vector3.zero
      ∧ ∀ key, ∃ clone,
        childrenOf (s.render3D modelUrl outcome).1 key = childrenOf s0 key ++ [clone]
        ∧ Box3.getCenter (Box3.setFromObject clone) = Vector3.zero := by
  have hd := display_displays s0 s hb (reachable_inv s0 s hb hr) modelUrl outcome hres
  refine ⟨_, hd.current, hd.perspective, hd.centre, fun key => ?_⟩
  obtain ⟨clone, h1, _, h3, _⟩ := hd.clones key
  exact ⟨clone, h1, h3⟩

theorem render3D_centres_witness :
    Booted sampleViewer ∧ Reachable sampleViewer sampleViewer
      ∧ (sampleViewer.render3D none (LoadResult.success sampleGltf)).2 = Promise.resolved
      ∧ ∃ model, (sampleViewer.render3D none (LoadResult.success sampleGltf)).1.currentModel
          = some model
        ∧ children3D (sampleViewer.render3D none (LoadResult.success sampleGltf)).1
          = children3D sampleViewer ++ [model]
        ∧ Box3.getCenter (Box3.setFromObject model) = Vector3.zero
        ∧ ∀ key, ∃ clone,
          childrenOf (sampleViewer.render3D none (LoadResult.success sampleGltf)).1 key
            = childrenOf sampleViewer key ++ [clone]
          ∧ Box3.getCenter (Box3.setFromObject clone) = Vector3.zero :=
  ⟨booted_sampleViewer, Reachable.start, rfl,
    render3D_centres sampleViewer sampleViewer booted_sampleViewer Reachable.start none
      (LoadResult.success sampleGltf) rfl⟩

theorem displayedModel_size (s : ViewManager) (modelUrl : Option String) (outcome : LoadResult) :
    (isFalsy modelUrl = true →
        Box3.getSize (Box3.setFromObject (displayedModel s modelUrl outcome)) = ⟨2, 3, 1⟩)
      ∧ (∀ error, isFalsy modelUrl = false → outcome = LoadResult.failure error →
        Box3.getSize (Box3.setFromObject (displayedModel s modelUrl outcome)) = ⟨2, 3, 1⟩)
      ∧ (∀ gltf, isFalsy modelUrl = false → outcome = LoadResult.success gltf →
        Box3.getSize (Box3.setFromObject (displayedModel s modelUrl outcome))
          = Box3.getSize (Box3.setFromObject gltf.scene)) := by
  refine ⟨fun hf => ?_, fun error hf ho => ?_, fun gltf hf ho => ?_⟩
  · simp only [displayedModel, hf, if_true, recentered, Box3.getSize_centered,
      setFromObject_fallback, getSize_fallbackBox]
  · subst ho
    simp only [displayedModel, hf, Bool.false_eq_true, if_false, recentered,
      Box3.getSize_centered, setFromObject_fallback, getSize_fallbackBox]
  · subst ho
    simp only [displayedModel, hf, Bool.false_eq_true, if_false, recentered,
      Box3.getSize_centered, receivedRoot_box]

theorem ofRat_three : F64.ofRat 3 = ⟨false, 3, 0⟩ := by
  simp only [F64.ofRat, Rat.num_ofNat, Rat.den_ofNat]
  norm_num
  rfl

theorem ofRat_six : F64.ofRat 6 = ⟨false, 3, 1⟩ := by
  simp only [F64.ofRat, Rat.num_ofNat, Rat.den_ofNat]
  norm_num
  rfl

theorem ofVector3_mainLight :
    Vec64.ofVector3 appConfig.SCENE_3D.MAIN_LIGHT_POS
      = ⟨⟨false, 5, 1⟩, ⟨false, 5, 1⟩, ⟨false, 5, 0⟩⟩ := by
  have h10 : F64.ofRat 10 = ⟨false, 5, 1⟩ := by
    simp only [F64.ofRat, Rat.num_ofNat, Rat.den_ofNat]
    norm_num
    rfl
  have h5 : F64.ofRat 5 = ⟨false, 5, 0⟩ := by
    simp only [F64.ofRat, Rat.num_ofNat, Rat.den_ofNat]
    norm_num
    rfl
  simp only [Vec64.ofVector3, appConfig, h10, h5]

set_option maxRecDepth 100000 in
/-- In doubles, `setLength(3 * 3)` on `(10, 10, 5.000000000000002)` gives a vector of length
`9 - 2^-49`, and `setLength(6 * 3)` one of length `18 - 2^-48`. -/
theorem setLength_orbited :
    (orbitedPosition.setLength (F64.mul ⟨false, 3, 0⟩ ⟨false, 3, 0⟩)).length
        = ⟨false, 5066549580791807, -49⟩
      ∧ (orbitedPosition.setLength (F64.mul ⟨false, 3, 1⟩ ⟨false, 3, 0⟩)).length
        = ⟨false, 5066549580791807, -48⟩ :=
  ⟨by rfl, by rfl⟩

set_option maxRecDepth 100000 in
/-- In doubles, `setLength(3 * 3)` on `(10, 10, 5)` gives a vector of length 9, and
`setLength(6 * 3)` one of length 18. -/
theorem setLength_mainLight :
    ((⟨⟨false, 5, 1⟩, ⟨false, 5, 1⟩, ⟨false, 5, 0⟩⟩ : Vec64).setLength
        (F64.mul ⟨false, 3, 0⟩ ⟨false, 3, 0⟩)).length = ⟨false, 9, 0⟩
      ∧ ((⟨⟨false, 5, 1⟩, ⟨false, 5, 1⟩, ⟨false, 5, 0⟩⟩ : Vec64).setLength
        (F64.mul ⟨false, 3, 1⟩ ⟨false, 3, 0⟩)).length = ⟨false, 9, 1⟩ :=
  ⟨by rfl, by rfl⟩

theorem toRat_values :
    F64.toRat ⟨false, 5066549580791807, -49⟩ = 9 - 1 / 2 ^ 49
      ∧ F64.toRat ⟨false, 5066549580791807, -48⟩ = 18 - 1 / 2 ^ 48
      ∧ F64.toRat ⟨false, 9, 0⟩ = 9 ∧ F64.toRat ⟨false, 9, 1⟩ = 18
      ∧ orbitedPosition.x.toRat = 10 ∧ orbitedPosition.y.toRat = 10
      ∧ orbitedPosition.z.toRat = 5 + 1 / 2 ^ 49 := by
  refine ⟨?_, ?_, ?_, ?_, ?_, ?_, ?_⟩ <;>
    norm_num [F64.toRat, orbitedPosition, orbitedDepth]

/-- The camera distance in doubles for a model of characteristic scale 3 or 6, when
`controls.update()` takes the camera from `(10, 10, 5)` to `(10, 10, 5.000000000000002)` and
when it leaves it in place. -/
theorem perspectiveDistance64_values (orbit : Vec64 → Vec64) (model : Object3D) :
    (orbit (Vec64.ofVector3 appConfig.SCENE_3D.MAIN_LIGHT_POS) = orbitedPosition →
        (characteristicScale model = 3 →
          (perspectiveDistance64 orbit appConfig model).toRat = 9 - 1 / 2 ^ 49)
        ∧ (characteristicScale model = 6 →
          (perspectiveDistance64 orbit appConfig model).toRat = 18 - 1 / 2 ^ 48))
      ∧ (orbit (Vec64.ofVector3 appConfig.SCENE_3D.MAIN_LIGHT_POS)
          = Vec64.ofVector3 appConfig.SCENE_3D.MAIN_LIGHT_POS →
        (characteristicScale model = 3 →
          (perspectiveDistance64 orbit appConfig model).toRat = 9)
        ∧ (characteristicScale model = 6 →
          (perspectiveDistance64 orbit appConfig model).toRat = 18)) := by
  have hv := toRat_values
  refine ⟨fun ho => ⟨fun h3 => ?_, fun h6 => ?_⟩, fun ho => ⟨fun h3 => ?_, fun h6 => ?_⟩⟩
  · rw [perspectiveDistance64, ho, h3, ofRat_three, setLength_orbited.1]
    exact hv.1
  · rw [perspectiveDistance64, ho, h6, ofRat_six, ofRat_three, setLength_orbited.2]
    exact hv.2.1
  · rw [perspectiveDistance64, ho, ofVector3_mainLight, h3, ofRat_three, setLength_mainLight.1]
    exact hv.2.2.1
  · rw [perspectiveDistance64, ho, ofVector3_mainLight, h6, ofRat_six, ofRat_three,
      setLength_mainLight.2]
    exact hv.2.2.2.1

theorem orbitControlsUpdate_mainLight :
    orbitControlsUpdate (Vec64.ofVector3 appConfig.SCENE_3D.MAIN_LIGHT_POS) = orbitedPosition := by
  rw [ofVector3_mainLight]
  rfl

theorem getSize_sampleGltf :
    Box3.getSize (Box3.setFromObject sampleGltf.scene) = ⟨4, 2, 6⟩ := by
  simp [sampleGltf, Box3.setFromObject, Object3D.expandByObject, Object3D.expandByChildren,
    Box3.expandBy, Box3.translate, Box3.getSize, sampleBox, Vector3.add, Vector3.sub,
    Vector3.zero]

/-- The node that a resolved `render3D` displays: its characteristic scale is the largest of
its extents, and every orthographic frustum is that scale times the margin factor, widened by
the aspect of the container. -/
theorem display_scale (s0 s : ViewManager) (hb : Booted s0) (hr : Reachable s0 s)
    (modelUrl : Option String) (outcome : LoadResult)
    (hres : (s.render3D modelUrl outcome).2 = Promise.resolved) :
    ∃ model, (s.render3D modelUrl outcome).1.currentModel = some model
      ∧ (∀ ex ey ez, Box3.getSize (Box3.setFromObject model) = ⟨ex, ey, ez⟩ →
        characteristicScale model = max3 ex ey ez
        ∧ ∀ key, ∃ ortho container, (s.render3D modelUrl outcome).1.cameras key = some ortho
          ∧ (s.render3D modelUrl outcome).1.containerCache key = some container
          ∧ ortho.top = max3 ex ey ez * appConfig.ORTHOGRAPHIC.MARGIN_FACTOR
          ∧ ortho.bottom = -(max3 ex ey ez * appConfig.ORTHOGRAPHIC.MARGIN_FACTOR)
          ∧ ortho.right = max3 ex ey ez * appConfig.ORTHOGRAPHIC.MARGIN_FACTOR * container.aspect
          ∧ ortho.left
            = -(max3 ex ey ez * appConfig.ORTHOGRAPHIC.MARGIN_FACTOR * container.aspect))
      ∧ (isFalsy modelUrl = true →
        Box3.getSize (Box3.setFromObject model) = ⟨2, 3, 1⟩ ∧ characteristicScale model = 3)
      ∧ (∀ gltf, isFalsy modelUrl = false → outcome = LoadResult.success gltf →
        Box3.getSize (Box3.setFromObject gltf.scene) = ⟨4, 2, 6⟩ →
        Box3.getSize (Box3.setFromObject model) = ⟨4, 2, 6⟩
        ∧ characteristicScale model = 6
        ∧ ∀ key, ∃ ortho, (s.render3D modelUrl outcome).1.cameras key = some ortho
          ∧ ortho.top = 6 * appConfig.ORTHOGRAPHIC.MARGIN_FACTOR) := by
  have hd := display_displays s0 s hb (reachable_inv s0 s hb hr) modelUrl outcome hres
  have hsz := displayedModel_size s modelUrl outcome
  have hscale : ∀ ex ey ez,
      Box3.getSize (Box3.setFromObject (displayedModel s modelUrl outcome)) = ⟨ex, ey, ez⟩ →
      characteristicScale (displayedModel s modelUrl outcome) = max3 ex ey ez := by
    intro ex ey ez he
    simp only [characteristicScale, he]
  refine ⟨_, hd.current, ?_, ?_, ?_⟩
  · intro ex ey ez he
    have h := hscale ex ey ez he
    refine ⟨h, fun key => ?_⟩
    obtain ⟨ortho, container, h1, h2, h3, h4, h5, h6⟩ := hd.frusta key
    rw [h] at h3 h4 h5 h6
    exact ⟨ortho, container, h1, h2, h3, h4, h5, h6⟩
  · intro hf
    have he := hsz.1 hf
    refine ⟨he, ?_⟩
    rw [hscale 2 3 1 he]
    norm_num [max3]
  · intro gltf hf ho hext
    have he := (hsz.2.2 gltf hf ho).trans hext
    have h6 : characteristicScale (displayedModel s modelUrl outcome) = 6 := by
      rw [hscale 4 2 6 he]
      norm_num [max3]
    refine ⟨he, h6, fun key => ?_⟩
    obtain ⟨ortho, container, h1, _, h3, _⟩ := hd.frusta key
    rw [h6] at h3
    exact ⟨ortho, h1, h3⟩

/-- C8 (as stated, refuted): in the sample viewer `render3D(null)` resolves and displays the
fallback box, of extents `(2, 3, 1)` and characteristic scale 3. `controls.update()` has left
the camera at `(10, 10, 5.000000000000002)`, and `position.setLength(3 * 3)` from there gives,
in the double arithmetic of the program, a camera at distance `9 - 2^-49`
(`8.999999999999998`) from the origin, which is not `3 * max(2, 3, 1) = 9`. After
`render3D("models/a.glb")` with a loaded node of extents `(4, 2, 6)` the distance is
`18 - 2^-48` (`17.999999999999996`), not 18. -/
theorem render3D_distance_rounded :
    orbitControlsUpdate (Vec64.ofVector3 appConfig.SCENE_3D.MAIN_LIGHT_POS) = orbitedPosition
      ∧ orbitedPosition.x.toRat = 10 ∧ orbitedPosition.y.toRat = 10
      ∧ orbitedPosition.z.toRat = 5 + 1 / 2 ^ 49
      ∧ (sampleViewer.render3D none (LoadResult.success sampleGltf)).2 = Promise.resolved
      ∧ (∃ model,
        (sampleViewer.render3D none (LoadResult.success sampleGltf)).1.currentModel = some model
          ∧ Box3.getSize (Box3.setFromObject model) = ⟨2, 3, 1⟩
          ∧ characteristicScale model = 3
          ∧ (perspectiveDistance64 orbitControlsUpdate appConfig model).toRat = 9 - 1 / 2 ^ 49
          ∧ (perspectiveDistance64 orbitControlsUpdate appConfig model).toRat ≠ 3 * max3 2 3 1)
      ∧ sampleDisplay.2 = Promise.resolved
      ∧ ∃ model, sampleDisplay.1.currentModel = some model
        ∧ Box3.getSize (Box3.setFromObject model) = ⟨4, 2, 6⟩
        ∧ characteristicScale model = 6
        ∧ (perspectiveDistance64 orbitControlsUpdate appConfig model).toRat = 18 - 1 / 2 ^ 48
        ∧ (perspectiveDistance64 orbitControlsUpdate appConfig model).toRat ≠ 3 * max3 4 2 6 := by
  have hv := toRat_values
  have ho := orbitControlsUpdate_mainLight
  obtain ⟨m1, hm1, -, hf1, -⟩ := display_scale sampleViewer sampleViewer booted_sampleViewer
    Reachable.start none (LoadResult.success sampleGltf) rfl
  obtain ⟨m2, hm2, -, -, hl2⟩ := display_scale sampleViewer sampleViewer booted_sampleViewer
    Reachable.start (some "models/a.glb") (LoadResult.success sampleGltf) rfl
  have h1 := hf1 rfl
  have h2 := hl2 sampleGltf rfl rfl getSize_sampleGltf
  have d1 := ((perspectiveDistance64_values orbitControlsUpdate m1).1 ho).1 h1.2
  have d2 := ((perspectiveDistance64_values orbitControlsUpdate m2).1 ho).2 h2.2.1
  refine ⟨ho, hv.2.2.2.2.1, hv.2.2.2.2.2.1, hv.2.2.2.2.2.2, rfl,
    ⟨m1, hm1, h1.1, h1.2, d1, ?_⟩, rfl, m2, hm2, h2.1, h2.2.1, d2, ?_⟩
  · rw [d1]; norm_num [max3]
  · rw [d2]; norm_num [max3]

/-- C8 (amended): from any state that a booted viewer reaches, whenever the promise of
`render3D(identifier)` resolves, for the extents `(ex, ey, ez)` of the bounding box of the
displayed node the characteristic scale is `max(ex, ey, ez)`, every orthographic camera has
`top = max(ex, ey, ez) * MARGIN_FACTOR` (and `bottom`, `left`, `right` to match, with the
aspect of its container), and the perspective camera stands where
`position.setLength(max(ex, ey, ez) * 3)` puts it from the position that `controls.update()`
left. For a null identifier the displayed node has extents `(2, 3, 1)` and scale 3; for a
loaded node of extents `(4, 2, 6)` the scale is 6 and the margin `6 * MARGIN_FACTOR`. In the
double arithmetic of the program the camera distance is then `9 - 2^-49` and `18 - 2^-48`
when `controls.update()` has taken the camera from `(10, 10, 5)` to
`(10, 10, 5.000000000000002)`, and exactly 9 and 18 when it has left the camera at
`(10, 10, 5)`. -/
theorem render3D_scale (s0 s : ViewManager) (hb : Booted s0) (hr : Reachable s0 s)
    (modelUrl : Option String) (outcome : LoadResult)
    (hres : (s.render3D modelUrl outcome).2 = Promise.resolved) :
    ∃ model, (s.render3D modelUrl outcome).1.currentModel = some model
      ∧ (∀ ex ey ez, Box3.getSize (Box3.setFromObject model) = ⟨ex, ey, ez⟩ →
        characteristicScale model = max3 ex ey ez
        ∧ (∀ key, ∃ ortho container, (s.render3D modelUrl outcome).1.cameras key = some ortho
          ∧ (s.render3D modelUrl outcome).1.containerCache key = some container
          ∧ ortho.top = max3 ex ey ez * appConfig.ORTHOGRAPHIC.MARGIN_FACTOR
          ∧ ortho.bottom = -(max3 ex ey ez * appConfig.ORTHOGRAPHIC.MARGIN_FACTOR)
          ∧ ortho.right = max3 ex ey ez * appConfig.ORTHOGRAPHIC.MARGIN_FACTOR * container.aspect
          ∧ ortho.left
            = -(max3 ex ey ez * appConfig.ORTHOGRAPHIC.MARGIN_FACTOR * container.aspect))
        ∧ ∀ orbit : Vec64 → Vec64, perspectiveDistance64 orbit appConfig model =
          ((orbit (Vec64.ofVector3 appConfig.SCENE_3D.MAIN_LIGHT_POS)).setLength
            (F64.mul (F64.ofRat (max3 ex ey ez)) (F64.ofRat 3))).length)
      ∧ (isFalsy modelUrl = true →
        Box3.getSize (Box3.setFromObject model) = ⟨2, 3, 1⟩
        ∧ characteristicScale model = 3
        ∧ ∀ orbit : Vec64 → Vec64,
          (orbit (Vec64.ofVector3 appConfig.SCENE_3D.MAIN_LIGHT_POS) = orbitedPosition →
            (perspectiveDistance64 orbit appConfig model).toRat = 9 - 1 / 2 ^ 49)
          ∧ (orbit (Vec64.ofVector3 appConfig.SCENE_3D.MAIN_LIGHT_POS)
              = Vec64.ofVector3 appConfig.SCENE_3D.MAIN_LIGHT_POS →
            (perspectiveDistance64 orbit appConfig model).toRat = 9))
      ∧ (∀ gltf, isFalsy modelUrl = false → outcome = LoadResult.success gltf →
        Box3.getSize (Box3.setFromObject gltf.scene) = ⟨4, 2, 6⟩ →
        Box3.getSize (Box3.setFromObject model) = ⟨4, 2, 6⟩
        ∧ characteristicScale model = 6
        ∧ (∀ key, ∃ ortho, (s.render3D modelUrl outcome).1.cameras key = some ortho
          ∧ ortho.top = 6 * appConfig.ORTHOGRAPHIC.MARGIN_FACTOR)
        ∧ ∀ orbit : Vec64 → Vec64,
          (orbit (Vec64.ofVector3 appConfig.SCENE_3D.MAIN_LIGHT_POS) = orbitedPosition →
            (perspectiveDistance64 orbit appConfig model).toRat = 18 - 1 / 2 ^ 48)
          ∧ (orbit (Vec64.ofVector3 appConfig.SCENE_3D.MAIN_LIGHT_POS)
              = Vec64.ofVector3 appConfig.SCENE_3D.MAIN_LIGHT_POS →
            (perspectiveDistance64 orbit appConfig model).toRat = 18)) := by
  obtain ⟨model, hm, hgen, hnull, hload⟩ := display_scale s0 s hb hr modelUrl outcome hres
  refine ⟨model, hm, fun ex ey ez he => ?_, fun hf => ?_, fun gltf hf ho hext => ?_⟩
  · have h := hgen ex ey ez he
    refine ⟨h.1, h.2, fun orbit => ?_⟩
    rw [perspectiveDistance64, h.1]
  · have h := hnull hf
    refine ⟨h.1, h.2, fun orbit => ?_⟩
    have hv := perspectiveDistance64_values orbit model
    exact ⟨fun ho => (hv.1 ho).1 h.2, fun ho => (hv.2 ho).1 h.2⟩
  · have h := hload gltf hf ho hext
    refine ⟨h.1, h.2.1, h.2.2, fun orbit => ?_⟩
    have hv := perspectiveDistance64_values orbit model
    exact ⟨fun ho => (hv.1 ho).2 h.2.1, fun ho => (hv.2 ho).2 h.2.1⟩

theorem render3D_scale_witness :
    Booted sampleViewer ∧ Reachable sampleViewer sampleViewer
      ∧ sampleDisplay.2 = Promise.resolved
      ∧ ∃ model, sampleDisplay.1.currentModel = some model
        ∧ (∀ ex ey ez, Box3.getSize (Box3.setFromObject model) = ⟨ex, ey, ez⟩ →
          characteristicScale model = max3 ex ey ez
          ∧ (∀ key, ∃ ortho container, sampleDisplay.1.cameras key = some ortho
            ∧ sampleDisplay.1.containerCache key = some container
            ∧ ortho.top = max3 ex ey ez * appConfig.ORTHOGRAPHIC.MARGIN_FACTOR
            ∧ ortho.bottom = -(max3 ex ey ez * appConfig.ORTHOGRAPHIC.MARGIN_FACTOR)
            ∧ ortho.right = max3 ex ey ez * appConfig.ORTHOGRAPHIC.MARGIN_FACTOR * container.aspect
            ∧ ortho.left
              = -(max3 ex ey ez * appConfig.ORTHOGRAPHIC.MARGIN_FACTOR * container.aspect))
          ∧ ∀ orbit : Vec64 → Vec64, perspectiveDistance64 orbit appConfig model =
            ((orbit (Vec64.ofVector3 appConfig.SCENE_3D.MAIN_LIGHT_POS)).setLength
              (F64.mul (F64.ofRat (max3 ex ey ez)) (F64.ofRat 3))).length)
        ∧ (isFalsy (some "models/a.glb") = true →
          Box3.getSize (Box3.setFromObject model) = ⟨2, 3, 1⟩
          ∧ characteristicScale model = 3
          ∧ ∀ orbit : Vec64 → Vec64,
            (orbit (Vec64.ofVector3 appConfig.SCENE_3D.MAIN_LIGHT_POS) = orbitedPosition →
              (perspectiveDistance64 orbit appConfig model).toRat = 9 - 1 / 2 ^ 49)
            ∧ (orbit (Vec64.ofVector3 appConfig.SCENE_3D.MAIN_LIGHT_POS)
                = Vec64.ofVector3 appConfig.SCENE_3D.MAIN_LIGHT_POS →
              (perspectiveDistance64 orbit appConfig model).toRat = 9))
        ∧ (∀ gltf, isFalsy (some "models/a.glb") = false →
          LoadResult.success sampleGltf = LoadResult.success gltf →
          Box3.getSize (Box3.setFromObject gltf.scene) = ⟨4, 2, 6⟩ →
          Box3.getSize (Box3.setFromObject model) = ⟨4, 2, 6⟩
          ∧ characteristicScale model = 6
          ∧ (∀ key, ∃ ortho, sampleDisplay.1.cameras key = some ortho
            ∧ ortho.top = 6 * appConfig.ORTHOGRAPHIC.MARGIN_FACTOR)
          ∧ ∀ orbit : Vec64 → Vec64,
            (orbit (Vec64.ofVector3 appConfig.SCENE_3D.MAIN_LIGHT_POS) = orbitedPosition →
              (perspectiveDistance64 orbit appConfig model).toRat = 18 - 1 / 2 ^ 48)
            ∧ (orbit (Vec64.ofVector3 appConfig.SCENE_3D.MAIN_LIGHT_POS)
                = Vec64.ofVector3 appConfig.SCENE_3D.MAIN_LIGHT_POS →
              (perspectiveDistance64 orbit appConfig model).toRat = 18)) :=
  ⟨booted_sampleViewer, Reachable.start, rfl,
    render3D_scale sampleViewer sampleViewer booted_sampleViewer Reachable.start
      (some "models/a.glb") (LoadResult.success sampleGltf) rfl⟩

theorem foldl_normalizeNode (config : AppConfig) (nodes : List Object3D) :
    ∀ (store : Nat → Material) (cache : List Nat) (uuid : Nat),
      (nodes.foldl (normalizeNode config) (store, cache)).1 uuid =
        if uuid ∈ cache then store uuid
        else if uuid ∈ nodes.filterMap meshMaterial then normalizeMaterial config (store uuid)
        else store uuid := by
  induction nodes with
  | nil => intro store cache uuid; simp
  | cons n ns ih =>
    intro store cache uuid
    simp only [List.foldl_cons]
    cases hmesh : n.isMesh with
    | false =>
      have h1 : normalizeNode config (store, cache) n = (store, cache) := by
        simp [normalizeNode, hmesh]
      have h2 : (n :: ns).filterMap meshMaterial = ns.filterMap meshMaterial := by
        simp [List.filterMap_cons, meshMaterial, hmesh]
      rw [h1, h2, ih]
    | true =>
      cases hmat : n.material with
      | none =>
        have h1 : normalizeNode config (store, cache) n = (store, cache) := by
          simp [normalizeNode, hmesh, hmat]
        have h2 : (n :: ns).filterMap meshMaterial = ns.filterMap meshMaterial := by
          simp [List.filterMap_cons, meshMaterial, hmesh, hmat]
        rw [h1, h2, ih]
      | some u0 =>
        have h2 : (n :: ns).filterMap meshMaterial = u0 :: ns.filterMap meshMaterial := by
          simp [List.filterMap_cons, meshMaterial, hmesh, hmat]
        rw [h2]
        by_cases hc : u0 ∈ cache
        · have h1 : normalizeNode config (store, cache) n = (store, cache) := by
            simp [normalizeNode, hmesh, hmat, hc]
          rw [h1, ih]
          by_cases hu : uuid ∈ cache
          · simp [hu]
          · have hne : uuid ≠ u0 := fun h => hu (h ▸ hc)
            simp [hu, hne]
        · have h1 : normalizeNode config (store, cache) n =
              (Function.update store u0 (normalizeMaterial config (store u0)), u0 :: cache) := by
            simp [normalizeNode, hmesh, hmat, hc]
          rw [h1, ih]
          by_cases hu : uuid = u0
          · subst hu
            simp [hc]
          · by_cases hu2 : uuid ∈ cache
            · simp [hu, hu2]
            · simp [hu, hu2]

theorem materialIds_eq (o : Object3D) : materialIds o = o.nodes.filterMap meshMaterial := rfl

theorem normalizeMaterials_apply (config : AppConfig) (store : Nat → Material) (o : Object3D)
    (uuid : Nat) :
    normalizeMaterials config store o uuid =
      if uuid ∈ materialIds o then normalizeMaterial config (store uuid) else store uuid := by
  unfold normalizeMaterials
  rw [foldl_normalizeNode, materialIds_eq]
  simp

theorem materialIds_rename (o : Object3D) (ref : Nat) (name : String) :
    materialIds { o with ref := ref, name := name } = materialIds o := by
  obtain ⟨r, type, n, isMesh, geometry, material, position, cast, receive, children⟩ := o
  simp only [materialIds, Object3D.nodes, List.filterMap_cons]

mutual
theorem nodes_setShadows :
    ∀ (o : Object3D), ∀ n ∈ (Object3D.mapNodes setShadows o).nodes,
      n.isMesh = true → n.castShadow = true ∧ n.receiveShadow = true
  | ⟨ref, type, name, isMesh, geometry, material, position, cast, receive, children⟩, n, hn,
      hmesh => by
    simp only [Object3D.mapNodes, Object3D.nodes, List.mem_cons] at hn
    rcases hn with hn | hn
    · subst hn
      simp only [setShadows] at hmesh ⊢
      cases isMesh <;> simp_all
    · exact nodesOfList_setShadows children n hn hmesh
theorem nodesOfList_setShadows :
    ∀ (l : List Object3D), ∀ n ∈ Object3D.nodesOfList (Object3D.mapNodesOfList setShadows l),
      n.isMesh = true → n.castShadow = true ∧ n.receiveShadow = true
  | [], n, hn, _ => by simp [Object3D.mapNodesOfList, Object3D.nodesOfList] at hn
  | c :: cs, n, hn, hmesh => by
    simp only [Object3D.mapNodesOfList, Object3D.nodesOfList, List.mem_append] at hn
    rcases hn with hn | hn
    · exact nodes_setShadows c n hn hmesh
    · exact nodesOfList_setShadows cs n hn hmesh
end

theorem nodes_recentered (o : Object3D) (n : Object3D) (hn : n ∈ (recentered o).nodes) :
    (n.isMesh = o.isMesh ∧ n.castShadow = o.castShadow ∧ n.receiveShadow = o.receiveShadow)
      ∨ n ∈ o.nodes := by
  obtain ⟨r, type, name, isMesh, geometry, material, position, cast, receive, children⟩ := o
  simp only [recentered, Object3D.nodes, List.mem_cons] at hn ⊢
  rcases hn with hn | hn
  · left; subst hn; exact ⟨rfl, rfl, rfl⟩
  · right; right; exact hn

theorem nodes_head (o : Object3D) : o ∈ o.nodes := by
  obtain ⟨r, type, name, isMesh, geometry, material, position, cast, receive, children⟩ := o
  simp [Object3D.nodes]

theorem loaded_frame (s : ViewManager) (modelUrl : Option String) (hurl : isFalsy modelUrl = false)
    (gltf : GLTF) :
    (loaded s modelUrl gltf).materials = (received s gltf).materials
      ∧ (loaded s modelUrl gltf).currentModel = some (recentered (receivedRoot s gltf)) := by
  have haf := attached_frame (received s gltf) (receivedRoot s gltf)
  have hcur : (cleared (attached (received s gltf) (receivedRoot s gltf))).currentModel
      = some (recentered (receivedRoot s gltf)) := haf.1
  simp only [loaded, orthoViews, hurl, hcur, Bool.false_eq_true, if_false]
  simp [fit, markNeedsRender_eq, cloned, cleared, attached, centered, recentered]

theorem appConfig_material :
    appConfig.darkThreshold = 1 / 5 ∧ appConfig.brightnessMultiplier = 5 / 2 := by
  simp [AppConfig.darkThreshold, AppConfig.brightnessMultiplier, appConfig, orDefault]

theorem normalizeMaterial_spec (m : Material) :
    (normalizeMaterial appConfig m).color =
        (match m.color with
        | some c =>
          if c.r < 1 / 5 ∧ c.g < 1 / 5 ∧ c.b < 1 / 5 then some (c.multiplyScalar (5 / 2))
          else some c
        | none => none)
      ∧ (m.type = "MeshStandardMaterial" →
        (normalizeMaterial appConfig m).roughness = some (4 / 5)
          ∧ (normalizeMaterial appConfig m).metalness = some 0)
      ∧ (m.type ≠ "MeshStandardMaterial" →
        (normalizeMaterial appConfig m).roughness = m.roughness
          ∧ (normalizeMaterial appConfig m).metalness = m.metalness)
      ∧ (normalizeMaterial appConfig m).type = m.type := by
  obtain ⟨type, color, map, roughness, metalness, needsUpdate⟩ := m
  simp only [normalizeMaterial, appConfig_material.1, appConfig_material.2]
  cases color with
  | none =>
    by_cases ht : type = "MeshStandardMaterial" <;> simp [ht]
  | some c =>
    by_cases hd : c.r < 1 / 5 ∧ c.g < 1 / 5 ∧ c.b < 1 / 5
    · simp only [if_pos hd]
      by_cases ht : type = "MeshStandardMaterial" <;> simp [ht]
    · simp only [if_neg hd]
      by_cases ht : type = "MeshStandardMaterial" <;> simp [ht]

/-- C10: in an initialized viewer with a loader, after `render3D(id)` for a non-empty `id`
whose load succeeds, every material of a mesh of the loaded tree (by uuid, however many meshes
share it) has the colour it was loaded with multiplied once by 2.5 if all of the loaded
channels were below 0.2 (also when the product is still below 0.2), and its loaded colour
otherwise; it has roughness 0.8 and metalness 0 if its type is `MeshStandardMaterial`, and its
loaded roughness and metalness otherwise. Materials that are not of a mesh of the tree are as
before, and every mesh of the displayed tree has `castShadow` and `receiveShadow` set. -/
theorem render3D_normalizes_materials (s : ViewManager) (h : Initialized s)
    (hloader : s.loader = true) (modelUrl : Option String) (hurl : isFalsy modelUrl = false)
    (gltf : GLTF) :
    (∀ uuid ∈ materialIds gltf.scene,
        ((s.render3D modelUrl (LoadResult.success gltf)).1.materials uuid).color =
          (match (gltf.materials uuid).color with
          | some c =>
            if c.r < 1 / 5 ∧ c.g < 1 / 5 ∧ c.b < 1 / 5 then some (c.multiplyScalar (5 / 2))
            else some c
          | none => none)
        ∧ ((gltf.materials uuid).type = "MeshStandardMaterial" →
          ((s.render3D modelUrl (LoadResult.success gltf)).1.materials uuid).roughness
              = some (4 / 5)
            ∧ ((s.render3D modelUrl (LoadResult.success gltf)).1.materials uuid).metalness
              = some 0)
        ∧ ((gltf.materials uuid).type ≠ "MeshStandardMaterial" →
          ((s.render3D modelUrl (LoadResult.success gltf)).1.materials uuid).roughness
              = (gltf.materials uuid).roughness
            ∧ ((s.render3D modelUrl (LoadResult.success gltf)).1.materials uuid).metalness
              = (gltf.materials uuid).metalness)
        ∧ ((s.render3D modelUrl (LoadResult.success gltf)).1.materials uuid).type
          = (gltf.materials uuid).type)
      ∧ (∀ uuid, uuid ∉ materialIds gltf.scene →
        (s.render3D modelUrl (LoadResult.success gltf)).1.materials uuid = s.materials uuid)
      ∧ ∃ model, (s.render3D modelUrl (LoadResult.success gltf)).1.currentModel = some model
        ∧ ∀ n ∈ model.nodes, n.isMesh = true → n.castShadow = true ∧ n.receiveShadow = true := by
  have hstate : (s.render3D modelUrl (LoadResult.success gltf)).1
      = loaded (prepared s) modelUrl gltf := by
    rw [render3D_init s h]
    simp [displayed, hurl, hloader]
  have hfr := loaded_frame (prepared s) modelUrl hurl gltf
  have hmat : ∀ uuid, (s.render3D modelUrl (LoadResult.success gltf)).1.materials uuid =
      if uuid ∈ materialIds gltf.scene then normalizeMaterial appConfig (gltf.materials uuid)
      else s.materials uuid := by
    intro uuid
    rw [hstate, hfr.1]
    simp only [received]
    rw [normalizeMaterials_apply, materialIds_rename]
    have hp : (prepared s).materials = s.materials := by
      unfold prepared reset detached
      cases s.currentModel <;> rfl
    by_cases hu : uuid ∈ materialIds gltf.scene
    · simp [hu]
    · simp [hu, hp]
  refine ⟨fun uuid hu => ?_, fun uuid hu => ?_, _, by rw [hstate]; exact hfr.2, ?_⟩
  · rw [hmat uuid, if_pos hu]
    exact normalizeMaterial_spec (gltf.materials uuid)
  · rw [hmat uuid, if_neg hu]
  · intro n hn hmesh
    rcases nodes_recentered _ n hn with ⟨h1, h2, h3⟩ | hn2
    · rw [h2, h3]
      rw [h1] at hmesh
      exact nodes_setShadows _ _ (nodes_head _) hmesh
    · exact nodes_setShadows _ n hn2 hmesh

theorem render3D_normalizes_materials_witness :
    Initialized sampleViewer ∧ sampleViewer.loader = true
      ∧ isFalsy (some "models/a.glb") = false
      ∧ ((∀ uuid ∈ materialIds sampleGltf.scene,
          (sampleDisplay.1.materials uuid).color =
            (match (sampleGltf.materials uuid).color with
            | some c =>
              if c.r < 1 / 5 ∧ c.g < 1 / 5 ∧ c.b < 1 / 5 then some (c.multiplyScalar (5 / 2))
              else some c
            | none => none)
          ∧ ((sampleGltf.materials uuid).type = "MeshStandardMaterial" →
            (sampleDisplay.1.materials uuid).roughness = some (4 / 5)
              ∧ (sampleDisplay.1.materials uuid).metalness = some 0)
          ∧ ((sampleGltf.materials uuid).type ≠ "MeshStandardMaterial" →
            (sampleDisplay.1.materials uuid).roughness = (sampleGltf.materials uuid).roughness
              ∧ (sampleDisplay.1.materials uuid).metalness
                = (sampleGltf.materials uuid).metalness)
          ∧ (sampleDisplay.1.materials uuid).type = (sampleGltf.materials uuid).type)
        ∧ (∀ uuid, uuid ∉ materialIds sampleGltf.scene →
          sampleDisplay.1.materials uuid = sampleViewer.materials uuid)
        ∧ ∃ model, sampleDisplay.1.currentModel = some model
          ∧ ∀ n ∈ model.nodes, n.isMesh = true → n.castShadow = true ∧ n.receiveShadow = true) :=
  ⟨initialized_sampleViewer, rfl, rfl,
    render3D_normalizes_materials sampleViewer initialized_sampleViewer rfl (some "models/a.glb")
      rfl sampleGltf⟩

theorem markDisposed_mem (id : Nat) (l : List Nat) : id ∈ markDisposed id l := by
  unfold markDisposed
  split
  · assumption
  · exact List.mem_cons_self _ _

theorem markDisposed_subset (id x : Nat) (l : List Nat) (h : x ∈ l) : x ∈ markDisposed id l := by
  unfold markDisposed
  split
  · exact h
  · exact List.mem_cons_of_mem _ h

/-- Disposal only adds to the disposed resources. -/
theorem disposeNode_mono (materials : Nat → Material) (d : Disposed) (n : Object3D) :
    (∀ x ∈ d.geometries, x ∈ (disposeNode materials d n).geometries)
      ∧ (∀ x ∈ d.materials, x ∈ (disposeNode materials d n).materials) := by
  unfold disposeNode
  cases n.isMesh
  · exact ⟨fun _ h => h, fun _ h => h⟩
  · cases n.geometry <;> cases n.material <;> simp only [if_true]
    · exact ⟨fun _ h => h, fun _ h => h⟩
    · refine ⟨fun x h => ?_, fun x h => markDisposed_subset _ _ _ ?_⟩
      · split <;> exact h
      · split <;> exact h
    · exact ⟨fun x h => markDisposed_subset _ _ _ h, fun _ h => h⟩
    · refine ⟨fun x h => ?_, fun x h => markDisposed_subset _ _ _ ?_⟩
      · split <;> exact markDisposed_subset _ _ _ h
      · split <;> exact h

/-- The disposal callback records the geometry and the material of a mesh. -/
theorem disposeNode_records (materials : Nat → Material) (d : Disposed) (n : Object3D)
    (hmesh : n.isMesh = true) :
    (∀ g, n.geometry = some g → g.id ∈ (disposeNode materials d n).geometries)
      ∧ (∀ u, n.material = some u → u ∈ (disposeNode materials d n).materials) := by
  constructor
  · intro g hg
    unfold disposeNode
    rw [hmesh, hg]
    cases n.material <;> simp only [if_true]
    · exact markDisposed_mem _ _
    · split <;> exact markDisposed_mem _ _
  · intro u hu
    unfold disposeNode
    rw [hmesh, hu]
    simp only [if_true]
    exact markDisposed_mem _ _

theorem foldl_disposeNode_mono (materials : Nat → Material) (nodes : List Object3D) :
    ∀ d : Disposed,
      (∀ x ∈ d.geometries, x ∈ (nodes.foldl (disposeNode materials) d).geometries)
        ∧ (∀ x ∈ d.materials, x ∈ (nodes.foldl (disposeNode materials) d).materials) := by
  induction nodes with
  | nil => intro d; exact ⟨fun _ h => h, fun _ h => h⟩
  | cons n ns ih =>
    intro d
    have h1 := disposeNode_mono materials d n
    have h2 := ih (disposeNode materials d n)
    exact ⟨fun x h => h2.1 x (h1.1 x h), fun x h => h2.2 x (h1.2 x h)⟩

/-- After the disposal traversal the geometry and the material of every mesh it visited are
disposed. -/
theorem foldl_disposeNode_records (materials : Nat → Material) (nodes : List Object3D) :
    ∀ (d : Disposed) (n : Object3D), n ∈ nodes → n.isMesh = true →
      (∀ g, n.geometry = some g → g.id ∈ (nodes.foldl (disposeNode materials) d).geometries)
        ∧ (∀ u, n.material = some u → u ∈ (nodes.foldl (disposeNode materials) d).materials) := by
  induction nodes with
  | nil => intro d n hn; cases hn
  | cons a as ih =>
    intro d n hn hmesh
    rcases List.mem_cons.mp hn with h | h
    · subst h
      have h1 := disposeNode_records materials d n hmesh
      have h2 := foldl_disposeNode_mono materials as (disposeNode materials d n)
      exact ⟨fun g hg => h2.1 _ (h1.1 g hg), fun u hu => h2.2 _ (h1.2 u hu)⟩
    · exact ih _ n h hmesh

/-- A clone of the current model shares the geometry and the material of every node with the
model. -/
theorem makeClone_shares (m : Object3D) (center : Vector3) (ref : Nat) (n : Object3D)
    (hn : n ∈ (makeClone m true center (some m) ref).nodes) :
    ∃ n0 ∈ m.nodes, n0.isMesh = n.isMesh ∧ n0.geometry = n.geometry
      ∧ n0.material = n.material := by
  obtain ⟨r, type, name, isMesh, geometry, material, position, cast, receive, children⟩ := m
  simp only [makeClone, Object3D.clone, Object3D.nodes, if_true, List.mem_cons] at hn
  rcases hn with hn | hn
  · subst hn
    exact ⟨_, nodes_head _, rfl, rfl, rfl⟩
  · refine ⟨n, ?_, rfl, rfl, rfl⟩
    simp only [Object3D.nodes, List.mem_cons]
    exact Or.inr hn

theorem makeClone_children (m : Object3D) (center : Vector3) (ref : Nat) :
    (makeClone m true center (some m) ref).children = m.children
      ∧ (makeClone m true center (some m) ref).name = "model" := by
  obtain ⟨r, type, name, isMesh, geometry, material, position, cast, receive, children⟩ := m
  simp [makeClone, Object3D.clone]

theorem prepared_disposed (s : ViewManager) :
    (prepared s).disposed =
      match s.currentModel with
      | some model => model.nodes.foldl (disposeNode s.materials) s.disposed
      | none => s.disposed := by
  unfold prepared reset detached
  cases h : s.currentModel <;> simp [disposeTree, h]

theorem receivedRoot_children (s : ViewManager) (gltf : GLTF) :
    (recentered (receivedRoot s gltf)).children
      = Object3D.mapNodesOfList setShadows gltf.scene.children := by
  obtain ⟨scene, materials⟩ := gltf
  obtain ⟨ref, type, name, isMesh, geometry, material, position, cast, receive, children⟩ := scene
  simp only [receivedRoot, Object3D.mapNodes, recentered, setShadows]

/-- The clone that a displayed asset leaves in the orthogonal scene `key`. -/
theorem loaded_clone (s : ViewManager) (h : Initialized s) (modelUrl : Option String)
    (hurl : isFalsy modelUrl = false) (gltf : GLTF) (key : ViewKey) :
    ∃ scene ref, (loaded s modelUrl gltf).scenes key = some scene
      ∧ makeClone (recentered (receivedRoot s gltf)) true
          (Box3.getCenter (Box3.setFromObject (recentered (receivedRoot s gltf))))
          (some (recentered (receivedRoot s gltf))) ref ∈ scene.children := by
  have hai := attached_initialized _ (received_initialized s h gltf) (receivedRoot s gltf)
  have haf := attached_frame (received s gltf) (receivedRoot s gltf)
  have hli := loaded_initialized s h modelUrl gltf
  obtain ⟨scene, hscene⟩ := Option.isSome_iff_exists.mp (hli.scenes key)
  obtain ⟨scene0, hscene0⟩ := Option.isSome_iff_exists.mp (hai.scenes key)
  have hch := orthoViews_children (attached (received s gltf) (receivedRoot s gltf)) modelUrl key
  have e1 : childrenOf (orthoViews (attached (received s gltf) (receivedRoot s gltf)) modelUrl) key
      = scene.children := by
    have : (orthoViews (attached (received s gltf) (receivedRoot s gltf)) modelUrl).scenes key
        = some scene := hscene
    simp only [childrenOf, this]
  have e2 : modelToClone (attached (received s gltf) (receivedRoot s gltf)) modelUrl
      = recentered (receivedRoot s gltf) := by
    simp only [modelToClone, hurl, haf.1, Bool.false_eq_true, if_false]
  rw [e1, hscene0, e2, haf.1] at hch
  simp only [hurl, Bool.false_eq_true, if_false, Option.isNone_some, Bool.not_false] at hch
  refine ⟨scene, (attached (received s gltf) (receivedRoot s gltf)).nextId + keyIndex key,
    hscene, ?_⟩
  rw [hch]
  exact List.mem_append_right _ (List.mem_singleton_self _)

/-- Between the start of a load and its outcome: the clones of the asset displayed before are
still in the orthogonal scenes, and the geometry and the material of each of their meshes have
been disposed. -/
theorem stale_clones (s : ViewManager) (h : Initialized s) (modelUrl : Option String)
    (hurl : isFalsy modelUrl = false) (gltf : GLTF) (t : ViewManager)
    (hc : Cosmetic (loaded (prepared s) modelUrl gltf) t) (key : ViewKey) :
    ∃ scene clone, (prepared t).scenes key = some scene ∧ clone ∈ scene.children
      ∧ clone.name = "model"
      ∧ clone.children = Object3D.mapNodesOfList setShadows gltf.scene.children
      ∧ ∀ n ∈ clone.nodes, n.isMesh = true →
          (∀ g, n.geometry = some g → g.id ∈ (prepared t).disposed.geometries)
            ∧ (∀ u, n.material = some u → u ∈ (prepared t).disposed.materials) := by
  obtain ⟨scene, ref, hscene, hmem⟩ :=
    loaded_clone (prepared s) (prepared_initialized s h) modelUrl hurl gltf key
  have hcur := (loaded_frame (prepared s) modelUrl hurl gltf).2
  have hts : t.scenes = (loaded (prepared s) modelUrl gltf).scenes := by
    unfold Cosmetic at hc; rw [hc]
  have htc : t.currentModel = (loaded (prepared s) modelUrl gltf).currentModel := by
    unfold Cosmetic at hc; rw [hc]
  have hd := prepared_disposed t
  rw [htc, hcur] at hd
  simp only [] at hd
  refine ⟨scene, _, ?_, hmem, (makeClone_children _ _ _).2, ?_, ?_⟩
  · rw [(prepared_frame t).1, hts]; exact hscene
  · rw [(makeClone_children _ _ _).1]; exact receivedRoot_children _ _
  · intro n hn hmesh
    obtain ⟨n0, hn0, e1, e2, e3⟩ := makeClone_shares _ _ _ n hn
    have hrec := foldl_disposeNode_records t.materials _ t.disposed n0 hn0 (e1.trans hmesh)
    rw [hd, ← e2, ← e3]
    exact hrec

theorem mem_nodesOfList (l : List Object3D) (c : Object3D) (hc : c ∈ l) :
    c ∈ Object3D.nodesOfList l := by
  induction l with
  | nil => cases hc
  | cons a as ih =>
    simp only [Object3D.nodesOfList, List.mem_append]
    rcases List.mem_cons.mp hc with h | h
    · left; rw [← h]; exact nodes_head c
    · right; exact ih h

theorem mem_nodes_of_child (o c : Object3D) (hc : c ∈ o.children) : c ∈ o.nodes := by
  obtain ⟨r, type, name, isMesh, geometry, material, position, cast, receive, children⟩ := o
  simp only [Object3D.nodes, List.mem_cons]
  exact Or.inr (mem_nodesOfList _ _ hc)

theorem render_draws (s : ViewManager) (renderer : WebGLRenderer) (scene : Scene)
    (camera : PerspectiveCamera) (scenes : ViewKey → Scene) (cameras : ViewKey → OrthographicCamera)
    (hdirty : s.needsRender = true) (hr : s.renderer3D = some renderer)
    (hs : s.scene3D = some scene) (hc : s.camera3D = some camera)
    (hkeys : s.rendererKeys = some ViewKey.all)
    (hrs : ∀ key, (s.renderers key).isSome)
    (hss : ∀ key, s.scenes key = some (scenes key))
    (hcs : ∀ key, s.cameras key = some (cameras key)) :
    s.render.1.log = s.updateControls.log ++
      [Event.drawMain scene camera,
        Event.drawOrtho ViewKey.top (scenes ViewKey.top) (cameras ViewKey.top),
        Event.drawOrtho ViewKey.front (scenes ViewKey.front) (cameras ViewKey.front),
        Event.drawOrtho ViewKey.side (scenes ViewKey.side) (cameras ViewKey.side)] := by
  obtain ⟨r1, hr1⟩ := Option.isSome_iff_exists.mp (hrs ViewKey.top)
  obtain ⟨r2, hr2⟩ := Option.isSome_iff_exists.mp (hrs ViewKey.front)
  obtain ⟨r3, hr3⟩ := Option.isSome_iff_exists.mp (hrs ViewKey.side)
  have hu : s.updateControls.rendererKeys = some ViewKey.all
      ∧ s.updateControls.renderers = s.renderers ∧ s.updateControls.scenes = s.scenes
      ∧ s.updateControls.cameras = s.cameras := by
    unfold updateControls
    split
    · split <;> exact ⟨hkeys, rfl, rfl, rfl⟩
    · exact ⟨hkeys, rfl, rfl, rfl⟩
  simp only [render, hdirty, hr, hs, hc, hu.1]
  simp [forEachKey, ViewKey.all, andThen, drawView, hu.2.1, hu.2.2.1, hu.2.2.2, hr1, hr2, hr3,
    hss, hcs]

/-- The draw calls of `render()` in an initialized viewer whose flag is set: the perspective
scene, then the scenes `top`, `front` and `side` as they are at that moment. -/
theorem render_log (s : ViewManager) (h : Initialized s) (hdirty : s.needsRender = true) :
    ∃ (scene : Scene) (camera : PerspectiveCamera) (scenes : ViewKey → Scene)
      (cameras : ViewKey → OrthographicCamera),
      s.scene3D = some scene ∧ s.camera3D = some camera
        ∧ (∀ key, s.scenes key = some (scenes key))
        ∧ (∀ key, s.cameras key = some (cameras key))
        ∧ s.render.1.log = s.updateControls.log ++
          [Event.drawMain scene camera,
            Event.drawOrtho ViewKey.top (scenes ViewKey.top) (cameras ViewKey.top),
            Event.drawOrtho ViewKey.front (scenes ViewKey.front) (cameras ViewKey.front),
            Event.drawOrtho ViewKey.side (scenes ViewKey.side) (cameras ViewKey.side)] := by
  obtain ⟨renderer, hr⟩ := Option.isSome_iff_exists.mp h.renderer3D
  obtain ⟨scene, hs⟩ := Option.isSome_iff_exists.mp h.scene3D
  obtain ⟨camera, hc⟩ := Option.isSome_iff_exists.mp h.camera3D
  have hss : ∀ key, s.scenes key = some ((s.scenes key).get (h.scenes key)) :=
    fun key => (Option.some_get _).symm
  have hcs : ∀ key, s.cameras key = some ((s.cameras key).get (h.cameras key)) :=
    fun key => (Option.some_get _).symm
  exact ⟨scene, camera, fun key => (s.scenes key).get (h.scenes key),
    fun key => (s.cameras key).get (h.cameras key), hs, hc, hss, hcs,
    render_draws s renderer scene camera _ _ hdirty hr hs hc h.rendererKeys h.renderers hss hcs⟩

theorem sampleDisplay_eq :
    sampleDisplay.1 = loaded (prepared sampleViewer) (some "models/a.glb") sampleGltf := by
  unfold sampleDisplay
  rw [render3D_init _ initialized_sampleViewer]
  rfl

theorem secondLoad_eq : secondLoad = (prepared drawnDisplay, Promise.pending) := by
  have hi : Initialized drawnDisplay :=
    (cosmetic_animationFrame sampleDisplay.1).initialized (by
      rw [sampleDisplay_eq]
      exact loaded_initialized _ (prepared_initialized _ initialized_sampleViewer) _ _)
  have hl : drawnDisplay.loader = true := by rfl
  unfold secondLoad
  rw [render3DStart_init _ hi, hl]
  rfl

/-- A call of `markNeedsRender()` on a clean flag and an empty queue, followed by an animation
frame, runs `render()` once with the flag set. -/
theorem redraw_eq (s : ViewManager) (hclean : s.needsRender = false)
    (hq : s.frameRequests = []) :
    animationFrame s.markNeedsRender =
      ({ s with needsRender := true, boundRender := true, frameRequests := [] } :
        ViewManager).render.1 := by
  simp [markNeedsRender, hclean, animationFrame, hq, runCallback]

/-- The redraw that a call of `markNeedsRender()` and the next animation frame produce in an
initialized viewer with a clean flag, an empty queue and enabled controls: the controls are
updated and the four scenes are drawn as they are. -/
theorem redraw_log (s : ViewManager) (hi : Initialized s) (hclean : s.needsRender = false)
    (hq : s.frameRequests = [])
    (hen : s.controls.map (fun c => c.enabled) = some true) :
    ∃ (scene : Scene) (camera : PerspectiveCamera) (scenes : ViewKey → Scene)
      (cameras : ViewKey → OrthographicCamera),
      (∀ key, s.scenes key = some (scenes key))
        ∧ (animationFrame s.markNeedsRender).log = s.log ++
          [Event.controlsUpdate, Event.drawMain scene camera,
            Event.drawOrtho ViewKey.top (scenes ViewKey.top) (cameras ViewKey.top),
            Event.drawOrtho ViewKey.front (scenes ViewKey.front) (cameras ViewKey.front),
            Event.drawOrtho ViewKey.side (scenes ViewKey.side) (cameras ViewKey.side)] := by
  rw [redraw_eq _ hclean hq]
  have hi2 : Initialized ({ s with
      needsRender := true, boundRender := true, frameRequests := [] } : ViewManager) :=
    hi.of_fields rfl hi.scene3D hi.camera3D rfl hi.controls hi.scenes hi.cameras rfl rfl rfl
      hi.cameraKeys hi.sceneKeys rfl
  obtain ⟨scene, camera, scenes, cameras, -, -, hss, -, hlog⟩ := render_log _ hi2 rfl
  refine ⟨scene, camera, scenes, cameras, hss, ?_⟩
  rw [hlog]
  have hu : (({ s with needsRender := true, boundRender := true, frameRequests := [] } :
        ViewManager).updateControls).log = s.log ++ [Event.controlsUpdate] := by
    obtain ⟨c, hcs⟩ := Option.isSome_iff_exists.mp hi.controls
    rw [hcs] at hen
    simp only [Option.map_some', Option.some.injEq] at hen
    simp only [updateControls, hcs, hen, if_true]
  rw [hu, List.append_assoc]
  rfl

/-- C4 (defect of the code): in the sample viewer, `render3D("models/a.glb")` displays a group
with one mesh (geometry 500, material 600) and a frame draws it; nothing has been disposed
then. The start of `render3D("models/b.glb")` disposes geometry 500 and material 600 and
leaves the promise pending. A call of `markNeedsRender()` and an animation frame before the
load has an outcome draw the scenes `top`, `front` and `side`, each of which still holds the
clone tagged `model` whose mesh refers to geometry 500 and material 600. -/
theorem render3D_draws_disposed_clones :
    secondLoad.2 = Promise.pending
      ∧ drawnDisplay.disposed = ⟨[], [], []⟩
      ∧ 500 ∈ secondLoad.1.disposed.geometries ∧ 600 ∈ secondLoad.1.disposed.materials
      ∧ ∃ (scene : Scene) (camera : PerspectiveCamera) (scenes : ViewKey → Scene)
          (cameras : ViewKey → OrthographicCamera),
        (animationFrame secondLoad.1.markNeedsRender).log = secondLoad.1.log ++
          [Event.controlsUpdate, Event.drawMain scene camera,
            Event.drawOrtho ViewKey.top (scenes ViewKey.top) (cameras ViewKey.top),
            Event.drawOrtho ViewKey.front (scenes ViewKey.front) (cameras ViewKey.front),
            Event.drawOrtho ViewKey.side (scenes ViewKey.side) (cameras ViewKey.side)]
        ∧ ∀ key, ∃ clone ∈ (scenes key).children, clone.name = "model"
            ∧ ∃ mesh ∈ clone.children, mesh.isMesh = true
              ∧ mesh.geometry = some ⟨500, some sampleBox⟩ ∧ mesh.material = some 600 := by
  have hd : drawnDisplay
      = animationFrame (loaded (prepared sampleViewer) (some "models/a.glb") sampleGltf) := by
    unfold drawnDisplay
    rw [sampleDisplay_eq]
  have hc : Cosmetic (loaded (prepared sampleViewer) (some "models/a.glb") sampleGltf)
      drawnDisplay := by
    rw [hd]
    exact cosmetic_animationFrame _
  have hstale := stale_clones sampleViewer initialized_sampleViewer (some "models/a.glb") rfl
    sampleGltf drawnDisplay hc
  have hi : Initialized (prepared drawnDisplay) :=
    prepared_initialized _ (hc.initialized
      (loaded_initialized _ (prepared_initialized _ initialized_sampleViewer) _ _))
  have hclean : (prepared drawnDisplay).needsRender = false := by rfl
  have hq : (prepared drawnDisplay).frameRequests = [] := by rfl
  have hen : (prepared drawnDisplay).controls.map (fun c => c.enabled) = some true := by rfl
  have hmesh : (⟨1001, "Mesh", "part", true, some ⟨500, some sampleBox⟩, some 600, Vector3.zero,
      true, true, []⟩ : Object3D)
      ∈ Object3D.mapNodesOfList setShadows sampleGltf.scene.children := by
    simp [sampleGltf, Object3D.mapNodesOfList, Object3D.mapNodes, setShadows]
  rw [secondLoad_eq]
  simp only []
  refine ⟨trivial, by rfl, ?_, ?_, ?_⟩
  · obtain ⟨scene, clone, -, -, -, hch, hdisp⟩ := hstale ViewKey.top
    have hm := mem_nodes_of_child clone _ (by rw [hch]; exact hmesh)
    exact (hdisp _ hm rfl).1 _ rfl
  · obtain ⟨scene, clone, -, -, -, hch, hdisp⟩ := hstale ViewKey.top
    have hm := mem_nodes_of_child clone _ (by rw [hch]; exact hmesh)
    exact (hdisp _ hm rfl).2 _ rfl
  · obtain ⟨scene, camera, scenes, cameras, hss, hlog⟩ := redraw_log _ hi hclean hq hen
    refine ⟨scene, camera, scenes, cameras, hlog, ?_⟩
    intro key
    obtain ⟨scene0, clone, hscene, hmem, hname, hch, -⟩ := hstale key
    have e : scenes key = scene0 :=
      Option.some.inj ((hss key).symm.trans hscene)
    exact ⟨clone, by rw [e]; exact hmem, hname, _, by rw [hch]; exact hmesh, rfl, rfl, rfl⟩

theorem updateControls_eq (s : ViewManager) :
    s.updateControls = { s with log := s.log ++ controlsEvents s } := by
  cases s
  simp only [updateControls, controlsEvents]
  split
  · split <;> simp_all
  · simp

theorem render_clean (s : ViewManager) (h : s.needsRender = false) :
    s.render = (s, Completion.normal) := by
  simp [render, h]

/-- C11: in an initialized viewer whose dirty flag is set, one run of `render()` ends normally
and changes the state in two places only: the flag `needsRender` is false afterwards, and the
log of effects has grown by, in this order, `controls.update()` (only if the controls exist
and are enabled), one draw of the perspective scene with the perspective camera, and one draw
of each of the orthogonal scenes `top`, `front`, `side`, in that order, each with its own
camera. When the flag is not set, `render()` leaves the state, its log included, as it is. -/
theorem render_sequence (s : ViewManager) (h : Initialized s) :
    (s.needsRender = true →
      ∃ (scene : Scene) (camera : PerspectiveCamera) (scenes : ViewKey → Scene)
        (cameras : ViewKey → OrthographicCamera),
        s.scene3D = some scene ∧ s.camera3D = some camera
          ∧ (∀ key, s.scenes key = some (scenes key))
          ∧ (∀ key, s.cameras key = some (cameras key))
          ∧ s.render =
            ({ s with
              needsRender := false
              log := s.log ++ controlsEvents s ++
                [Event.drawMain scene camera,
                  Event.drawOrtho ViewKey.top (scenes ViewKey.top) (cameras ViewKey.top),
                  Event.drawOrtho ViewKey.front (scenes ViewKey.front) (cameras ViewKey.front),
                  Event.drawOrtho ViewKey.side (scenes ViewKey.side) (cameras ViewKey.side)] },
              Completion.normal))
      ∧ (s.needsRender = false → s.render = (s, Completion.normal)) := by
  refine ⟨fun hdirty => ?_, render_clean s⟩
  obtain ⟨renderer, hr⟩ := Option.isSome_iff_exists.mp h.renderer3D
  obtain ⟨scene, hs⟩ := Option.isSome_iff_exists.mp h.scene3D
  obtain ⟨camera, hc⟩ := Option.isSome_iff_exists.mp h.camera3D
  obtain ⟨r1, hr1⟩ := Option.isSome_iff_exists.mp (h.renderers ViewKey.top)
  obtain ⟨r2, hr2⟩ := Option.isSome_iff_exists.mp (h.renderers ViewKey.front)
  obtain ⟨r3, hr3⟩ := Option.isSome_iff_exists.mp (h.renderers ViewKey.side)
  obtain ⟨sc1, hsc1⟩ := Option.isSome_iff_exists.mp (h.scenes ViewKey.top)
  obtain ⟨sc2, hsc2⟩ := Option.isSome_iff_exists.mp (h.scenes ViewKey.front)
  obtain ⟨sc3, hsc3⟩ := Option.isSome_iff_exists.mp (h.scenes ViewKey.side)
  obtain ⟨c1, hc1⟩ := Option.isSome_iff_exists.mp (h.cameras ViewKey.top)
  obtain ⟨c2, hc2⟩ := Option.isSome_iff_exists.mp (h.cameras ViewKey.front)
  obtain ⟨c3, hc3⟩ := Option.isSome_iff_exists.mp (h.cameras ViewKey.side)
  refine ⟨scene, camera,
    fun key => match key with
      | ViewKey.top => sc1
      | ViewKey.front => sc2
      | ViewKey.side => sc3,
    fun key => match key with
      | ViewKey.top => c1
      | ViewKey.front => c2
      | ViewKey.side => c3,
    hs, hc, fun key => by cases key <;> assumption, fun key => by cases key <;> assumption, ?_⟩
  simp only [render, hdirty, hr, hs, hc, updateControls_eq, h.rendererKeys]
  simp [forEachKey, ViewKey.all, andThen, drawView, hr1, hr2, hr3, hsc1, hsc2, hsc3, hc1, hc2,
    hc3]

theorem render_sequence_witness :
    Initialized sampleViewer
      ∧ ((sampleViewer.needsRender = true →
        ∃ (scene : Scene) (camera : PerspectiveCamera) (scenes : ViewKey → Scene)
          (cameras : ViewKey → OrthographicCamera),
          sampleViewer.scene3D = some scene ∧ sampleViewer.camera3D = some camera
            ∧ (∀ key, sampleViewer.scenes key = some (scenes key))
            ∧ (∀ key, sampleViewer.cameras key = some (cameras key))
            ∧ sampleViewer.render =
              ({ sampleViewer with
                needsRender := false
                log := sampleViewer.log ++ controlsEvents sampleViewer ++
                  [Event.drawMain scene camera,
                    Event.drawOrtho ViewKey.top (scenes ViewKey.top) (cameras ViewKey.top),
                    Event.drawOrtho ViewKey.front (scenes ViewKey.front) (cameras ViewKey.front),
                    Event.drawOrtho ViewKey.side (scenes ViewKey.side) (cameras ViewKey.side)] },
                Completion.normal))
        ∧ (sampleViewer.needsRender = false → sampleViewer.render = (sampleViewer,
          Completion.normal))) :=
  ⟨initialized_sampleViewer, render_sequence sampleViewer initialized_sampleViewer⟩

theorem readElements_fields (s : ViewManager) (config : AppConfig) :
    (s.readElements config).canvas3d = s.window.getElementById config.CANVAS_IDS.main
      ∧ (s.readElements config).canvasTop = s.window.getElementById config.CANVAS_IDS.top
      ∧ (s.readElements config).canvasFront = s.window.getElementById config.CANVAS_IDS.front
      ∧ (s.readElements config).canvasSide = s.window.getElementById config.CANVAS_IDS.side :=
  ⟨rfl, rfl, rfl, rfl⟩

/-- The branch of `initialize()` taken when one of the four canvases is not in the document. -/
theorem initializeView_without_canvas (s : ViewManager) (config : AppConfig)
    (hconfig : s.window.AppConfig = some config)
    (hmissing : s.window.getElementById config.CANVAS_IDS.main = none
      ∨ s.window.getElementById config.CANVAS_IDS.top = none
      ∨ s.window.getElementById config.CANVAS_IDS.front = none
      ∨ s.window.getElementById config.CANVAS_IDS.side = none) :
    initializeView s =
      ((s.readElements config).consoleError "No se encontraron los canvas necesarios en el DOM",
        Completion.normal) := by
  have hf := readElements_fields s config
  have hcond : ((s.readElements config).canvas3d.isSome
      && (s.readElements config).canvasTop.isSome
      && (s.readElements config).canvasFront.isSome
      && (s.readElements config).canvasSide.isSome) = false := by
    rw [hf.1, hf.2.1, hf.2.2.1, hf.2.2.2]
    rcases hmissing with h | h | h | h <;> simp [h]
  simp only [initializeView, hconfig]
  rw [if_neg (by rw [hcond]; simp)]

/-- C12: if `window.AppConfig` is absent, or the configuration is there and one of the four
canvases `canvas-3d`, `canvas-top`, `canvas-front`, `canvas-side` is not in the document, then
`initialize()` ends normally, logs exactly one error (`AppConfig no está disponible`, or
`No se encontraron los canvas necesarios en el DOM`), and leaves the perspective scene, camera,
renderer and controls, the orthogonal scenes, cameras and renderers, the flag `needsRender`,
`boundRender` and the queue of `requestAnimationFrame` as they were: in a viewer just
constructed these are null, false and empty. -/
theorem initialize_inert (s : ViewManager)
    (hfail : s.window.AppConfig = none
      ∨ ∃ config, s.window.AppConfig = some config
        ∧ (s.window.getElementById config.CANVAS_IDS.main = none
          ∨ s.window.getElementById config.CANVAS_IDS.top = none
          ∨ s.window.getElementById config.CANVAS_IDS.front = none
          ∨ s.window.getElementById config.CANVAS_IDS.side = none)) :
    (initializeView s).2 = Completion.normal
      ∧ (initializeView s).1.log = s.log ++
        [Event.consoleError
          (if s.window.AppConfig.isNone then "AppConfig no está disponible"
            else "No se encontraron los canvas necesarios en el DOM")]
      ∧ (initializeView s).1.scene3D = s.scene3D
      ∧ (initializeView s).1.camera3D = s.camera3D
      ∧ (initializeView s).1.renderer3D = s.renderer3D
      ∧ (initializeView s).1.controls = s.controls
      ∧ (initializeView s).1.scenes = s.scenes
      ∧ (initializeView s).1.cameras = s.cameras
      ∧ (initializeView s).1.renderers = s.renderers
      ∧ (initializeView s).1.rendererKeys = s.rendererKeys
      ∧ (initializeView s).1.needsRender = s.needsRender
      ∧ (initializeView s).1.boundRender = s.boundRender
      ∧ (initializeView s).1.frameRequests = s.frameRequests := by
  rcases hfail with hnone | ⟨config, hconfig, hmissing⟩
  · have h : initializeView s = (s.consoleError "AppConfig no está disponible",
        Completion.normal) := by
      simp only [initializeView, hnone]
    rw [h, hnone]
    exact ⟨rfl, rfl, rfl, rfl, rfl, rfl, rfl, rfl, rfl, rfl, rfl, rfl, rfl⟩
  · rw [initializeView_without_canvas s config hconfig hmissing, hconfig]
    exact ⟨rfl, rfl, rfl, rfl, rfl, rfl, rfl, rfl, rfl, rfl, rfl, rfl, rfl⟩

theorem initialize_inert_witness :
    ((create pageWithoutCanvases).window.AppConfig = none
      ∨ ∃ config, (create pageWithoutCanvases).window.AppConfig = some config
        ∧ ((create pageWithoutCanvases).window.getElementById config.CANVAS_IDS.main = none
          ∨ (create pageWithoutCanvases).window.getElementById config.CANVAS_IDS.top = none
          ∨ (create pageWithoutCanvases).window.getElementById config.CANVAS_IDS.front = none
          ∨ (create pageWithoutCanvases).window.getElementById config.CANVAS_IDS.side = none))
      ∧ (create pageWithoutCanvases).scene3D = none
      ∧ (create pageWithoutCanvases).needsRender = false
      ∧ (create pageWithoutCanvases).frameRequests = []
      ∧ (initializeView (create pageWithoutCanvases)).2 = Completion.normal
      ∧ (initializeView (create pageWithoutCanvases)).1.log = (create pageWithoutCanvases).log ++
        [Event.consoleError
          (if (create pageWithoutCanvases).window.AppConfig.isNone then
            "AppConfig no está disponible"
            else "No se encontraron los canvas necesarios en el DOM")]
      ∧ (initializeView (create pageWithoutCanvases)).1.scene3D
        = (create pageWithoutCanvases).scene3D
      ∧ (initializeView (create pageWithoutCanvases)).1.camera3D
        = (create pageWithoutCanvases).camera3D
      ∧ (initializeView (create pageWithoutCanvases)).1.renderer3D
        = (create pageWithoutCanvases).renderer3D
      ∧ (initializeView (create pageWithoutCanvases)).1.controls
        = (create pageWithoutCanvases).controls
      ∧ (initializeView (create pageWithoutCanvases)).1.scenes
        = (create pageWithoutCanvases).scenes
      ∧ (initializeView (create pageWithoutCanvases)).1.cameras
        = (create pageWithoutCanvases).cameras
      ∧ (initializeView (create pageWithoutCanvases)).1.renderers
        = (create pageWithoutCanvases).renderers
      ∧ (initializeView (create pageWithoutCanvases)).1.rendererKeys
        = (create pageWithoutCanvases).rendererKeys
      ∧ (initializeView (create pageWithoutCanvases)).1.needsRender
        = (create pageWithoutCanvases).needsRender
      ∧ (initializeView (create pageWithoutCanvases)).1.boundRender
        = (create pageWithoutCanvases).boundRender
      ∧ (initializeView (create pageWithoutCanvases)).1.frameRequests
        = (create pageWithoutCanvases).frameRequests :=
  ⟨Or.inr ⟨appConfig, rfl, Or.inl rfl⟩, rfl, rfl, rfl,
    initialize_inert (create pageWithoutCanvases) (Or.inr ⟨appConfig, rfl, Or.inl rfl⟩)⟩

theorem markDisposed_of_mem (id : Nat) (l : List Nat) (h : id ∈ l) : markDisposed id l = l :=
  if_pos h

/-- The disposal callback changes nothing at a node whose resources have been released. -/
theorem disposeNode_of_released (materials : Nat → Material) (d : Disposed) (n : Object3D)
    (h : Released materials d n) : disposeNode materials d n = d := by
  obtain ⟨gs, ms, ts⟩ := d
  unfold disposeNode
  rcases hmesh : n.isMesh with _ | _
  · simp
  · have h1 := h hmesh
    simp only [if_true]
    rcases hg : n.geometry with _ | g <;> rcases hm : n.material with _ | u
    · rfl
    · have hu : u ∈ ms := (h1.2 u hm).1
      rcases ht : (materials u).map with _ | t
      · simp only [ht, markDisposed_of_mem _ _ hu]
      · have htt : t ∈ ts := (h1.2 u hm).2 t ht
        simp only [ht, markDisposed_of_mem _ _ hu, markDisposed_of_mem _ _ htt]
    · have hgg : g.id ∈ gs := h1.1 g hg
      simp only [markDisposed_of_mem _ _ hgg]
    · have hu : u ∈ ms := (h1.2 u hm).1
      have hgg : g.id ∈ gs := h1.1 g hg
      rcases ht : (materials u).map with _ | t
      · simp only [ht, markDisposed_of_mem _ _ hu, markDisposed_of_mem _ _ hgg]
      · have htt : t ∈ ts := (h1.2 u hm).2 t ht
        simp only [ht, markDisposed_of_mem _ _ hu, markDisposed_of_mem _ _ hgg,
          markDisposed_of_mem _ _ htt]

theorem disposeNode_textures (materials : Nat → Material) (d : Disposed) (n : Object3D) :
    (∀ x ∈ d.textures, x ∈ (disposeNode materials d n).textures)
      ∧ (n.isMesh = true → ∀ u, n.material = some u → ∀ t, (materials u).map = some t →
        t ∈ (disposeNode materials d n).textures) := by
  constructor
  · intro x hx
    unfold disposeNode
    cases n.isMesh
    · exact hx
    · cases n.geometry <;> cases n.material <;> simp only [if_true]
      · exact hx
      · split
        · exact markDisposed_subset _ _ _ hx
        · exact hx
      · exact hx
      · split
        · exact markDisposed_subset _ _ _ hx
        · exact hx
  · intro hmesh u hu t ht
    unfold disposeNode
    rw [hmesh, hu]
    simp only [if_true, ht]
    exact markDisposed_mem _ _

theorem released_step (materials : Nat → Material) (d : Disposed) (n : Object3D) :
    Released materials (disposeNode materials d n) n := by
  intro hmesh
  have h1 := disposeNode_records materials d n hmesh
  have h2 := disposeNode_textures materials d n
  exact ⟨h1.1, fun u hu => ⟨h1.2 u hu, fun t ht => h2.2 hmesh u hu t ht⟩⟩

theorem released_mono (materials : Nat → Material) (d : Disposed) (n m : Object3D)
    (h : Released materials d n) : Released materials (disposeNode materials d m) n := by
  intro hmesh
  have h0 := h hmesh
  have h1 := disposeNode_mono materials d m
  have h2 := disposeNode_textures materials d m
  exact ⟨fun g hg => h1.1 _ (h0.1 g hg),
    fun u hu => ⟨h1.2 _ (h0.2 u hu).1, fun t ht => h2.1 _ ((h0.2 u hu).2 t ht)⟩⟩

theorem foldl_released_mono (materials : Nat → Material) (nodes : List Object3D) :
    ∀ (d : Disposed) (n : Object3D), Released materials d n →
      Released materials (nodes.foldl (disposeNode materials) d) n := by
  induction nodes with
  | nil => intro d n h; exact h
  | cons a as ih => intro d n h; exact ih _ n (released_mono materials d n a h)

/-- After the disposal traversal the resources of every visited node have been released. -/
theorem foldl_released (materials : Nat → Material) (nodes : List Object3D) :
    ∀ (d : Disposed), ∀ n ∈ nodes,
      Released materials (nodes.foldl (disposeNode materials) d) n := by
  induction nodes with
  | nil => intro d n hn; cases hn
  | cons a as ih =>
    intro d n hn
    rcases List.mem_cons.mp hn with h | h
    · subst h
      exact foldl_released_mono materials as _ n (released_step materials d n)
    · exact ih _ n h

theorem foldl_disposeNode_fixed (materials : Nat → Material) (nodes : List Object3D)
    (d : Disposed) (h : ∀ n ∈ nodes, Released materials d n) :
    nodes.foldl (disposeNode materials) d = d := by
  induction nodes with
  | nil => rfl
  | cons a as ih =>
    simp only [List.foldl_cons]
    rw [disposeNode_of_released materials d a (h a (List.mem_cons_self _ _))]
    exact ih fun n hn => h n (List.mem_cons_of_mem _ hn)

/-- The disposal traversal run a second time over the same tree releases nothing more. -/
theorem foldl_disposeNode_idem (materials : Nat → Material) (nodes : List Object3D)
    (d : Disposed) :
    nodes.foldl (disposeNode materials) (nodes.foldl (disposeNode materials) d)
      = nodes.foldl (disposeNode materials) d :=
  foldl_disposeNode_fixed materials nodes _ (foldl_released materials nodes d)

theorem foldl_disposeNode_no_mesh (materials : Nat → Material) (nodes : List Object3D)
    (d : Disposed) (h : ∀ n ∈ nodes, n.isMesh = false) :
    nodes.foldl (disposeNode materials) d = d :=
  foldl_disposeNode_fixed materials nodes d fun n hn hmesh => by
    rw [h n hn] at hmesh; cases hmesh

theorem removeChild_idem (ref : Nat) (l : List Object3D)
    (h : (l.map fun o => o.ref).Nodup) :
    removeChild ref (removeChild ref l) = removeChild ref l := by
  induction l with
  | nil => rfl
  | cons o os ih =>
    simp only [List.map_cons, List.nodup_cons] at h
    by_cases ho : o.ref = ref
    · simp only [removeChild, ho, if_true]
      apply removeChild_of_not_mem
      intro x hx hxr
      exact h.1 (List.mem_map.mpr ⟨x, hx, by rw [hxr, ho]⟩)
    · simp only [removeChild, ho, if_false]
      rw [ih h.2]

/-- The first block of `render3D` in a viewer that has a perspective scene. -/
theorem disposeCurrent_of_scene (s : ViewManager) (h : s.scene3D.isSome) :
    s.disposeCurrent = (detached s, Completion.normal) := by
  obtain ⟨scene, hscene⟩ := Option.isSome_iff_exists.mp h
  unfold disposeCurrent detached
  cases s.currentModel with
  | none => rfl
  | some model => simp [disposeTree, hscene]

theorem detached_some (s : ViewManager) (model : Object3D) (h : s.currentModel = some model) :
    detached s =
      { s with
        disposed := model.nodes.foldl (disposeNode s.materials) s.disposed
        scene3D := s.scene3D.map fun (scene : Scene) => scene.remove model.ref } := by
  simp only [detached, h, disposeTree]

theorem detached_none (s : ViewManager) (h : s.currentModel = none) : detached s = s := by
  simp only [detached, h]

theorem detached_idem (s : ViewManager)
    (hnodup : ((children3D s).map fun o => o.ref).Nodup) : detached (detached s) = detached s := by
  rcases hm : s.currentModel with _ | model
  · rw [detached_none s hm, detached_none s hm]
  · have e := detached_some s model hm
    have hm2 : (detached s).currentModel = some model := by rw [e]; exact hm
    rw [detached_some _ model hm2, e]
    have hD := foldl_disposeNode_idem s.materials model.nodes s.disposed
    have hX : (s.scene3D.map fun (scene : Scene) => scene.remove model.ref).map
        (fun (scene : Scene) => scene.remove model.ref)
        = s.scene3D.map fun (scene : Scene) => scene.remove model.ref := by
      rcases hs : s.scene3D with _ | scene
      · rfl
      · simp only [children3D, hs] at hnodup
        simp only [Option.map_some', Scene.remove, removeChild_idem _ _ hnodup]
    simp only [hD, hX]

theorem oldClones_filtered (scene : Scene) :
    oldClones { scene with children := scene.children.filter fun o => o.name ≠ "model" } = [] := by
  simp only [oldClones]
  rw [List.filter_eq_nil_iff]
  intro o ho
  have h1 := List.mem_filter.mp (List.mem_reverse.mp ho)
  simpa using h1.2

/-- The disposal block of `renderOrthogonalViews` for the scene `key`, run twice. -/
theorem clearScene_idem (s : ViewManager) (key : ViewKey) (h : (s.scenes key).isSome) :
    (clearScene key s).2 = Completion.normal
      ∧ clearScene key (clearScene key s).1 = clearScene key s := by
  obtain ⟨scene, hscene⟩ := Option.isSome_iff_exists.mp h
  have e : clearScene key s =
      ({ s with
        disposed := disposeAll s.materials s.disposed (oldClones scene)
        scenes := Function.update s.scenes key
          (some { scene with children := scene.children.filter fun o => o.name ≠ "model" }) },
        Completion.normal) := by
    simp only [clearScene, hscene]
  rw [e]
  refine ⟨rfl, ?_⟩
  simp only [clearScene, Function.update_same, oldClones_filtered, disposeAll, List.foldl_nil,
    Function.update_idem, List.filter_filter, Bool.and_self]

/-- C13 (as stated, refuted): in the sample viewer after the display of a group without a mesh,
the current model has no mesh and is the fifth child of the perspective scene; the disposal
block of `render3D` ends normally and changes the state: the scene has four children
afterwards, the model is detached. -/
theorem disposeCurrent_detaches_meshless :
    emptyDisplay.1.currentModel.map (fun m => m.nodes.map fun n => n.isMesh) = some [false]
      ∧ ((children3D emptyDisplay.1).map fun o => o.ref) = [0, 1, 2, 3, 13]
      ∧ emptyDisplay.1.currentModel.map (fun m => m.ref) = some 13
      ∧ emptyDisplay.1.disposeCurrent.2 = Completion.normal
      ∧ ((children3D emptyDisplay.1.disposeCurrent.1).map fun o => o.ref) = [0, 1, 2, 3]
      ∧ emptyDisplay.1.disposeCurrent.1.disposed = emptyDisplay.1.disposed
      ∧ emptyDisplay.1.disposeCurrent.1 ≠ emptyDisplay.1 := by
  have h1 : ((children3D emptyDisplay.1).map fun o => o.ref) = [0, 1, 2, 3, 13] := by rfl
  have h2 : ((children3D emptyDisplay.1.disposeCurrent.1).map fun o => o.ref) = [0, 1, 2, 3] := by
    rfl
  refine ⟨by rfl, h1, by rfl, by rfl, h2, by rfl, fun h => ?_⟩
  rw [h, h1] at h2
  exact absurd h2 (by decide)

/-- C13 (amended): in a viewer that has a perspective scene in which no object is a child
twice, the disposal block of `render3D` (the traversal that releases the geometry, the map and
the material of every mesh of the current model, then `scene3D.remove`) ends normally, and run
again on the state it left it ends normally and leaves that state as it is. The same holds for
the disposal block of `renderOrthogonalViews` on every orthogonal scene that exists. Without a
current model the block of `render3D` changes nothing. For a current model without a mesh the
traversal releases nothing, and the block changes the state only by detaching the model from
the perspective scene. -/
theorem disposal_idempotent (s : ViewManager) (hscene : s.scene3D.isSome)
    (hnodup : ((children3D s).map fun o => o.ref).Nodup) :
    (s.disposeCurrent.2 = Completion.normal
        ∧ s.disposeCurrent.1.disposeCurrent = s.disposeCurrent)
      ∧ (∀ key, (s.scenes key).isSome →
        (clearScene key s).2 = Completion.normal
          ∧ clearScene key (clearScene key s).1 = clearScene key s)
      ∧ (s.currentModel = none → s.disposeCurrent = (s, Completion.normal))
      ∧ (∀ model, (∀ n ∈ model.nodes, n.isMesh = false) → s.disposeTree model = s)
      ∧ (∀ model, s.currentModel = some model → (∀ n ∈ model.nodes, n.isMesh = false) →
        s.disposeCurrent =
          ({ s with scene3D := s.scene3D.map fun (scene : Scene) => scene.remove model.ref },
            Completion.normal)) := by
  have hd := disposeCurrent_of_scene s hscene
  have hscene2 : (detached s).scene3D.isSome := by
    rcases hm : s.currentModel with _ | model
    · rw [detached_none s hm]; exact hscene
    · rw [detached_some s model hm]
      simpa using hscene
  have htree : ∀ model, (∀ n ∈ model.nodes, n.isMesh = false) → s.disposeTree model = s := by
    intro model hno
    simp only [disposeTree, foldl_disposeNode_no_mesh s.materials model.nodes s.disposed hno]
  refine ⟨⟨by rw [hd], ?_⟩, fun key hk => clearScene_idem s key hk, fun hnone => ?_, htree,
    fun model hm hno => ?_⟩
  · rw [hd]
    simp only []
    rw [disposeCurrent_of_scene _ hscene2, detached_idem s hnodup]
  · rw [hd, detached_none s hnone]
  · rw [hd, detached_some s model hm,
      foldl_disposeNode_no_mesh s.materials model.nodes s.disposed hno]

theorem disposal_idempotent_witness :
    sampleDisplay.1.scene3D.isSome
      ∧ ((children3D sampleDisplay.1).map fun o => o.ref).Nodup
      ∧ ((sampleDisplay.1.disposeCurrent.2 = Completion.normal
          ∧ sampleDisplay.1.disposeCurrent.1.disposeCurrent = sampleDisplay.1.disposeCurrent)
        ∧ (∀ key, (sampleDisplay.1.scenes key).isSome →
          (clearScene key sampleDisplay.1).2 = Completion.normal
            ∧ clearScene key (clearScene key sampleDisplay.1).1
              = clearScene key sampleDisplay.1)
        ∧ (sampleDisplay.1.currentModel = none →
          sampleDisplay.1.disposeCurrent = (sampleDisplay.1, Completion.normal))
        ∧ (∀ model, (∀ n ∈ model.nodes, n.isMesh = false) →
          sampleDisplay.1.disposeTree model = sampleDisplay.1)
        ∧ (∀ model, sampleDisplay.1.currentModel = some model →
          (∀ n ∈ model.nodes, n.isMesh = false) →
          sampleDisplay.1.disposeCurrent =
            ({ sampleDisplay.1 with
              scene3D := sampleDisplay.1.scene3D.map fun (scene : Scene) =>
                scene.remove model.ref },
              Completion.normal))) :=
  have h1 : ((children3D sampleDisplay.1).map fun o => o.ref) = [0, 1, 2, 3, 13] := by rfl
  have h2 : ((children3D sampleDisplay.1).map fun o => o.ref).Nodup := by rw [h1]; decide
  ⟨by rfl, h2, disposal_idempotent sampleDisplay.1 (by rfl) h2⟩

end ViewManager

namespace ModelManager

theorem index_of_neg (array : List Value) (index : Int) (h : index < 0) :
    Value.index array index = Value.undefined := by
  simp [Value.index, not_le.mpr h]

theorem index_of_ge (array : List Value) (index : Int) (h : (array.length : Int) ≤ index) :
    Value.index array index = Value.undefined := by
  have h0 : 0 ≤ index := le_trans (Int.ofNat_nonneg _) h
  have h1 : array.length ≤ index.toNat := by omega
  simp [Value.index, h0, List.getElem?_eq_none h1]

/-- C14 (as stated, refuted): with `availableModels = [7]`, as a manifest `{"models": [7]}`
leaves it, and `currentIndex = 0`, `getCurrentModelUrl()` returns the number 7, which is
neither a string nor `null`. -/
theorem getCurrentModelUrl_number :
    numberedManager.getCurrentModelUrl = Value.number 7
      ∧ numberedManager.getCurrentModelUrl ≠ Value.null
      ∧ ∀ s, numberedManager.getCurrentModelUrl ≠ Value.string s := by
  have h : numberedManager.getCurrentModelUrl = Value.number 7 := by
    simp [getCurrentModelUrl, numberedManager, Value.index, Value.or, Value.truthy]
  rw [h]
  exact ⟨rfl, by simp, by simp⟩

/-- C14 (amended): for every list `availableModels` and every integer `currentIndex`,
`getCurrentModelUrl()` returns the entry `availableModels[currentIndex]` when that entry is
truthy, and `null` in every other case: index out of range, or an entry that is `null`,
`false`, 0 or the empty string. It never returns `undefined`. An entry that is a non-empty
string is returned, and when every entry of the list is a string or `null` the result is a
non-empty string or `null`. -/
theorem getCurrentModelUrl_spec (m : ModelManager) :
    ((Value.index m.availableModels m.currentIndex).truthy = true →
        m.getCurrentModelUrl = Value.index m.availableModels m.currentIndex)
      ∧ ((Value.index m.availableModels m.currentIndex).truthy = false →
        m.getCurrentModelUrl = Value.null)
      ∧ ((m.currentIndex < 0 ∨ (m.availableModels.length : Int) ≤ m.currentIndex) →
        m.getCurrentModelUrl = Value.null)
      ∧ (∀ s, Value.index m.availableModels m.currentIndex = Value.string s → s ≠ "" →
        m.getCurrentModelUrl = Value.string s)
      ∧ (Value.index m.availableModels m.currentIndex = Value.string "" →
        m.getCurrentModelUrl = Value.null)
      ∧ (Value.index m.availableModels m.currentIndex = Value.null →
        m.getCurrentModelUrl = Value.null)
      ∧ m.getCurrentModelUrl ≠ Value.undefined
      ∧ ((∀ v ∈ m.availableModels, v = Value.null ∨ ∃ s, v = Value.string s) →
        m.getCurrentModelUrl = Value.null
          ∨ ∃ s, s ≠ "" ∧ m.getCurrentModelUrl = Value.string s) := by
  have htrue : (Value.index m.availableModels m.currentIndex).truthy = true →
      m.getCurrentModelUrl = Value.index m.availableModels m.currentIndex := by
    intro h
    simp [getCurrentModelUrl, Value.or, h]
  have hfalse : (Value.index m.availableModels m.currentIndex).truthy = false →
      m.getCurrentModelUrl = Value.null := by
    intro h
    simp [getCurrentModelUrl, Value.or, h]
  refine ⟨htrue, hfalse, ?_, ?_, ?_, ?_, ?_, ?_⟩
  · intro h
    apply hfalse
    rcases h with h | h
    · rw [index_of_neg _ _ h]; rfl
    · rw [index_of_ge _ _ h]; rfl
  · intro s hs hne
    rw [htrue (by rw [hs]; simpa [Value.truthy] using hne), hs]
  · intro hs
    exact hfalse (by rw [hs]; simp [Value.truthy])
  · intro hs
    exact hfalse (by rw [hs]; rfl)
  · intro hu
    cases ht : (Value.index m.availableModels m.currentIndex).truthy
    · rw [hfalse ht] at hu; cases hu
    · rw [htrue ht] at hu
      rw [hu] at ht
      cases ht
  · intro hall
    cases ht : (Value.index m.availableModels m.currentIndex).truthy
    · exact Or.inl (hfalse ht)
    · right
      rw [htrue ht]
      have hmem : Value.index m.availableModels m.currentIndex ∈ m.availableModels := by
        unfold Value.index at ht ⊢
        split at ht
        · rename_i h0
          rw [if_pos h0]
          cases hg : m.availableModels[m.currentIndex.toNat]? with
          | none => rw [hg] at ht; cases ht
          | some v => exact List.getElem?_mem hg
        · cases ht
      rcases hall _ hmem with h | ⟨s, h⟩
      · rw [h] at ht; cases ht
      · refine ⟨s, ?_, h⟩
        rw [h] at ht
        simpa [Value.truthy] using ht

/-- C15: for a manager whose index is in range, `0 <= currentIndex < availableModels.length`
(so the list is not empty), each of `nextModel()`, `prevModel()` and `setCurrentIndex(i)` for
every integer `i` leaves the list as it is and the index in range. `nextModel()` returns false
exactly at the last index and otherwise adds one to the index; `prevModel()` returns false
exactly at index 0 and otherwise subtracts one; `setCurrentIndex(i)` returns false exactly when
`i < 0` or `i >= availableModels.length` and otherwise sets the index to `i`. An operation that
returns false leaves the manager as it is. -/
theorem navigation_in_range (m : ModelManager) (h0 : 0 ≤ m.currentIndex)
    (h1 : m.currentIndex < m.availableModels.length) :
    (0 ≤ m.nextModel.1.currentIndex
        ∧ m.nextModel.1.currentIndex < m.nextModel.1.availableModels.length
        ∧ (m.nextModel.2 = false ↔ m.currentIndex = (m.availableModels.length : Int) - 1)
        ∧ (m.nextModel.2 = false → m.nextModel.1 = m)
        ∧ (m.nextModel.2 = true →
          m.nextModel.1 = { m with currentIndex := m.currentIndex + 1 }))
      ∧ (0 ≤ m.prevModel.1.currentIndex
        ∧ m.prevModel.1.currentIndex < m.prevModel.1.availableModels.length
        ∧ (m.prevModel.2 = false ↔ m.currentIndex = 0)
        ∧ (m.prevModel.2 = false → m.prevModel.1 = m)
        ∧ (m.prevModel.2 = true →
          m.prevModel.1 = { m with currentIndex := m.currentIndex - 1 }))
      ∧ ∀ i : Int,
        0 ≤ (m.setCurrentIndex i).1.currentIndex
          ∧ (m.setCurrentIndex i).1.currentIndex < (m.setCurrentIndex i).1.availableModels.length
          ∧ ((m.setCurrentIndex i).2 = false ↔ (i < 0 ∨ (m.availableModels.length : Int) ≤ i))
          ∧ ((m.setCurrentIndex i).2 = false → (m.setCurrentIndex i).1 = m)
          ∧ ((m.setCurrentIndex i).2 = true →
            (m.setCurrentIndex i).1 = { m with currentIndex := i }) := by
  refine ⟨?_, ?_, fun i => ?_⟩
  · unfold nextModel
    split
    · rename_i h
      refine ⟨by simp only []; omega, by simp only []; omega, ?_, ?_, fun _ => rfl⟩
      · simp only [Bool.true_eq_false, false_iff]; omega
      · intro hf; cases hf
    · rename_i h
      refine ⟨h0, h1, ?_, fun _ => rfl, ?_⟩
      · simp only [true_iff]; omega
      · intro hf; cases hf
  · unfold prevModel
    split
    · rename_i h
      refine ⟨by simp only []; omega, by simp only []; omega, ?_, ?_, fun _ => rfl⟩
      · simp only [Bool.true_eq_false, false_iff]; omega
      · intro hf; cases hf
    · rename_i h
      refine ⟨h0, h1, ?_, fun _ => rfl, ?_⟩
      · simp only [true_iff]; omega
      · intro hf; cases hf
  · unfold setCurrentIndex
    split
    · rename_i h
      refine ⟨h.1, h.2, ?_, ?_, fun _ => rfl⟩
      · simp only [Bool.true_eq_false, false_iff]; omega
      · intro hf; cases hf
    · rename_i h
      refine ⟨h0, h1, ?_, fun _ => rfl, ?_⟩
      · simp only [true_iff]; omega
      · intro hf; cases hf

theorem navigation_in_range_witness :
    0 ≤ sampleManager.currentIndex
      ∧ sampleManager.currentIndex < sampleManager.availableModels.length
      ∧ ((0 ≤ sampleManager.nextModel.1.currentIndex
          ∧ sampleManager.nextModel.1.currentIndex
            < sampleManager.nextModel.1.availableModels.length
          ∧ (sampleManager.nextModel.2 = false ↔
            sampleManager.currentIndex = (sampleManager.availableModels.length : Int) - 1)
          ∧ (sampleManager.nextModel.2 = false → sampleManager.nextModel.1 = sampleManager)
          ∧ (sampleManager.nextModel.2 = true →
            sampleManager.nextModel.1 =
              { sampleManager with currentIndex := sampleManager.currentIndex + 1 }))
        ∧ (0 ≤ sampleManager.prevModel.1.currentIndex
          ∧ sampleManager.prevModel.1.currentIndex
            < sampleManager.prevModel.1.availableModels.length
          ∧ (sampleManager.prevModel.2 = false ↔ sampleManager.currentIndex = 0)
          ∧ (sampleManager.prevModel.2 = false → sampleManager.prevModel.1 = sampleManager)
          ∧ (sampleManager.prevModel.2 = true →
            sampleManager.prevModel.1 =
              { sampleManager with currentIndex := sampleManager.currentIndex - 1 }))
        ∧ ∀ i : Int,
          0 ≤ (sampleManager.setCurrentIndex i).1.currentIndex
            ∧ (sampleManager.setCurrentIndex i).1.currentIndex
              < (sampleManager.setCurrentIndex i).1.availableModels.length
            ∧ ((sampleManager.setCurrentIndex i).2 = false ↔
              (i < 0 ∨ (sampleManager.availableModels.length : Int) ≤ i))
            ∧ ((sampleManager.setCurrentIndex i).2 = false →
              (sampleManager.setCurrentIndex i).1 = sampleManager)
            ∧ ((sampleManager.setCurrentIndex i).2 = true →
              (sampleManager.setCurrentIndex i).1 = { sampleManager with currentIndex := i })) :=
  ⟨by decide, by decide, navigation_in_range sampleManager (by decide) (by decide)⟩

end ModelManager

namespace AppController

theorem updateView_frame (c : AppController) :
    c.updateView.modelManager = c.modelManager
      ∧ c.updateView.isRendering = true
      ∧ c.updateView.render3DCalls =
        (if c.isRendering then c.render3DCalls
          else c.render3DCalls ++ [c.modelManager.getCurrentModelUrl])
      ∧ c.updateView.inFlight = (if c.isRendering then c.inFlight else c.inFlight + 1)
      ∧ c.updateView.errors = c.errors
      ∧ c.updateView.keydownHandler = c.keydownHandler := by
  unfold updateView updateModelNumber
  cases hr : c.isRendering <;> cases hc : c.canvas3d <;> simp [hr, hc]

theorem updateView_ui (c : AppController) :
    c.updateView.currentModelLabel = c.currentModelLabel.map (fun (_ : Label) =>
        (⟨toString (c.modelManager.currentIndex + 1) ++ "/"
          ++ toString c.modelManager.availableModels.length⟩ : Label))
      ∧ c.updateView.nextBtn = c.nextBtn.map (fun (_ : Button) =>
        (⟨decide (c.modelManager.currentIndex
          ≥ (c.modelManager.availableModels.length : Int) - 1)⟩ : Button))
      ∧ c.updateView.prevBtn = c.prevBtn.map (fun (_ : Button) =>
        (⟨decide (c.modelManager.currentIndex ≤ 0)⟩ : Button))
      ∧ c.updateView.modelNumberInput = c.modelNumberInput.map (fun (_ : NumberInput) =>
        (⟨decide (c.modelManager.availableModels.length ≤ 1), 1,
          c.modelManager.availableModels.length, c.modelManager.currentIndex + 1⟩ :
            NumberInput)) := by
  unfold updateView updateModelNumber
  cases hr : c.isRendering <;> cases hc : c.canvas3d <;> cases hi : c.modelNumberInput <;>
    simp [hr, hc, hi]

theorem settle_frame (c : AppController) (rejection : Option String) :
    (c.settle rejection).modelManager = c.modelManager
      ∧ (c.settle rejection).render3DCalls = c.render3DCalls
      ∧ (c.settle rejection).inFlight = c.inFlight - 1
      ∧ (c.settle rejection).isRendering = (decide (c.inFlight = 0) && c.isRendering)
      ∧ (c.settle rejection).currentModelLabel = c.currentModelLabel := by
  unfold settle
  by_cases h : c.inFlight = 0 <;> simp [h]

theorem oneLoad_updateView (c : AppController) (h : OneLoad c) : OneLoad c.updateView := by
  have hf := updateView_frame c
  unfold OneLoad at h ⊢
  rw [hf.2.1, hf.2.2.2.1, h]
  cases c.isRendering <;> simp

theorem oneLoad_settle (c : AppController) (rejection : Option String) (h : OneLoad c) :
    OneLoad (c.settle rejection) := by
  have hf := settle_frame c rejection
  unfold OneLoad at h ⊢
  rw [hf.2.2.1, hf.2.2.2.1, h]
  cases c.isRendering <;> simp

theorem oneLoad_of_fields (c d : AppController) (h : OneLoad c)
    (h1 : d.inFlight = c.inFlight) (h2 : d.isRendering = c.isRendering) : OneLoad d := by
  unfold OneLoad at h ⊢
  rw [h1, h2, h]

theorem oneLoad_handleNext (c : AppController) (h : OneLoad c) : OneLoad c.handleNext := by
  unfold handleNext
  simp only []
  split
  · exact oneLoad_updateView _ (oneLoad_of_fields c _ h rfl rfl)
  · exact oneLoad_of_fields c _ h rfl rfl

theorem oneLoad_handlePrev (c : AppController) (h : OneLoad c) : OneLoad c.handlePrev := by
  unfold handlePrev
  simp only []
  split
  · exact oneLoad_updateView _ (oneLoad_of_fields c _ h rfl rfl)
  · exact oneLoad_of_fields c _ h rfl rfl

theorem oneLoad_step (c : AppController) (e : Step) (h : OneLoad c) : OneLoad (c.step e) := by
  cases e with
  | next => exact oneLoad_handleNext c h
  | prev => exact oneLoad_handlePrev c h
  | change parsed =>
    simp only [step, onInputChange]
    split
    · exact h
    · split
      · exact oneLoad_of_fields c _ h rfl rfl
      · split
        · exact oneLoad_updateView _ (oneLoad_of_fields c _ h rfl rfl)
        · exact oneLoad_of_fields c _ h rfl rfl
  | keydown key inputFocused =>
    simp only [step, onKeydown]
    split
    · exact h
    · split
      · exact oneLoad_handleNext c h
      · split
        · exact oneLoad_handlePrev c h
        · exact h
  | settle rejection => exact oneLoad_settle c rejection h
  | frame => exact oneLoad_of_fields c _ h rfl rfl

theorem oneLoad_run (steps : List Step) : ∀ c : AppController, OneLoad c → OneLoad (c.run steps) := by
  induction steps with
  | nil => intro c h; exact h
  | cons e es ih => intro c h; exact ih _ (oneLoad_step c e h)

theorem oneLoad_init (config : AppConfig) (modelNumberInput : Option NumberInput)
    (nextBtn prevBtn : Option Button) (currentModelLabel : Option Label)
    (canvas3d : Option Canvas) (models : Option (List Value)) :
    OneLoad ((create config modelNumberInput nextBtn prevBtn currentModelLabel canvas3d).init
      models) := by
  unfold init setupEvents
  exact oneLoad_of_fields _ _ (oneLoad_updateView _ (by unfold OneLoad; rfl)) rfl rfl

theorem handleNext_of_lt (c : AppController)
    (h : c.modelManager.currentIndex < (c.modelManager.availableModels.length : Int) - 1) :
    c.handleNext =
      updateView { c with
        modelManager := { c.modelManager with currentIndex := c.modelManager.currentIndex + 1 } } := by
  simp [handleNext, ModelManager.nextModel, h]

/-- The effect of `handleNext()` below the last index on the manager, the flag and the calls of
`render3D`. -/
theorem handleNext_frame (c : AppController)
    (h : c.modelManager.currentIndex < (c.modelManager.availableModels.length : Int) - 1) :
    c.handleNext.modelManager
        = { c.modelManager with currentIndex := c.modelManager.currentIndex + 1 }
      ∧ c.handleNext.isRendering = true
      ∧ c.handleNext.render3DCalls =
        (if c.isRendering then c.render3DCalls
          else c.render3DCalls ++
            [(Value.index c.modelManager.availableModels (c.modelManager.currentIndex + 1)).or
              Value.null])
      ∧ c.handleNext.inFlight = (if c.isRendering then c.inFlight else c.inFlight + 1)
      ∧ c.handleNext.currentModelLabel = c.currentModelLabel.map (fun (_ : Label) =>
        (⟨toString (c.modelManager.currentIndex + 1 + 1) ++ "/"
          ++ toString c.modelManager.availableModels.length⟩ : Label)) := by
  rw [handleNext_of_lt c h]
  have hf := updateView_frame { c with
    modelManager := { c.modelManager with currentIndex := c.modelManager.currentIndex + 1 } }
  have hu := updateView_ui { c with
    modelManager := { c.modelManager with currentIndex := c.modelManager.currentIndex + 1 } }
  exact ⟨hf.1, hf.2.1, hf.2.2.1, hf.2.2.2.1, hu.1⟩

theorem started_frame (models : List Value) (hne : models ≠ []) :
    (started models).modelManager = ⟨"models/", 100, models, 0⟩
      ∧ (started models).isRendering = true
      ∧ (started models).render3DCalls = [(Value.index models 0).or Value.null]
      ∧ (started models).inFlight = 1
      ∧ (started models).currentModelLabel
        = some ⟨toString ((0 : Int) + 1) ++ "/" ++ toString models.length⟩ := by
  cases models with
  | nil => exact absurd rfl hne
  | cons v vs =>
    have hf := updateView_frame { (create appConfig (some ⟨false, 0, 0, 0⟩) (some ⟨false⟩)
      (some ⟨false⟩) (some ⟨""⟩) (some ⟨none, false⟩)) with
        modelManager := (ModelManager.create appConfig).detectAvailableModels (some (v :: vs)) }
    have hu := updateView_ui { (create appConfig (some ⟨false, 0, 0, 0⟩) (some ⟨false⟩)
      (some ⟨false⟩) (some ⟨""⟩) (some ⟨none, false⟩)) with
        modelManager := (ModelManager.create appConfig).detectAvailableModels (some (v :: vs)) }
    exact ⟨hf.1, hf.2.1, hf.2.2.1, hf.2.2.2.1, hu.1⟩

/-- The manager, the flag, the calls of `render3D` and the number of unsettled promises. -/
theorem settle_core (c : AppController) (rejection : Option String) (m : ModelManager)
    (calls : List Value) (n : Nat) (hm : c.modelManager = m) (hc : c.render3DCalls = calls)
    (hn : c.inFlight = n + 1) :
    (c.settle rejection).modelManager = m ∧ (c.settle rejection).isRendering = false
      ∧ (c.settle rejection).render3DCalls = calls ∧ (c.settle rejection).inFlight = n := by
  have hf := settle_frame c rejection
  rw [hf.1, hf.2.1, hf.2.2.1, hf.2.2.2.1, hm, hc, hn]
  simp

theorem handleNext_core (c : AppController) (path : String) (limit : Nat) (models : List Value)
    (i : Int) (busy : Bool) (calls : List Value) (n : Nat)
    (hm : c.modelManager = ⟨path, limit, models, i⟩) (hb : c.isRendering = busy)
    (hc : c.render3DCalls = calls) (hn : c.inFlight = n) (hi : i < (models.length : Int) - 1) :
    c.handleNext.modelManager = ⟨path, limit, models, i + 1⟩
      ∧ c.handleNext.isRendering = true
      ∧ c.handleNext.render3DCalls =
        (if busy then calls else calls ++ [(Value.index models (i + 1)).or Value.null])
      ∧ c.handleNext.inFlight = (if busy then n else n + 1) := by
  have hf := handleNext_frame c (by rw [hm]; exact hi)
  rw [hf.1, hf.2.1, hf.2.2.1, hf.2.2.2.1, hm, hb, hc, hn]
  exact ⟨rfl, rfl, rfl, rfl⟩

/-- C16: while `isRendering` is set, `updateView()` writes the label, the buttons and the input
from the index but records no call of `render3D`, leaves the number of unsettled promises
as it is, and nothing is called when the promise settles afterwards: the request is not kept.
On every page, with every manifest and after every sequence of steps (next, previous, input
change, key, settle, animation frame) at most one promise of `render3D` is unsettled. With at
least three models: after `init()` the first load settles, `handleNext()` is called twice, the
second time while the load that the first call started is unsettled, and that load settles;
then no load is unsettled, `currentIndex` is 2, the label reads `3/n`, and the calls of
`render3D` were `availableModels[0] || null` and `availableModels[1] || null`, the last for the
model at index 1. When both calls of `handleNext()` come before the load started by `init()`
settles, `currentIndex` is 2 and the only call was for the model at index 0. -/
theorem guard_drops_requests (models : List Value) (h3 : 3 ≤ models.length) :
    (∀ c : AppController, c.isRendering = true →
        c.updateView.render3DCalls = c.render3DCalls
          ∧ c.updateView.inFlight = c.inFlight
          ∧ c.updateView.isRendering = true
          ∧ c.updateView.modelManager = c.modelManager
          ∧ c.updateView.currentModelLabel = c.currentModelLabel.map (fun (_ : Label) =>
            (⟨toString (c.modelManager.currentIndex + 1) ++ "/"
              ++ toString c.modelManager.availableModels.length⟩ : Label))
          ∧ c.updateView.nextBtn = c.nextBtn.map (fun (_ : Button) =>
            (⟨decide (c.modelManager.currentIndex
              ≥ (c.modelManager.availableModels.length : Int) - 1)⟩ : Button))
          ∧ c.updateView.prevBtn = c.prevBtn.map (fun (_ : Button) =>
            (⟨decide (c.modelManager.currentIndex ≤ 0)⟩ : Button))
          ∧ ∀ rejection, (c.updateView.settle rejection).render3DCalls = c.render3DCalls)
      ∧ (∀ (config : AppConfig) (modelNumberInput : Option NumberInput)
          (nextBtn prevBtn : Option Button) (currentModelLabel : Option Label)
          (canvas3d : Option Canvas) (manifest : Option (List Value)) (steps : List Step),
          (((create config modelNumberInput nextBtn prevBtn currentModelLabel canvas3d).init
            manifest).run steps).inFlight ≤ 1)
      ∧ ((started models).run [Step.settle none, Step.next, Step.next]).inFlight = 1
      ∧ ((started models).run
          [Step.settle none, Step.next, Step.next, Step.settle none]).modelManager.currentIndex = 2
      ∧ ((started models).run
          [Step.settle none, Step.next, Step.next, Step.settle none]).modelManager.availableModels
        = models
      ∧ ((started models).run
          [Step.settle none, Step.next, Step.next, Step.settle none]).isRendering = false
      ∧ ((started models).run
          [Step.settle none, Step.next, Step.next, Step.settle none]).inFlight = 0
      ∧ ((started models).run
          [Step.settle none, Step.next, Step.next, Step.settle none]).render3DCalls
        = [(Value.index models 0).or Value.null, (Value.index models 1).or Value.null]
      ∧ ((started models).run
          [Step.settle none, Step.next, Step.next, Step.settle none]).currentModelLabel
        = some ⟨"3/" ++ toString models.length⟩
      ∧ ((started models).run
          [Step.next, Step.next, Step.settle none]).modelManager.currentIndex = 2
      ∧ ((started models).run [Step.next, Step.next, Step.settle none]).inFlight = 0
      ∧ ((started models).run [Step.next, Step.next, Step.settle none]).render3DCalls
        = [(Value.index models 0).or Value.null] := by
  have hne : models ≠ [] := by
    intro h; rw [h] at h3; simp at h3
  have hl0 : (0 : Int) < (models.length : Int) - 1 := by omega
  have hl1 : (0 : Int) + 1 < (models.length : Int) - 1 := by omega
  have hs0 := started_frame models hne
  generalize started models = s0 at hs0 ⊢
  simp only [run, List.foldl_cons, List.foldl_nil, step]
  -- the load of `init()` settles first
  have hs1 := settle_core s0 none _ _ 0 hs0.1 hs0.2.2.1 hs0.2.2.2.1
  have hu1 := (settle_frame s0 none).2.2.2.2
  generalize s0.settle none = s1 at hs1 hu1 ⊢
  have hs2 := handleNext_core s1 _ _ _ _ _ _ _ hs1.1 hs1.2.1 hs1.2.2.1 hs1.2.2.2 hl0
  have hu2 := (handleNext_frame s1 (by rw [hs1.1]; exact hl0)).2.2.2.2
  generalize s1.handleNext = s2 at hs2 hu2 ⊢
  have hs3 := handleNext_core s2 _ _ _ _ _ _ _ hs2.1 hs2.2.1 hs2.2.2.1 hs2.2.2.2 hl1
  have hu3 := (handleNext_frame s2 (by rw [hs2.1]; exact hl1)).2.2.2.2
  generalize s2.handleNext = s3 at hs3 hu3 ⊢
  have hs4 := settle_core s3 none _ _ 0 hs3.1 hs3.2.2.1 hs3.2.2.2
  have hu4 := (settle_frame s3 none).2.2.2.2
  generalize s3.settle none = s4 at hs4 hu4 ⊢
  -- both calls come while the load of `init()` is unsettled
  have ht1 := handleNext_core s0 _ _ _ _ _ _ _ hs0.1 hs0.2.1 hs0.2.2.1 hs0.2.2.2.1 hl0
  generalize s0.handleNext = t1 at ht1 ⊢
  have ht2 := handleNext_core t1 _ _ _ _ _ _ _ ht1.1 ht1.2.1 ht1.2.2.1 ht1.2.2.2 hl1
  generalize t1.handleNext = t2 at ht2 ⊢
  have ht3 := settle_core t2 none _ _ 0 ht2.1 ht2.2.2.1 ht2.2.2.2
  generalize t2.settle none = t3 at ht3 ⊢
  refine ⟨fun c hc => ?_, ?_, hs3.2.2.2, ?_, ?_, hs4.2.1, hs4.2.2.2, hs4.2.2.1, ?_, ?_,
    ht3.2.2.2, ht3.2.2.1⟩
  · have hf := updateView_frame c
    have hu := updateView_ui c
    rw [hc] at hf
    refine ⟨hf.2.2.1, hf.2.2.2.1, hf.2.1, hf.1, hu.1, hu.2.1, hu.2.2.1, fun rejection => ?_⟩
    rw [(settle_frame c.updateView rejection).2.1]
    exact hf.2.2.1
  · intro config modelNumberInput nextBtn prevBtn currentModelLabel canvas3d manifest steps
    have h := oneLoad_run steps _
      (oneLoad_init config modelNumberInput nextBtn prevBtn currentModelLabel canvas3d manifest)
    unfold OneLoad run at h
    rw [h]
    split <;> simp
  · exact congrArg ModelManager.currentIndex hs4.1
  · exact congrArg ModelManager.availableModels hs4.1
  · rw [hu4, hu3, hu2, hu1, hs0.2.2.2.2, hs2.1]
    have hthree : toString ((0 : Int) + 1 + 1 + 1) ++ "/" = "3/" := by rfl
    simp only [Option.map_some', hthree, hs1.1]
  · exact congrArg ModelManager.currentIndex ht3.1

theorem guard_drops_requests_witness :
    3 ≤ sampleModels.length
      ∧ ((started sampleModels).run
          [Step.settle none, Step.next, Step.next, Step.settle none]).modelManager.currentIndex = 2
      ∧ ((started sampleModels).run
          [Step.settle none, Step.next, Step.next, Step.settle none]).render3DCalls
        = [Value.string "a.glb", Value.string "b.glb"]
      ∧ ((started sampleModels).run
          [Step.settle none, Step.next, Step.next, Step.settle none]).inFlight = 0 :=
  have h := guard_drops_requests sampleModels (by decide)
  ⟨by decide, h.2.2.2.1, h.2.2.2.2.2.2.2.1, h.2.2.2.2.2.2.1⟩

end AppController

end Solidos
